import Mathlib

/-!
# Synced control gateway (rts/Lua/LuaSyncedCtrl.cpp)

A shallow embedding of the parts of `LuaSyncedCtrl.cpp` that the resource
ledger, the authorization checks, the recursion counters, the rules-param
store and the order dispatch are made of, with theorems about them.

Conventions of the embedding
* `lua_Number` (a C float in the engine) is modelled by `ℚ`; rounding is not
  modelled.
* A Lua table is the list of its (key, value) entries in the order in which
  `lua_next` visits them.
* A gateway function takes the Lua state `L` (argument stack, calling
  context) and the game state and returns the new game state together with
  either the values it pushed or the error it raised.  The state is returned
  on the error path too: `luaL_error` unwinds the C function, it does not
  undo what the function already wrote.
-/

namespace LuaSyncedCtrl

/-! ## Lua values and the Lua C API

The Lua runtime and the helpers of Lua/LuaInclude.h (`luaL_optboolean`,
`lua_israwnumber`, `lua_toint`, ...) are not among the sources; the functions
of this section follow the Lua 5.1 reference manual: `lua_isnumber` and
`lua_isstring` accept what converts, the `raw` tests compare the type tag,
`luaL_check*` raise on a value of the wrong type and `luaL_opt*` return the
default for none or nil and check otherwise. -/

/-- A Lua value.  A table is the list of its entries in traversal order. -/
inductive LuaValue where
  | nil
  | boolean (b : Bool)
  | number (x : ℚ)
  | string (s : String)
  | table (entries : List (LuaValue × LuaValue))

instance : Inhabited LuaValue := ⟨LuaValue.nil⟩

/-- The Lua state a gateway function is called with: the argument stack, the
calling context of the handle (`CLuaHandle::GetHandleFullCtrl`,
`GetHandleCtrlTeam`, `GetHandleAllowChanges`) and the two conversions of the
Lua runtime between strings and numbers (`luaO_str2d`, `lua_number2str`),
which this development does not fix. -/
structure lua_State where
  stack : List LuaValue := []
  fullCtrl : Bool := true
  ctrlTeam : Int := 0
  allowChanges : Bool := true
  str2d : String → Option ℚ := fun _ => none
  num2str : ℚ → String := fun _ => "0"

/-- The value at stack index `i` (1-based); an index above the top reads as nil. -/
def lua_State.arg (L : lua_State) (i : Nat) : LuaValue :=
  L.stack.getD (i - 1) LuaValue.nil

/-- What a gateway function yields: the pushed return values or the raised error. -/
abbrev LuaResult := Except String (List LuaValue)

def lua_israwnumber : LuaValue → Bool
  | .number _ => true
  | _ => false

def lua_israwstring : LuaValue → Bool
  | .string _ => true
  | _ => false

def lua_israwboolean : LuaValue → Bool
  | .boolean _ => true
  | _ => false

def lua_isboolean : LuaValue → Bool
  | .boolean _ => true
  | _ => false

def lua_istable : LuaValue → Bool
  | .table _ => true
  | _ => false

def lua_isnoneornil : LuaValue → Bool
  | .nil => true
  | _ => false

/-- `lua_isnumber`: a number, or a string the runtime converts to a number. -/
def lua_isnumber (L : lua_State) : LuaValue → Bool
  | .number _ => true
  | .string s => (L.str2d s).isSome
  | _ => false

/-- `lua_isstring`: a string or a number. -/
def lua_isstring : LuaValue → Bool
  | .string _ => true
  | .number _ => true
  | _ => false

/-- `lua_tonumber` / `lua_tofloat`: 0 when the value does not convert. -/
def lua_tofloat (L : lua_State) : LuaValue → ℚ
  | .number x => x
  | .string s => (L.str2d s).getD 0
  | _ => 0

/-- The conversion of the Lua runtime from a number to an integer
(`lua_number2int`): truncation towards zero.  The integer is unbounded here;
the ids, counts and flags that the gateway reads through `lua_toint` lie far
inside the range of `int`, and numbers beyond it are outside this model. -/
def lua_number2int (x : ℚ) : Int :=
  Int.tdiv x.num (x.den : Int)

/-- `INT_MIN` of the 32-bit `int`. -/
def INT_MIN : Int := -2147483648

/-- `INT_MAX` of the 32-bit `int`. -/
def INT_MAX : Int := 2147483647

/-- The C cast `(int)f` of a float to the 32-bit `int`: truncation towards
zero when the truncated value lies between `INT_MIN` and `INT_MAX`.  Beyond
that range the cast is undefined in C++; the x86 conversion instruction the
engine is compiled to yields `INT_MIN` there, which is what the model takes. -/
def float2int (x : ℚ) : Int :=
  if INT_MIN ≤ lua_number2int x ∧ lua_number2int x ≤ INT_MAX then lua_number2int x else INT_MIN

def lua_toint (L : lua_State) (v : LuaValue) : Int :=
  lua_number2int (lua_tofloat L v)

def lua_toboolean : LuaValue → Bool
  | .nil => false
  | .boolean b => b
  | _ => true

/-- `lua_tostring`: the string itself, or the number printed by the runtime
(the empty string stands for the NULL returned for every other type). -/
def lua_tostring (L : lua_State) : LuaValue → String
  | .string s => s
  | .number x => L.num2str x
  | _ => ""

/-- The entries of a table (`lua_pushnil` / `lua_next` loop); none for a non-table. -/
def lua_entries : LuaValue → List (LuaValue × LuaValue)
  | .table es => es
  | _ => []

/-- First character `s[0]` of a C string: NUL for the empty string. -/
def firstChar (s : String) : Char :=
  s.toList.headD (Char.ofNat 0)

def luaL_checkint (L : lua_State) (v : LuaValue) : Except String Int :=
  if lua_isnumber L v then .ok (lua_toint L v) else .error "number expected"

def luaL_checkfloat (L : lua_State) (v : LuaValue) : Except String ℚ :=
  if lua_isnumber L v then .ok (lua_tofloat L v) else .error "number expected"

def luaL_checkstring (L : lua_State) (v : LuaValue) : Except String String :=
  if lua_isstring v then .ok (lua_tostring L v) else .error "string expected"

def luaL_checkboolean (v : LuaValue) : Except String Bool :=
  match v with
  | .boolean b => .ok b
  | _ => .error "boolean expected"

/-- `luaL_optint(L, n, d)`: `d` for none or nil, else `luaL_checkint`. -/
def luaL_optint (L : lua_State) (v : LuaValue) (d : Int) : Except String Int :=
  if lua_isnoneornil v then .ok d else luaL_checkint L v

/-- `luaL_optboolean(L, n, d)`: `d` for none or nil, else `luaL_checkboolean`. -/
def luaL_optboolean (v : LuaValue) (d : Bool) : Except String Bool :=
  if lua_isnoneornil v then .ok d else luaL_checkboolean v

/-! ## Teams and the resource ledger -/

/-- `SResourcePack`: one amount per resource kind. -/
structure SResourcePack where
  metal : ℚ := 0
  energy : ℚ := 0

/-- The value a rules-param holds. -/
inductive ParamValue where
  | number (x : ℚ)
  | boolean (b : Bool)
  | string (s : String)

/-- `LuaRulesParams::Param`: a value and its visibility mask. -/
structure Param where
  value : ParamValue
  los : Int

/-- `LuaRulesParams::Params`: the entries of the map, at most one per key. -/
abbrev Params := List (String × Param)

/-- The four counters of `TeamStatistics` that resource sharing updates. -/
structure TeamStatistics where
  metalSent : ℚ := 0
  metalReceived : ℚ := 0
  energySent : ℚ := 0
  energyReceived : ℚ := 0

/-- The fields of `CTeam` the gateway reads and writes; `currentStats` is what
`GetCurrentStats()` returns. -/
structure CTeam where
  res : SResourcePack := {}
  resStorage : SResourcePack := {}
  resShare : SResourcePack := {}
  resPull : SResourcePack := {}
  resSent : SResourcePack := {}
  resReceived : SResourcePack := {}
  modParams : Params := []
  currentStats : TeamStatistics := {}

/-- Modelled from the spec: `CTeam::UseMetal` (Sim/Misc/Team.cpp is not among
the sources).  Spec 4.3: Use "atomically checks `current ≥ amount` before
subtracting; returns false and leaves state unchanged if insufficient". -/
def CTeam.UseMetal (t : CTeam) (amount : ℚ) : Bool × CTeam :=
  if t.res.metal ≥ amount then
    (true, { t with res := { t.res with metal := t.res.metal - amount } })
  else (false, t)

/-- Modelled from the spec: `CTeam::UseEnergy` (Sim/Misc/Team.cpp is not among
the sources), the energy counterpart of `CTeam.UseMetal`. -/
def CTeam.UseEnergy (t : CTeam) (amount : ℚ) : Bool × CTeam :=
  if t.res.energy ≥ amount then
    (true, { t with res := { t.res with energy := t.res.energy - amount } })
  else (false, t)

/-- Modelled from the spec: `CTeam::AddMetal` (Sim/Misc/Team.cpp is not among
the sources).  Spec 4.3 `Add(team, kind, amount≥0)` under the ResourcePack
invariant `current ≤ storageCap` after every mutation. -/
def CTeam.AddMetal (t : CTeam) (amount : ℚ) : CTeam :=
  { t with res := { t.res with metal := min t.resStorage.metal (t.res.metal + amount) } }

/-- Modelled from the spec: `CTeam::AddEnergy`, the energy counterpart of
`CTeam.AddMetal`. -/
def CTeam.AddEnergy (t : CTeam) (amount : ℚ) : CTeam :=
  { t with res := { t.res with energy := min t.resStorage.energy (t.res.energy + amount) } }

/-! ## Game state -/

/-- A `Command`: id, parameters, option bits and timeout frame. -/
structure Command where
  id : Int := 0
  params : List ℚ := []
  options : Nat := 0
  timeout : Int := 0
deriving DecidableEq

/-- `float3`: a vector of three floats. -/
structure float3 where
  x : ℚ := 0
  y : ℚ := 0
  z : ℚ := 0

/-- The fields of `CUnit` the gateway reads and writes; `commandQue` is the
queue of the unit's `commandAI`. -/
structure CUnit where
  id : Int := 0
  team : Int := 0
  isDead : Bool := false
  commandQue : List Command := []
  modParams : Params := []
  health : ℚ := 0
  maxHealth : ℚ := 0
  paralyzeDamage : ℚ := 0
  captureProgress : ℚ := 0
  buildProgress : ℚ := 0
  stunned : Bool := false
  losStatus : Nat → Nat := fun _ => 0
  speed : float3 := {}
  resourcesCondUse : SResourcePack := {}
  resourcesCondMake : SResourcePack := {}
  resourcesUncondUse : SResourcePack := {}
  resourcesUncondMake : SResourcePack := {}

/-- The state the gateway works on: the teams of `teamHandler`, the units of
`unitHandler`, the static recursion counters of `LuaSyncedCtrl`, and the log
into which the event handler writes the errors of the call-ins it runs;
`activeAllyTeams` is the number of ally teams of `teamHandler`.  The fields
from `inHeightMap` on are the static height-map state of `LuaSyncedCtrl`;
`heightMap` is the synced corner height map of `readMap` and `smoothMesh` the
mesh data of `smoothGround`, both by index. -/
structure Game where
  teams : List CTeam := []
  units : List CUnit := []
  inCreateUnit : Int := 0
  inDestroyUnit : Int := 0
  inTransferUnit : Int := 0
  inCreateFeature : Int := 0
  inDestroyFeature : Int := 0
  inGiveOrder : Int := 0
  errorLog : List String := []
  activeAllyTeams : Nat := 0
  inHeightMap : Bool := false
  inSmoothMesh : Bool := false
  heightMapx1 : Int := 0
  heightMapx2 : Int := 0
  heightMapz1 : Int := 0
  heightMapz2 : Int := 0
  heightMapAmountChanged : ℚ := 0
  originalHeightMapAmountChanged : ℚ := 0
  smoothMeshAmountChanged : ℚ := 0
  heightMap : Int → ℚ := fun _ => 0
  smoothMesh : Int → ℚ := fun _ => 0

/-- `teamHandler.IsValidTeam(id)`: `0 <= id < ActiveTeams()`. -/
def Game.IsValidTeam (g : Game) (teamID : Int) : Bool :=
  decide (0 ≤ teamID) && decide (teamID < (g.teams.length : Int))

/-- `teamHandler.Team(id)`. -/
def Game.Team (g : Game) (teamID : Int) : Option CTeam :=
  if 0 ≤ teamID then g.teams[teamID.toNat]? else none

/-- Writing through the pointer returned by `teamHandler.Team(id)`. -/
def Game.setTeam (g : Game) (teamID : Int) (t : CTeam) : Game :=
  if 0 ≤ teamID then { g with teams := g.teams.set teamID.toNat t } else g

def FullCtrl (L : lua_State) : Bool := L.fullCtrl

def CtrlTeam (L : lua_State) : Int := L.ctrlTeam

/-- Modelled from the spec: `CanControlTeam` (Lua/LuaUtils.h is not among the
sources).  Spec 4.1: "unrestricted callers may act on any team; restricted
callers may act only on their own team". -/
def CanControlTeam (L : lua_State) (teamID : Int) : Bool :=
  FullCtrl L || CtrlTeam L == teamID

/-- Modelled from the spec: `CanControlUnit` (Lua/LuaUtils.h is not among the
sources).  Spec 4.1: `CanControl` is "specialized for units ... by first
resolving the entity's owning team". -/
def CanControlUnit (L : lua_State) (unit : CUnit) : Bool :=
  CanControlTeam L unit.team

/-! ## Team resources -/

/-- `LuaSyncedCtrl::AddTeamResource`. -/
def AddTeamResource (L : lua_State) (g : Game) : Game × LuaResult :=
  match luaL_checkint L (L.arg 1) with
  | .error e => (g, .error e)
  | .ok teamID =>
    if !g.IsValidTeam teamID then (g, .ok [])
    else if !CanControlTeam L teamID then (g, .ok [])
    else
      match g.Team teamID with
      | none => (g, .ok [])
      | some team =>
        match luaL_checkstring L (L.arg 2) with
        | .error e => (g, .error e)
        | .ok type =>
          match luaL_checkfloat L (L.arg 3) with
          | .error e => (g, .error e)
          | .ok v =>
            let value := max 0 v
            if firstChar type = 'm' then (g.setTeam teamID (team.AddMetal value), .ok [])
            else if firstChar type = 'e' then (g.setTeam teamID (team.AddEnergy value), .ok [])
            else (g, .ok [])

/-- One step of the table loop of `UseTeamResource` and `UseUnitResource`:
an entry with a raw-string key and a numeric value sets the metal or the
energy amount, by the first character of the key, to `max(0, value)`. -/
def resourceUsageStep (L : lua_State) (acc : ℚ × ℚ) (kv : LuaValue × LuaValue) : ℚ × ℚ :=
  if !lua_israwstring kv.1 || !lua_isnumber L kv.2 then acc
  else
    let key := lua_tostring L kv.1
    let value := lua_tofloat L kv.2
    if firstChar key = 'm' then (max 0 value, acc.2)
    else if firstChar key = 'e' then (acc.1, max 0 value)
    else acc

/-- The table loop of `UseTeamResource` and `UseUnitResource`: the pair
(metal, energy) it leaves, both starting at 0. -/
def ParseResourceUsage (L : lua_State) (entries : List (LuaValue × LuaValue)) : ℚ × ℚ :=
  entries.foldl (resourceUsageStep L) (0, 0)

/-- `LuaSyncedCtrl::UseTeamResource`. -/
def UseTeamResource (L : lua_State) (g : Game) : Game × LuaResult :=
  match luaL_checkint L (L.arg 1) with
  | .error e => (g, .error e)
  | .ok teamID =>
    if !g.IsValidTeam teamID then (g, .ok [])
    else if !CanControlTeam L teamID then (g, .ok [])
    else
      match g.Team teamID with
      | none => (g, .ok [])
      | some team =>
        if lua_isstring (L.arg 2) then
          let type := lua_tostring L (L.arg 2)
          match luaL_checkfloat L (L.arg 3) with
          | .error e => (g, .error e)
          | .ok v =>
            let value := max 0 v
            if firstChar type = 'm' then
              let team1 := { team with resPull := { team.resPull with metal := team.resPull.metal + value } }
              let r := team1.UseMetal value
              (g.setTeam teamID r.2, .ok [.boolean r.1])
            else if firstChar type = 'e' then
              let team1 := { team with resPull := { team.resPull with energy := team.resPull.energy + value } }
              let r := team1.UseEnergy value
              (g.setTeam teamID r.2, .ok [.boolean r.1])
            else (g, .ok [])
        else if lua_istable (L.arg 2) then
          let me := ParseResourceUsage L (lua_entries (L.arg 2))
          let metal := me.1
          let energy := me.2
          let team1 := { team with resPull :=
            { metal := team.resPull.metal + metal, energy := team.resPull.energy + energy } }
          if team1.res.metal ≥ metal ∧ team1.res.energy ≥ energy then
            let team2 := (team1.UseMetal metal).2
            let team3 := (team2.UseEnergy energy).2
            (g.setTeam teamID team3, .ok [.boolean true])
          else
            (g.setTeam teamID team1, .ok [.boolean false])
        else (g, .error "bad arguments")

/-- `LuaSyncedCtrl::SetTeamResource`; the `hashString` switch is a comparison
of the key with the eight names. -/
def SetTeamResource (L : lua_State) (g : Game) : Game × LuaResult :=
  match luaL_checkint L (L.arg 1) with
  | .error e => (g, .error e)
  | .ok teamID =>
    if !g.IsValidTeam teamID then (g, .ok [])
    else if !CanControlTeam L teamID then (g, .ok [])
    else
      match g.Team teamID with
      | none => (g, .ok [])
      | some team =>
        match luaL_checkfloat L (L.arg 3) with
        | .error e => (g, .error e)
        | .ok v =>
          let value := max 0 v
          match luaL_checkstring L (L.arg 2) with
          | .error e => (g, .error e)
          | .ok key =>
            if key = "m" ∨ key = "metal" then
              (g.setTeam teamID { team with res := { team.res with metal := min team.resStorage.metal value } }, .ok [])
            else if key = "e" ∨ key = "energy" then
              (g.setTeam teamID { team with res := { team.res with energy := min team.resStorage.energy value } }, .ok [])
            else if key = "ms" ∨ key = "metalStorage" then
              (g.setTeam teamID { team with
                resStorage := { team.resStorage with metal := value },
                res := { team.res with metal := min team.res.metal value } }, .ok [])
            else if key = "es" ∨ key = "energyStorage" then
              (g.setTeam teamID { team with
                resStorage := { team.resStorage with energy := value },
                res := { team.res with energy := min team.res.energy value } }, .ok [])
            else (g, .ok [])

/-- `LuaSyncedCtrl::SetTeamShareLevel`; `std::clamp(value, 0, 1)`. -/
def SetTeamShareLevel (L : lua_State) (g : Game) : Game × LuaResult :=
  match luaL_checkint L (L.arg 1) with
  | .error e => (g, .error e)
  | .ok teamID =>
    if !g.IsValidTeam teamID then (g, .ok [])
    else if !CanControlTeam L teamID then (g, .ok [])
    else
      match g.Team teamID with
      | none => (g, .ok [])
      | some team =>
        match luaL_checkstring L (L.arg 2) with
        | .error e => (g, .error e)
        | .ok type =>
          match luaL_checkfloat L (L.arg 3) with
          | .error e => (g, .error e)
          | .ok value =>
            let clamped := if value < 0 then 0 else if 1 < value then 1 else value
            if firstChar type = 'm' then
              (g.setTeam teamID { team with resShare := { team.resShare with metal := clamped } }, .ok [])
            else if firstChar type = 'e' then
              (g.setTeam teamID { team with resShare := { team.resShare with energy := clamped } }, .ok [])
            else (g, .ok [])

/-- Writing through the pointer `teamHandler.Team(id)`: the team becomes `f team`. -/
def Game.modifyTeam (g : Game) (teamID : Int) (f : CTeam → CTeam) : Game :=
  match g.Team teamID with
  | some team => g.setTeam teamID (f team)
  | none => g

/-- The three assignments through `team1` in the metal branch of
`ShareTeamResource`. -/
def CTeam.sendMetal (amount : ℚ) (t : CTeam) : CTeam :=
  { t with
    res := { t.res with metal := t.res.metal - amount },
    resSent := { t.resSent with metal := t.resSent.metal + amount },
    currentStats := { t.currentStats with metalSent := t.currentStats.metalSent + amount } }

/-- The three assignments through `team2` in the metal branch of
`ShareTeamResource`. -/
def CTeam.receiveMetal (amount : ℚ) (t : CTeam) : CTeam :=
  { t with
    res := { t.res with metal := t.res.metal + amount },
    resReceived := { t.resReceived with metal := t.resReceived.metal + amount },
    currentStats := { t.currentStats with metalReceived := t.currentStats.metalReceived + amount } }

/-- The three assignments through `team1` in the energy branch of
`ShareTeamResource`. -/
def CTeam.sendEnergy (amount : ℚ) (t : CTeam) : CTeam :=
  { t with
    res := { t.res with energy := t.res.energy - amount },
    resSent := { t.resSent with energy := t.resSent.energy + amount },
    currentStats := { t.currentStats with energySent := t.currentStats.energySent + amount } }

/-- The three assignments through `team2` in the energy branch of
`ShareTeamResource`. -/
def CTeam.receiveEnergy (amount : ℚ) (t : CTeam) : CTeam :=
  { t with
    res := { t.res with energy := t.res.energy + amount },
    resReceived := { t.resReceived with energy := t.resReceived.energy + amount },
    currentStats := { t.currentStats with energyReceived := t.currentStats.energyReceived + amount } }

/-- The six assignments of the metal branch of `ShareTeamResource`, in the
order of the source: three through `team1`, then three through `team2`, which
is the same object when the two ids are equal. -/
def Game.transferMetal (g : Game) (teamID1 teamID2 : Int) (amount : ℚ) : Game :=
  (g.modifyTeam teamID1 (CTeam.sendMetal amount)).modifyTeam teamID2 (CTeam.receiveMetal amount)

/-- The six assignments of the energy branch of `ShareTeamResource`. -/
def Game.transferEnergy (g : Game) (teamID1 teamID2 : Int) (amount : ℚ) : Game :=
  (g.modifyTeam teamID1 (CTeam.sendEnergy amount)).modifyTeam teamID2 (CTeam.receiveEnergy amount)

/-- `LuaSyncedCtrl::ShareTeamResource`; `AllowResourceTransfer` is the hook
`eventHandler.AllowResourceTransfer(teamID1, teamID2, type, amount)`, asked in
the state of the call. -/
def ShareTeamResource (AllowResourceTransfer : Game → Int → Int → String → ℚ → Bool)
    (L : lua_State) (g : Game) : Game × LuaResult :=
  match luaL_checkint L (L.arg 1) with
  | .error e => (g, .error e)
  | .ok teamID1 =>
    if !g.IsValidTeam teamID1 then (g, .error "Incorrect arguments to ShareTeamResource")
    else if !CanControlTeam L teamID1 then (g, .ok [])
    else
      match g.Team teamID1 with
      | none => (g, .ok [])
      | some team1 =>
        match luaL_checkint L (L.arg 2) with
        | .error e => (g, .error e)
        | .ok teamID2 =>
          if !g.IsValidTeam teamID2 then (g, .error "Incorrect arguments to ShareTeamResource")
          else
            match g.Team teamID2 with
            | none => (g, .ok [])
            | some _ =>
              match luaL_checkstring L (L.arg 3) with
              | .error e => (g, .error e)
              | .ok type =>
                match luaL_checkfloat L (L.arg 4) with
                | .error e => (g, .error e)
                | .ok requested =>
                  if firstChar type = 'm' then
                    let amount := min requested team1.res.metal
                    if AllowResourceTransfer g teamID1 teamID2 "m" amount then
                      (g.transferMetal teamID1 teamID2 amount, .ok [])
                    else (g, .ok [])
                  else if firstChar type = 'e' then
                    let amount := min requested team1.res.energy
                    if AllowResourceTransfer g teamID1 teamID2 "e" amount then
                      (g.transferEnergy teamID1 teamID2 amount, .ok [])
                    else (g, .ok [])
                  else (g, .ok [])

/-! ## Units -/

/-- `unitHandler.GetUnit(id)`: the unit registered under `id`, if any. -/
def Game.GetUnit (g : Game) (unitID : Int) : Option CUnit :=
  g.units.find? (fun u => u.id == unitID)

/-- Writing through a `CUnit*`: the unit registered under `unitID` becomes `f unit`. -/
def Game.modifyUnit (g : Game) (unitID : Int) (f : CUnit → CUnit) : Game :=
  { g with units := g.units.map (fun u => if u.id == unitID then f u else u) }

/-- `ParseRawUnit`. -/
def ParseRawUnit (L : lua_State) (g : Game) (v : LuaValue) : Except String (Option CUnit) :=
  match luaL_checkint L v with
  | .error e => .error e
  | .ok unitID => .ok (g.GetUnit unitID)

/-- `ParseUnit`: no unit when none is registered under the id or when the
caller may not control it. -/
def ParseUnit (L : lua_State) (g : Game) (v : LuaValue) : Except String (Option CUnit) :=
  match ParseRawUnit L g v with
  | .error e => .error e
  | .ok none => .ok none
  | .ok (some unit) => if !CanControlUnit L unit then .ok none else .ok (some unit)

/-- One step of the loop of `ParseUnitArray`: the id of the unit the entry
names is appended when the key is a raw number, the value is numeric and
`ParseUnit` finds a unit. -/
def parseUnitArrayStep (L : lua_State) (g : Game) (acc : List Int) (kv : LuaValue × LuaValue) : List Int :=
  if !lua_israwnumber kv.1 || !lua_isnumber L kv.2 then acc
  else
    match ParseUnit L g kv.2 with
    | .ok (some unit) => acc ++ [unit.id]
    | _ => acc

/-- `ParseUnitArray`; the vector of `CUnit*` is the list of the units' ids. -/
def ParseUnitArray (L : lua_State) (g : Game) (v : LuaValue) : Except String (List Int) :=
  if !lua_istable v then .error "error parsing unit array"
  else .ok ((lua_entries v).foldl (parseUnitArrayStep L g) [])

/-- Modelled from the spec: `CUnit::UseMetal` (Sim/Units/Unit.cpp is not among
the sources; declared at Unit.h:124).  Spec 4.3: check-then-use on the store
of the owning team. -/
def Game.UnitUseMetal (g : Game) (unit : CUnit) (amount : ℚ) : Bool × Game :=
  match g.Team unit.team with
  | none => (false, g)
  | some team => ((team.UseMetal amount).1, g.setTeam unit.team (team.UseMetal amount).2)

/-- Modelled from the spec: `CUnit::UseEnergy` (declared at Unit.h:126), the
energy counterpart of `Game.UnitUseMetal`. -/
def Game.UnitUseEnergy (g : Game) (unit : CUnit) (amount : ℚ) : Bool × Game :=
  match g.Team unit.team with
  | none => (false, g)
  | some team => ((team.UseEnergy amount).1, g.setTeam unit.team (team.UseEnergy amount).2)

/-- `LuaSyncedCtrl::UseUnitResource`.  `teamHandler.Team(unit->team)` is
dereferenced unchecked in the source; a unit whose team is not registered
leaves the state as it is and returns nothing. -/
def UseUnitResource (L : lua_State) (g : Game) : Game × LuaResult :=
  match ParseUnit L g (L.arg 1) with
  | .error e => (g, .error e)
  | .ok none => (g, .ok [])
  | .ok (some unit) =>
    if lua_isstring (L.arg 2) then
      let type := lua_tostring L (L.arg 2)
      if firstChar type = 'm' then
        let r := g.UnitUseMetal unit (max 0 (lua_tofloat L (L.arg 3)))
        (r.2, .ok [.boolean r.1])
      else if firstChar type = 'e' then
        let r := g.UnitUseEnergy unit (max 0 (lua_tofloat L (L.arg 3)))
        (r.2, .ok [.boolean r.1])
      else (g, .ok [])
    else if lua_istable (L.arg 2) then
      let me := ParseResourceUsage L (lua_entries (L.arg 2))
      let metal := me.1
      let energy := me.2
      match g.Team unit.team with
      | none => (g, .ok [])
      | some team =>
        if team.res.metal ≥ metal ∧ team.res.energy ≥ energy then
          let g1 := (g.UnitUseMetal unit metal).2
          let g2 := (g1.UnitUseEnergy unit energy).2
          (g2, .ok [.boolean true])
        else
          let team1 := { team with resPull :=
            { metal := team.resPull.metal + metal, energy := team.resPull.energy + energy } }
          (g.setTeam unit.team team1, .ok [.boolean false])
    else (g, .error "Incorrect arguments to UseUnitResource()")

/-! ## Rules params -/

/-- The `RULESPARAMLOS_*` bits of Lua/LuaRulesParams.h, which is not among the
sources; the functions below take them as a parameter. -/
structure RulesParamLos where
  PRIVATE : Int := 1
  ALLIED : Int := 2
  INLOS : Int := 4
  TYPED : Int := 8
  INRADAR : Int := 16
  PUBLIC : Int := 32

/-- `params.find(key)`. -/
def paramsFind (params : Params) (key : String) : Option Param :=
  List.lookup key params

/-- `params.erase(key)`. -/
def paramsErase (params : Params) (key : String) : Params :=
  params.filter (fun e => e.1 != key)

/-- Assignment to the entry `params[key]`: the entry is replaced where it
stands, or added when the map has none for the key. -/
def paramsStore (params : Params) (key : String) (p : Param) : Params :=
  if (paramsFind params key).isSome then
    params.map (fun e => if e.1 == key then (key, p) else e)
  else params ++ [(key, p)]

/-- One step of the visibility loop of `SetRulesParam`: an entry whose value
is false is skipped, then one whose key is neither string nor number; a known
name adds its bit.  `luaL_optboolean` raises on a value that is neither nil
nor boolean.  A number key passes `lua_isstring`, and `lua_tostring` then
converts it to a string in place, so that the `lua_next` that follows raises
"invalid key to 'next'" (the table holding no such string key). -/
def losMaskStep (C : RulesParamLos) (L : lua_State) (acc : Except String Int)
    (kv : LuaValue × LuaValue) : Except String Int :=
  match acc with
  | .error e => .error e
  | .ok losMask =>
    match luaL_optboolean kv.2 true with
    | .error e => .error e
    | .ok b =>
      if !b then .ok losMask
      else if !lua_isstring kv.1 then .ok losMask
      else if lua_israwnumber kv.1 then .error "invalid key to 'next'"
      else
        let name := lua_tostring L kv.1
        if name = "public" then .ok (Int.lor losMask C.PUBLIC)
        else if name = "inlos" then .ok (Int.lor losMask C.INLOS)
        else if name = "typed" then .ok (Int.lor losMask C.TYPED)
        else if name = "inradar" then .ok (Int.lor losMask C.INRADAR)
        else if name = "allied" then .ok (Int.lor losMask C.ALLIED)
        else .ok losMask

/-- `SetRulesParam(L, caller, offset, params)`: the map it leaves and whether
it returned or raised.  `params[key]` creates an entry with the default
`Param` (number 0, private) when the key is new. -/
def SetRulesParam (C : RulesParamLos) (L : lua_State) (offset : Nat) (params : Params) :
    Params × Except String Unit :=
  let valV := L.arg (offset + 2)
  let losV := L.arg (offset + 3)
  match luaL_checkstring L (L.arg (offset + 1)) with
  | .error e => (params, .error e)
  | .ok key =>
    let param : Param := (paramsFind params key).getD { value := .number 0, los := C.PRIVATE }
    let setLos (param1 : Param) : Params × Except String Unit :=
      if lua_istable losV then
        match (lua_entries losV).foldl (losMaskStep C L) (.ok C.PRIVATE) with
        | .error e => (paramsStore params key param1, .error e)
        | .ok losMask => (paramsStore params key { param1 with los := losMask }, .ok ())
      else
        match luaL_optint L losV param1.los with
        | .error e => (paramsStore params key param1, .error e)
        | .ok los => (paramsStore params key { param1 with los := los }, .ok ())
    if lua_israwnumber valV then
      setLos { param with value := .number (lua_tofloat L valV) }
    else if lua_israwboolean valV then
      setLos { param with value := .boolean (lua_toboolean valV) }
    else if lua_isstring valV then
      setLos { param with value := .string (lua_tostring L valV) }
    else if lua_isnoneornil valV then
      (paramsErase params key, .ok ())
    else
      (paramsErase params key, .error "Incorrect arguments")

/-- `ParseTeam`: an error for a non-number or an invalid team id, else the team. -/
def ParseTeam (L : lua_State) (g : Game) (v : LuaValue) : Except String (Option (Int × CTeam)) :=
  if !lua_isnumber L v then .error "Bad teamID"
  else
    let teamID := lua_toint L v
    if !g.IsValidTeam teamID then .error "Bad teamID"
    else .ok ((g.Team teamID).map (fun t => (teamID, t)))

/-- `LuaSyncedCtrl::SetTeamRulesParam`. -/
def SetTeamRulesParam (C : RulesParamLos) (L : lua_State) (g : Game) : Game × LuaResult :=
  match ParseTeam L g (L.arg 1) with
  | .error e => (g, .error e)
  | .ok none => (g, .ok [])
  | .ok (some (teamID, team)) =>
    let r := SetRulesParam C L 1 team.modParams
    let g1 := g.setTeam teamID { team with modParams := r.1 }
    match r.2 with
    | .error e => (g1, .error e)
    | .ok _ => (g1, .ok [])

/-- `LuaSyncedCtrl::SetUnitRulesParam`. -/
def SetUnitRulesParam (C : RulesParamLos) (L : lua_State) (g : Game) : Game × LuaResult :=
  match ParseUnit L g (L.arg 1) with
  | .error e => (g, .error e)
  | .ok none => (g, .ok [])
  | .ok (some unit) =>
    let r := SetRulesParam C L 1 unit.modParams
    let g1 := g.modifyUnit unit.id (fun u => { u with modParams := r.1 })
    match r.2 with
    | .error e => (g1, .error e)
    | .ok _ => (g1, .ok [])

/-! ## Recursion-guarded unit handling -/

/-- `CheckAllowGameChanges`: the error it raises, if any. -/
def CheckAllowGameChanges (L : lua_State) : Except String Unit :=
  if !L.allowChanges then .error "Unsafe attempt to change game state" else .ok ()

/-- Modelled from the spec: how the event handler runs a script call-in
(System/EventHandler and Lua/LuaHandle are not among the sources).  Spec 7: a
hard error aborts "the current script call stack frame (not the whole
simulation step)"; the error is recorded in the log and the state the
call-in reached is kept. -/
def runCallIn (f : Game → Game × LuaResult) (g : Game) : Game :=
  match f g with
  | (g1, .ok _) => g1
  | (g1, .error e) => { g1 with errorLog := g1.errorLog ++ [e] }

/-- Modelled from the spec: `CUnit::ForcedKillUnit` (Sim/Units/Unit.cpp is not
among the sources; declared at Unit.h:242).  Spec 3: "destruction marks an
entity dead"; spec 4.2: the unit's "on destroyed" handler then runs and may
re-enter the gateway. -/
def Game.ForcedKillUnit (g : Game) (UnitDestroyed : Int → Game → Game) (unitID : Int) : Game :=
  UnitDestroyed unitID (g.modifyUnit unitID (fun u => { u with isDead := true }))

/-- Modelled from the spec: `unitHandler.GarbageCollectUnit` (Sim/Units/UnitHandler
is not among the sources).  Spec 3: destruction "(optionally) immediately
reclaims its identity for reuse". -/
def Game.GarbageCollectUnit (g : Game) (unitID : Int) : Game :=
  { g with units := g.units.filter (fun u => u.id != unitID) }

/-- The error `DestroyUnit` raises at the recursion limit. -/
def destroyUnitRecursionError : String :=
  "DestroyUnit() recursion is not permitted"

/-- `LuaSyncedCtrl::DestroyUnit`; `UnitDestroyed` is the call-in that the kill
runs.  The attacker and the flags selfd and reclaimed only parametrise the
death sequence, which is outside this model. -/
def DestroyUnit (MAX_CMD_RECURSION_DEPTH : Nat) (UnitDestroyed : Int → Game → Game)
    (L : lua_State) (g : Game) : Game × LuaResult :=
  match CheckAllowGameChanges L with
  | .error e => (g, .error e)
  | .ok _ =>
    match ParseUnit L g (L.arg 1) with
    | .error e => (g, .error e)
    | .ok none => (g, .ok [])
    | .ok (some unit) =>
      match luaL_optboolean (L.arg 2) false with
      | .error e => (g, .error e)
      | .ok _selfDestr =>
        match luaL_optboolean (L.arg 3) false with
        | .error e => (g, .error e)
        | .ok _reclaimed =>
          match luaL_optboolean (L.arg 5) false with
          | .error e => (g, .error e)
          | .ok recycleID =>
            match (if !lua_isnoneornil (L.arg 4) then ParseUnit L g (L.arg 4) else .ok none) with
            | .error e => (g, .error e)
            | .ok _attacker =>
              if g.inDestroyUnit ≥ (MAX_CMD_RECURSION_DEPTH : Int) then
                (g, .error destroyUnitRecursionError)
              else
                let g1 := { g with inDestroyUnit := g.inDestroyUnit + 1 }
                let g2 := g1.ForcedKillUnit UnitDestroyed unit.id
                let g3 := if recycleID then g2.GarbageCollectUnit unit.id else g2
                ({ g3 with inDestroyUnit := g3.inDestroyUnit - 1 }, .ok [])

/-- A script that destroys the units of a list nested in one another: the
call-in run by the kill of the first unit destroys the second, and so on. -/
def destroyChain (MAX_CMD_RECURSION_DEPTH : Nat) (L : lua_State) : List Int → Game → Game
  | [] => fun g => g
  | u :: rest =>
    runCallIn (DestroyUnit MAX_CMD_RECURSION_DEPTH
      (fun _ => destroyChain MAX_CMD_RECURSION_DEPTH L rest)
      { L with stack := [.number (u : ℚ)] })

/-- `UnitLoadParams` as `CreateUnit` fills it. -/
structure UnitLoadParams where
  unitDef : Int
  builder : Option Int
  pos : ℚ × ℚ × ℚ
  unitID : Int
  teamID : Int
  facing : Int
  beingBuilt : Bool
  flattenGround : Bool

/-- The collaborators of `CreateUnit` that are not among the sources:
`unitDefHandler`, `LuaUtils::ParseFacing`, `unitHandler.CanBuildUnit`,
`unitLoader->LoadUnit` (which runs the unit-created call-ins and returns the
id of the new unit, if any) and `CUnit::SetSoloBuilder`. -/
structure UnitServices where
  GetUnitDefByName : String → Option Int
  GetUnitDefByID : Int → Option Int
  ParseFacing : lua_State → Nat → Except String Int
  CanBuildUnit : Game → Int → Int → Bool
  LoadUnit : UnitLoadParams → Game → Game × Option Int
  SetSoloBuilder : Int → Option Int → Int → Game → Game

/-- `LuaSyncedCtrl::CreateUnit`. -/
def CreateUnit (MAX_CMD_RECURSION_DEPTH : Nat) (S : UnitServices)
    (L : lua_State) (g : Game) : Game × LuaResult :=
  match CheckAllowGameChanges L with
  | .error e => (g, .error e)
  | .ok _ =>
    if g.inCreateUnit ≥ (MAX_CMD_RECURSION_DEPTH : Int) then
      (g, .error "CreateUnit(): recursion is not permitted")
    else if !lua_israwstring (L.arg 1) && !lua_israwnumber (L.arg 1) then
      (g, .error "CreateUnit() incorrect type for first argument")
    else
      let unitDef :=
        if lua_israwstring (L.arg 1) then S.GetUnitDefByName (lua_tostring L (L.arg 1))
        else S.GetUnitDefByID (lua_toint L (L.arg 1))
      match unitDef with
      | none => (g, .error "CreateUnit(): bad unitDef")
      | some unitDef =>
        match luaL_checkfloat L (L.arg 2) with
        | .error e => (g, .error e)
        | .ok x =>
        match luaL_checkfloat L (L.arg 3) with
        | .error e => (g, .error e)
        | .ok y =>
        match luaL_checkfloat L (L.arg 4) with
        | .error e => (g, .error e)
        | .ok z =>
        match S.ParseFacing L 5 with
        | .error e => (g, .error e)
        | .ok facing =>
        match luaL_optint L (L.arg 6) (CtrlTeam L) with
        | .error e => (g, .error e)
        | .ok teamID =>
        match luaL_optboolean (L.arg 7) false with
        | .error e => (g, .error e)
        | .ok beingBuilt =>
        match luaL_optboolean (L.arg 8) true with
        | .error e => (g, .error e)
        | .ok flattenGround =>
          if !g.IsValidTeam teamID then (g, .error "CreateUnit(): invalid team number")
          else if !FullCtrl L && CtrlTeam L != teamID then
            (g, .error "CreateUnit(): not a controllable team")
          else if !S.CanBuildUnit g unitDef teamID then (g, .ok [])
          else
            let g1 := { g with inCreateUnit := g.inCreateUnit + 1 }
            match luaL_optint L (L.arg 10) (-1) with
            | .error e => (g1, .error e)
            | .ok builderID =>
              let builder := (g1.GetUnit builderID).map (fun u => u.id)
              match luaL_optint L (L.arg 9) (-1) with
              | .error e => (g1, .error e)
              | .ok unitID =>
                let r := S.LoadUnit
                  { unitDef := unitDef, builder := builder, pos := (x, y, z), unitID := unitID,
                    teamID := teamID, facing := facing, beingBuilt := beingBuilt,
                    flattenGround := flattenGround } g1
                let g2 := { r.1 with inCreateUnit := r.1.inCreateUnit - 1 }
                match r.2 with
                | none => (g2, .ok [])
                | some newID => (S.SetSoloBuilder newID builder unitDef g2, .ok [.number (newID : ℚ)])

/-! ## Order dispatch -/

/-- The command parsers of Lua/LuaUtils.cpp, which is not among the sources. -/
structure LuaUtils where
  ParseCommand : lua_State → Nat → Except String Command
  ParseCommandArray : lua_State → Nat → Except String (List Command)

/-- Modelled from the spec: `CCommandAI::GiveCommand` (Sim/Units/CommandAI is
not among the sources).  Spec 3: a command is "consumed by appending to a
unit's command queue". -/
def Game.GiveCommand (g : Game) (unitID : Int) (cmd : Command) : Game :=
  g.modifyUnit unitID (fun u => { u with commandQue := u.commandQue ++ [cmd] })

/-- `LuaSyncedCtrl::GiveOrderToUnit`. -/
def GiveOrderToUnit (MAX_CMD_RECURSION_DEPTH : Nat) (U : LuaUtils)
    (L : lua_State) (g : Game) : Game × LuaResult :=
  match CheckAllowGameChanges L with
  | .error e => (g, .error e)
  | .ok _ =>
    match ParseUnit L g (L.arg 1) with
    | .error e => (g, .error e)
    | .ok none => (g, .error "GiveOrderToUnit invalid unitID")
    | .ok (some unit) =>
      match U.ParseCommand L 2 with
      | .error e => (g, .error e)
      | .ok cmd =>
        if !CanControlUnit L unit then (g, .ok [.boolean false])
        else if g.inGiveOrder ≥ (MAX_CMD_RECURSION_DEPTH : Int) then
          (g, .error "GiveOrderToUnit recursion not permitted")
        else
          let g1 := { g with inGiveOrder := g.inGiveOrder + 1 }
          let g2 := g1.GiveCommand unit.id cmd
          ({ g2 with inGiveOrder := g2.inGiveOrder - 1 }, .ok [.boolean true])

/-- The body of the dispatch loops: the unit behind the pointer gets the
commands, and is counted, when the caller may control it. -/
def giveOrdersStep (L : lua_State) (acc : Game × Nat) (uc : Int × List Command) : Game × Nat :=
  match acc.1.GetUnit uc.1 with
  | none => acc
  | some unit =>
    if CanControlUnit L unit then
      (uc.2.foldl (fun g c => g.GiveCommand unit.id c) acc.1, acc.2 + 1)
    else acc

/-- `LuaSyncedCtrl::GiveOrderArrayToUnitArray`.  The pairwise loop runs over
the indices below `min(units.size(), commands.size())`, that is over the
pairs of `List.zip`. -/
def GiveOrderArrayToUnitArray (MAX_CMD_RECURSION_DEPTH : Nat) (U : LuaUtils)
    (L : lua_State) (g : Game) : Game × LuaResult :=
  match CheckAllowGameChanges L with
  | .error e => (g, .error e)
  | .ok _ =>
    match ParseUnitArray L g (L.arg 1) with
    | .error e => (g, .error e)
    | .ok units =>
      match U.ParseCommandArray L 2 with
      | .error e => (g, .error e)
      | .ok commands =>
        if units.isEmpty || commands.isEmpty then (g, .ok [.number 0])
        else if g.inGiveOrder ≥ (MAX_CMD_RECURSION_DEPTH : Int) then
          (g, .error "GiveOrderArrayToUnitArray recursion not permitted")
        else
          let g1 := { g with inGiveOrder := g.inGiveOrder + 1 }
          match luaL_optboolean (L.arg 3) false with
          | .error e => (g1, .error e)
          | .ok pairwise =>
            let r :=
              if pairwise then
                ((units.zip commands).map (fun uc => (uc.1, [uc.2]))).foldl (giveOrdersStep L) (g1, 0)
              else
                (units.map (fun u => (u, commands))).foldl (giveOrdersStep L) (g1, 0)
            ({ r.1 with inGiveOrder := r.1.inGiveOrder - 1 }, .ok [.number (r.2 : ℚ)])

/-- One step of the loop of `ParseUnitMap`: the id of the unit the key names
is appended when the key is a raw number and `ParseUnit` finds a unit. -/
def parseUnitMapStep (L : lua_State) (g : Game) (acc : List Int) (kv : LuaValue × LuaValue) : List Int :=
  if !lua_israwnumber kv.1 then acc
  else
    match ParseUnit L g kv.1 with
    | .ok (some unit) => acc ++ [unit.id]
    | _ => acc

/-- `ParseUnitMap`; the vector of `CUnit*` is the list of the units' ids. -/
def ParseUnitMap (L : lua_State) (g : Game) (v : LuaValue) : Except String (List Int) :=
  if !lua_istable v then .error "error parsing unit map"
  else .ok ((lua_entries v).foldl (parseUnitMapStep L g) [])

/-- `LuaSyncedCtrl::GiveOrderToUnitMap`. -/
def GiveOrderToUnitMap (MAX_CMD_RECURSION_DEPTH : Nat) (U : LuaUtils)
    (L : lua_State) (g : Game) : Game × LuaResult :=
  match CheckAllowGameChanges L with
  | .error e => (g, .error e)
  | .ok _ =>
    match ParseUnitMap L g (L.arg 1) with
    | .error e => (g, .error e)
    | .ok units =>
      if units.isEmpty then (g, .ok [.number 0])
      else
        match U.ParseCommand L 2 with
        | .error e => (g, .error e)
        | .ok cmd =>
          if g.inGiveOrder ≥ (MAX_CMD_RECURSION_DEPTH : Int) then
            (g, .error "GiveOrderToUnitMap recursion not permitted")
          else
            let g1 := { g with inGiveOrder := g.inGiveOrder + 1 }
            let r := (units.map (fun u => (u, [cmd]))).foldl (giveOrdersStep L) (g1, 0)
            ({ r.1 with inGiveOrder := r.1.inGiveOrder - 1 }, .ok [.number (r.2 : ℚ)])

/-- `LuaSyncedCtrl::GiveOrderToUnitArray`. -/
def GiveOrderToUnitArray (MAX_CMD_RECURSION_DEPTH : Nat) (U : LuaUtils)
    (L : lua_State) (g : Game) : Game × LuaResult :=
  match CheckAllowGameChanges L with
  | .error e => (g, .error e)
  | .ok _ =>
    match ParseUnitArray L g (L.arg 1) with
    | .error e => (g, .error e)
    | .ok units =>
      if units.isEmpty then (g, .ok [.number 0])
      else
        match U.ParseCommand L 2 with
        | .error e => (g, .error e)
        | .ok cmd =>
          if g.inGiveOrder ≥ (MAX_CMD_RECURSION_DEPTH : Int) then
            (g, .error "GiveOrderToUnitArray recursion not permitted")
          else
            let g1 := { g with inGiveOrder := g.inGiveOrder + 1 }
            let r := (units.map (fun u => (u, [cmd]))).foldl (giveOrdersStep L) (g1, 0)
            ({ r.1 with inGiveOrder := r.1.inGiveOrder - 1 }, .ok [.number (r.2 : ℚ)])

/-! ## Unit health -/

/-- Modelled from the spec: `CUnit::SetStunned` (Sim/Units/Unit.cpp is not
among the sources; declared at Unit.h:178).  By Unit.h:551 the flag `stunned`
is accessed through it; spec 8 reads back the health and paralyze state,
which setting the flag leaves as it is. -/
def CUnit.SetStunned (u : CUnit) (stun : Bool) : CUnit :=
  { u with stunned := stun }

/-- The collaborators of `SetUnitHealth` that are not among the sources
(declared at Unit.h:91 and Unit.h:104): `CUnit::FinishedBuilding(false)` and
`CUnit::TurnIntoNanoframe()`. -/
structure UnitBuildServices where
  FinishedBuilding : CUnit → CUnit
  TurnIntoNanoframe : CUnit → CUnit

/-- One step of the table loop of `SetUnitHealth`; `paralyzeOnMaxHealth` is
`modInfo.paralyzeOnMaxHealth`. -/
def setUnitHealthStep (paralyzeOnMaxHealth : Bool) (B : UnitBuildServices) (L : lua_State)
    (unit : CUnit) (kv : LuaValue × LuaValue) : CUnit :=
  if !lua_israwstring kv.1 || !lua_isnumber L kv.2 then unit
  else
    let key := lua_tostring L kv.1
    let value := lua_tofloat L kv.2
    if key = "health" then { unit with health := min unit.maxHealth value }
    else if key = "capture" then { unit with captureProgress := value }
    else if key = "paralyze" then
      let refValue := if paralyzeOnMaxHealth then unit.maxHealth else unit.health
      let unit1 := { unit with paralyzeDamage := max 0 value }
      if unit1.paralyzeDamage > refValue then unit1.SetStunned true
      else if value < 0 then unit1.SetStunned false
      else unit1
    else if key = "build" then
      let unit1 := { unit with buildProgress := value }
      if value ≥ 1 then B.FinishedBuilding unit1 else B.TurnIntoNanoframe unit1
    else unit

/-- `LuaSyncedCtrl::SetUnitHealth`. -/
def SetUnitHealth (paralyzeOnMaxHealth : Bool) (B : UnitBuildServices) (L : lua_State)
    (g : Game) : Game × LuaResult :=
  match ParseUnit L g (L.arg 1) with
  | .error e => (g, .error e)
  | .ok none => (g, .ok [])
  | .ok (some unit) =>
    if lua_isnumber L (L.arg 2) then
      (g.modifyUnit unit.id
        (fun u => { u with health := min u.maxHealth (lua_tofloat L (L.arg 2)) }), .ok [])
    else if lua_istable (L.arg 2) then
      (g.modifyUnit unit.id
        (fun u => (lua_entries (L.arg 2)).foldl (setUnitHealthStep paralyzeOnMaxHealth B L) u),
        .ok [])
    else (g, .error "Incorrect arguments to SetUnitHealth()")

/-! ## Unit LOS -/

/-- `LOS_INLOS = (1 << 0)` (Unit.h:49). -/
def LOS_INLOS : Nat := 1

/-- `LOS_INRADAR = (1 << 1)` (Unit.h:50). -/
def LOS_INRADAR : Nat := 2

/-- `LOS_PREVLOS = (1 << 2)` (Unit.h:51). -/
def LOS_PREVLOS : Nat := 4

/-- `LOS_CONTRADAR = (1 << 3)` (Unit.h:52). -/
def LOS_CONTRADAR : Nat := 8

/-- `LOS_MASK_SHIFT = 4` (Unit.h:54). -/
def LOS_MASK_SHIFT : Nat := 4

/-- Conversion of an integer to `unsigned char`: its value modulo 256. -/
def toUChar (n : Int) : Nat :=
  (n % 256).toNat

/-- `teamHandler.IsValidAllyTeam(id)`: `0 <= id < ActiveAllyTeams()`. -/
def Game.IsValidAllyTeam (g : Game) (allyTeam : Int) : Bool :=
  decide (0 ≤ allyTeam) && decide (allyTeam < (g.activeAllyTeams : Int))

/-- `bits |= flag` or `bits &= ~flag` on an `unsigned char`. -/
def setLosBit (bits flag : Nat) (set : Bool) : Nat :=
  if set then bits ||| flag else bits &&& (255 - flag)

/-- One step of the table loop of `ParseLosBits`: an error for a key that is
not a raw string or a value that is not a boolean, else the named bit is set
or cleared. -/
def parseLosBitsStep (L : lua_State) (acc : Except String Nat) (kv : LuaValue × LuaValue) :
    Except String Nat :=
  match acc with
  | .error e => .error e
  | .ok bits =>
    if !lua_israwstring kv.1 then .error "bad key type"
    else if !lua_isboolean kv.2 then .error "bad value type"
    else
      let set := lua_toboolean kv.2
      let name := lua_tostring L kv.1
      if name = "los" then .ok (setLosBit bits LOS_INLOS set)
      else if name = "radar" then .ok (setLosBit bits LOS_INRADAR set)
      else if name = "prevLos" then .ok (setLosBit bits LOS_PREVLOS set)
      else if name = "contRadar" then .ok (setLosBit bits LOS_CONTRADAR set)
      else .ok bits

/-- `ParseLosBits(L, index, bits)`: a number is converted to `unsigned char`;
a table updates `bits` entry by entry. -/
def ParseLosBits (L : lua_State) (v : LuaValue) (bits : Nat) : Except String Nat :=
  if lua_isnumber L v then .ok (toUChar (lua_number2int (lua_tofloat L v)))
  else if lua_istable v then (lua_entries v).foldl (parseLosBitsStep L) (.ok bits)
  else .error "ERROR: expected number or table"

/-- The collaborators of the LOS functions that are not among the sources
(declared at Unit.h:190-191): `CUnit::CalcLosStatus(allyTeam)` and
`CUnit::SetLosStatus(allyTeam, newStatus)`, by the id of the unit. -/
structure LosServices where
  CalcLosStatus : Game → Int → Int → Nat
  SetLosStatus : Int → Int → Nat → Game → Game

/-- The value that `SetUnitLosMask` stores into `unit->losStatus[allyTeam]`:
`(newMask << LOS_MASK_SHIFT) | (losStatus & 0x0F)`, converted to
`unsigned char`. -/
def losMaskState (L : lua_State) (unit : CUnit) (allyTeam : Int) : Except String Nat :=
  let losStatus := unit.losStatus allyTeam.toNat
  let oldMask := losStatus >>> LOS_MASK_SHIFT
  match ParseLosBits L (L.arg 3) oldMask with
  | .error e => .error e
  | .ok newMask => .ok (((newMask <<< LOS_MASK_SHIFT) ||| (losStatus &&& 0x0F)) % 256)

/-- `LuaSyncedCtrl::SetUnitLosMask`. -/
def SetUnitLosMask (S : LosServices) (L : lua_State) (g : Game) : Game × LuaResult :=
  match ParseUnit L g (L.arg 1) with
  | .error e => (g, .error e)
  | .ok none => (g, .ok [])
  | .ok (some unit) =>
    match luaL_checkint L (L.arg 2) with
    | .error e => (g, .error e)
    | .ok allyTeam =>
      if !g.IsValidAllyTeam allyTeam then (g, .error "bad allyTeam")
      else
        match losMaskState L unit allyTeam with
        | .error e => (g, .error e)
        | .ok state =>
          let g1 := g.modifyUnit unit.id
            (fun u => { u with losStatus := Function.update u.losStatus allyTeam.toNat state })
          (S.SetLosStatus unit.id allyTeam (S.CalcLosStatus g1 unit.id allyTeam) g1, .ok [])

/-- The status that `SetUnitLosState` passes to `SetLosStatus`:
`(losStatus & 0xF0) | newState`. -/
def losStateStatus (L : lua_State) (unit : CUnit) (allyTeam : Int) : Except String Nat :=
  let losStatus := unit.losStatus allyTeam.toNat
  let oldState := losStatus &&& 0x0F
  match ParseLosBits L (L.arg 3) oldState with
  | .error e => .error e
  | .ok newState => .ok ((losStatus &&& 0xF0) ||| newState)

/-- `LuaSyncedCtrl::SetUnitLosState`. -/
def SetUnitLosState (S : LosServices) (L : lua_State) (g : Game) : Game × LuaResult :=
  match ParseUnit L g (L.arg 1) with
  | .error e => (g, .error e)
  | .ok none => (g, .ok [])
  | .ok (some unit) =>
    match luaL_checkint L (L.arg 2) with
    | .error e => (g, .error e)
    | .ok allyTeam =>
      if !g.IsValidAllyTeam allyTeam then (g, .error "bad allyTeam")
      else
        match losStateStatus L unit allyTeam with
        | .error e => (g, .error e)
        | .ok status => (S.SetLosStatus unit.id allyTeam status g, .ok [])

/-! ## Unit impulse and resourcing -/

/-- `std::clamp(v, lo, hi)`: `lo` when `v < lo`, else `hi` when `hi < v`, else `v`. -/
def std_clamp {α : Type} [LinearOrder α] (v lo hi : α) : α :=
  if v < lo then lo else if hi < v then hi else v

/-- The `float3 impulse` that `AddUnitImpulse` builds from the arguments 2 to
4; `MAX_EXPLOSION_IMPULSE` is not among the sources and is a parameter. -/
def unitImpulse (MAX_EXPLOSION_IMPULSE : ℚ) (L : lua_State) : Except String float3 :=
  match luaL_checkfloat L (L.arg 2) with
  | .error e => .error e
  | .ok x =>
    match luaL_checkfloat L (L.arg 3) with
    | .error e => .error e
    | .ok y =>
      match luaL_checkfloat L (L.arg 4) with
      | .error e => .error e
      | .ok z =>
        .ok { x := std_clamp x (-MAX_EXPLOSION_IMPULSE) MAX_EXPLOSION_IMPULSE,
              y := std_clamp y (-MAX_EXPLOSION_IMPULSE) MAX_EXPLOSION_IMPULSE,
              z := std_clamp z (-MAX_EXPLOSION_IMPULSE) MAX_EXPLOSION_IMPULSE }

/-- `LuaSyncedCtrl::AddUnitImpulse`; `ApplyImpulse` is `CUnit::ApplyImpulse`
(declared at Unit.h:94), which is not among the sources. -/
def AddUnitImpulse (MAX_EXPLOSION_IMPULSE : ℚ) (ApplyImpulse : CUnit → float3 → CUnit)
    (L : lua_State) (g : Game) : Game × LuaResult :=
  match ParseUnit L g (L.arg 1) with
  | .error e => (g, .error e)
  | .ok none => (g, .ok [])
  | .ok (some unit) =>
    match unitImpulse MAX_EXPLOSION_IMPULSE L with
    | .error e => (g, .error e)
    | .ok impulse => (g.modifyUnit unit.id (fun u => ApplyImpulse u impulse), .ok [])

/-- Character `name[i]` of a C string: NUL at its end and past it. -/
def charAt (name : String) (i : Nat) : Char :=
  name.toList.getD i (Char.ofNat 0)

/-- `SetUnitResourceParam(unit, name, value)`: what it returns and the unit
it leaves. -/
def SetUnitResourceParam (unit : CUnit) (name : String) (value : ℚ) : Bool × CUnit :=
  let value := value * (1 / 2)
  if charAt name 0 = 'u' then
    if charAt name 1 = 'u' then
      if charAt name 2 = 'm' then
        (true, { unit with resourcesUncondUse := { unit.resourcesUncondUse with metal := value } })
      else if charAt name 2 = 'e' then
        (true, { unit with resourcesUncondUse := { unit.resourcesUncondUse with energy := value } })
      else (false, unit)
    else if charAt name 1 = 'm' then
      if charAt name 2 = 'm' then
        (true, { unit with resourcesUncondMake := { unit.resourcesUncondMake with metal := value } })
      else if charAt name 2 = 'e' then
        (true, { unit with resourcesUncondMake := { unit.resourcesUncondMake with energy := value } })
      else (false, unit)
    else (false, unit)
  else if charAt name 0 = 'c' then
    if charAt name 1 = 'u' then
      if charAt name 2 = 'm' then
        (true, { unit with resourcesCondUse := { unit.resourcesCondUse with metal := value } })
      else if charAt name 2 = 'e' then
        (true, { unit with resourcesCondUse := { unit.resourcesCondUse with energy := value } })
      else (false, unit)
    else if charAt name 1 = 'm' then
      if charAt name 2 = 'm' then
        (true, { unit with resourcesCondMake := { unit.resourcesCondMake with metal := value } })
      else if charAt name 2 = 'e' then
        (true, { unit with resourcesCondMake := { unit.resourcesCondMake with energy := value } })
      else (false, unit)
    else (false, unit)
  else (false, unit)

/-- One step of the table loop of `SetUnitResourcing`. -/
def setUnitResourcingStep (L : lua_State) (unit : CUnit) (kv : LuaValue × LuaValue) : CUnit :=
  if !lua_israwstring kv.1 || !lua_isnumber L kv.2 then unit
  else (SetUnitResourceParam unit (lua_tostring L kv.1) (lua_tofloat L kv.2)).2

/-- `LuaSyncedCtrl::SetUnitResourcing`. -/
def SetUnitResourcing (L : lua_State) (g : Game) : Game × LuaResult :=
  match ParseUnit L g (L.arg 1) with
  | .error e => (g, .error e)
  | .ok none => (g, .ok [])
  | .ok (some unit) =>
    if lua_israwstring (L.arg 2) then
      match luaL_checkfloat L (L.arg 3) with
      | .error e => (g, .error e)
      | .ok value =>
        (g.modifyUnit unit.id
          (fun u => (SetUnitResourceParam u (lua_tostring L (L.arg 2)) value).2), .ok [])
    else if lua_istable (L.arg 2) then
      (g.modifyUnit unit.id (fun u => (lua_entries (L.arg 2)).foldl (setUnitResourcingStep L) u),
        .ok [])
    else (g, .error "Incorrect arguments to SetUnitResourcing")

/-! ## Game over -/

/-- `teamHandler.ValidAllyTeam(id)` (Sim/Misc/TeamHandler.h is not among the
sources) on the unsigned id it is passed: `id < ActiveAllyTeams()`. -/
def Game.ValidAllyTeam (g : Game) (allyTeamID : Nat) : Bool :=
  decide (allyTeamID < g.activeAllyTeams)

/-- One step of the table loop of `GameOver`: a value that is a raw number is
converted to `unsigned char` and appended when it names a valid ally team. -/
def gameOverStep (L : lua_State) (g : Game) (acc : List Nat) (kv : LuaValue × LuaValue) : List Nat :=
  if !lua_israwnumber kv.2 then acc
  else
    let allyTeamID := toUChar (lua_toint L kv.2)
    if !g.ValidAllyTeam allyTeamID then acc else acc ++ [allyTeamID]

/-- `LuaSyncedCtrl::GameOver`; `GameEnd` is `CGame::GameEnd`, which is not
among the sources. -/
def GameOver (GameEnd : List Nat → Game → Game) (L : lua_State) (g : Game) : Game × LuaResult :=
  if !lua_istable (L.arg 1) then (g, .error "Incorrect arguments to GameOver()")
  else
    let winningAllyTeams := (lua_entries (L.arg 1)).foldl (gameOverStep L g) []
    (GameEnd winningAllyTeams g, .ok [.number (winningAllyTeams.length : ℚ)])

/-! ## Height map and smooth mesh

`mapDamage->RecalcArea` recomputes data derived from the height map; that
data is outside this model, and so is the call. -/

/-- What the height-map functions read that is not among the sources:
`mapDims.mapx` and `mapDims.mapy` (`mapDims.mapxp1` is `mapx + 1`),
`SQUARE_SIZE` and `mapDamage->Disabled()`. -/
structure MapServices where
  mapx : Int
  mapy : Int
  SQUARE_SIZE : Int := 8
  Disabled : Bool := false

/-- What the smooth-mesh functions read of `smoothGround`, which is not among
the sources: `GetResolution()`, `GetMaxX()` and `GetMaxY()`. -/
structure SmoothGround where
  GetResolution : Int
  GetMaxX : Int
  GetMaxY : Int

/-- Modelled from the spec: `CReadMap::SetHeight(idx, h)` (Map/ReadMap is not
among the sources).  Spec 6: the verbs "set/adjust/revert rectangular regions
of the height field"; setting stores the height at the index. -/
def Game.SetHeight (g : Game) (idx : Int) (h : ℚ) : Game :=
  { g with heightMap := Function.update g.heightMap idx h }

/-- Modelled from the spec: `CReadMap::AddHeight(idx, a)`, the adjusting
counterpart of `Game.SetHeight`. -/
def Game.AddHeight (g : Game) (idx : Int) (a : ℚ) : Game :=
  { g with heightMap := Function.update g.heightMap idx (g.heightMap idx + a) }

/-- Modelled from the spec: `SmoothHeightMesh::SetHeight(idx, h)`
(Sim/Misc/SmoothHeightMesh is not among the sources), the smooth-mesh
counterpart of `Game.SetHeight`. -/
def Game.SetSmoothHeight (g : Game) (idx : Int) (h : ℚ) : Game :=
  { g with smoothMesh := Function.update g.smoothMesh idx h }

/-- Modelled from the spec: `SmoothHeightMesh::AddHeight(idx, a)`, the
smooth-mesh counterpart of `Game.AddHeight`. -/
def Game.AddSmoothHeight (g : Game) (idx : Int) (a : ℚ) : Game :=
  { g with smoothMesh := Function.update g.smoothMesh idx (g.smoothMesh idx + a) }

/-- The result of `ParseParams`: the factor and the four quantized corners. -/
structure MapRect where
  factor : ℚ
  x1 : Int
  z1 : Int
  x2 : Int
  z2 : Int

/-- `ParseParams(L, caller, factor, x1, z1, x2, z2, resolution, maxX, maxZ)`.
The cast `(int)(f / resolution)` is `float2int`. -/
def ParseParams (L : lua_State) (resolution maxX maxZ : Int) : Except String MapRect :=
  let quantize (fx1 fz1 fx2 fz2 factor : ℚ) : MapRect :=
    { factor := factor,
      x1 := std_clamp (float2int (fx1 / (resolution : ℚ))) 0 maxX,
      x2 := std_clamp (float2int (fx2 / (resolution : ℚ))) 0 maxX,
      z1 := std_clamp (float2int (fz1 / (resolution : ℚ))) 0 maxZ,
      z2 := std_clamp (float2int (fz2 / (resolution : ℚ))) 0 maxZ }
  let args := L.stack.length
  if args = 3 then
    match luaL_checkfloat L (L.arg 1) with
    | .error e => .error e
    | .ok fx =>
    match luaL_checkfloat L (L.arg 2) with
    | .error e => .error e
    | .ok fz =>
    match luaL_checkfloat L (L.arg 3) with
    | .error e => .error e
    | .ok factor => .ok (quantize fx fz fx fz factor)
  else if args = 5 then
    match luaL_checkfloat L (L.arg 1) with
    | .error e => .error e
    | .ok fx1 =>
    match luaL_checkfloat L (L.arg 2) with
    | .error e => .error e
    | .ok fz1 =>
    match luaL_checkfloat L (L.arg 3) with
    | .error e => .error e
    | .ok fx2 =>
    match luaL_checkfloat L (L.arg 4) with
    | .error e => .error e
    | .ok fz2 =>
    match luaL_checkfloat L (L.arg 5) with
    | .error e => .error e
    | .ok factor =>
      .ok (quantize (if fx1 > fx2 then fx2 else fx1) (if fz1 > fz2 then fz2 else fz1)
        (if fx1 > fx2 then fx1 else fx2) (if fz1 > fz2 then fz1 else fz2) factor)
  else .error "Incorrect arguments"

/-- `ParseMapParams`. -/
def ParseMapParams (M : MapServices) (L : lua_State) : Except String MapRect :=
  ParseParams L M.SQUARE_SIZE M.mapx M.mapy

/-- `ParseSmoothMeshParams`. -/
def ParseSmoothMeshParams (S : SmoothGround) (L : lua_State) : Except String MapRect :=
  ParseParams L S.GetResolution (S.GetMaxX - 1) (S.GetMaxY - 1)

/-- The values that the variable of `for (int i = a; i <= b; i++)` takes. -/
def loopRange (a b : Int) : List Int :=
  (List.range (b + 1 - a).toNat).map (fun (i : Nat) => a + (i : Int))

/-- The indices `(z * stride) + x` that the loop over `z1..z2` with the loop
over `x1..x2` nested in it visits, in order. -/
def rectIndices (r : MapRect) (stride : Int) : List Int :=
  (loopRange r.z1 r.z2).flatMap (fun z => (loopRange r.x1 r.x2).map (fun x => (z * stride) + x))

/-- `LuaSyncedCtrl::LevelHeightMap`. -/
def LevelHeightMap (M : MapServices) (L : lua_State) (g : Game) : Game × LuaResult :=
  if M.Disabled then (g, .ok [])
  else
    match ParseMapParams M L with
    | .error e => (g, .error e)
    | .ok r =>
      ((rectIndices r (M.mapx + 1)).foldl (fun g1 idx => g1.SetHeight idx r.factor) g, .ok [])

/-- `LuaSyncedCtrl::AdjustHeightMap`. -/
def AdjustHeightMap (M : MapServices) (L : lua_State) (g : Game) : Game × LuaResult :=
  if M.Disabled then (g, .ok [])
  else
    match ParseMapParams M L with
    | .error e => (g, .error e)
    | .ok r =>
      ((rectIndices r (M.mapx + 1)).foldl (fun g1 idx => g1.AddHeight idx r.factor) g, .ok [])

/-- `LuaSyncedCtrl::LevelSmoothMesh`. -/
def LevelSmoothMesh (S : SmoothGround) (L : lua_State) (g : Game) : Game × LuaResult :=
  match ParseSmoothMeshParams S L with
  | .error e => (g, .error e)
  | .ok r =>
    ((rectIndices r S.GetMaxX).foldl (fun g1 idx => g1.SetSmoothHeight idx r.factor) g, .ok [])

/-- `LuaSyncedCtrl::AddHeightMap`. -/
def AddHeightMap (M : MapServices) (L : lua_State) (g : Game) : Game × LuaResult :=
  if !g.inHeightMap then
    (g, .error "AddHeightMap() can only be called in SetHeightMapFunc()")
  else
    match luaL_checkfloat L (L.arg 1) with
    | .error e => (g, .error e)
    | .ok xl =>
    match luaL_checkfloat L (L.arg 2) with
    | .error e => (g, .error e)
    | .ok zl =>
    match luaL_checkfloat L (L.arg 3) with
    | .error e => (g, .error e)
    | .ok h =>
      let x := float2int (xl / (M.SQUARE_SIZE : ℚ))
      let z := float2int (zl / (M.SQUARE_SIZE : ℚ))
      if x < 0 ∨ x > M.mapx ∨ z < 0 ∨ z > M.mapy then (g, .ok [])
      else
        let index := (z * (M.mapx + 1)) + x
        let oldHeight := g.heightMap index
        let g1 := { g with
          heightMapAmountChanged := g.heightMapAmountChanged + |h|,
          heightMapx1 := if x < g.heightMapx1 then x else g.heightMapx1,
          heightMapx2 := if x > g.heightMapx2 then x else g.heightMapx2,
          heightMapz1 := if z < g.heightMapz1 then z else g.heightMapz1,
          heightMapz2 := if z > g.heightMapz2 then z else g.heightMapz2 }
        (g1.AddHeight index h, .ok [.number (oldHeight + h)])

/-- `LuaSyncedCtrl::SetHeightMap`. -/
def SetHeightMap (M : MapServices) (L : lua_State) (g : Game) : Game × LuaResult :=
  if !g.inHeightMap then
    (g, .error "SetHeightMap() can only be called in SetHeightMapFunc()")
  else
    match luaL_checkfloat L (L.arg 1) with
    | .error e => (g, .error e)
    | .ok xl =>
    match luaL_checkfloat L (L.arg 2) with
    | .error e => (g, .error e)
    | .ok zl =>
    match luaL_checkfloat L (L.arg 3) with
    | .error e => (g, .error e)
    | .ok h =>
      let x := float2int (xl / (M.SQUARE_SIZE : ℚ))
      let z := float2int (zl / (M.SQUARE_SIZE : ℚ))
      if x < 0 ∨ x > M.mapx ∨ z < 0 ∨ z > M.mapy then (g, .ok [])
      else
        let index := (z * (M.mapx + 1)) + x
        let oldHeight := g.heightMap index
        let height :=
          if lua_israwnumber (L.arg 4) then oldHeight + (h - oldHeight) * lua_tofloat L (L.arg 4)
          else h
        let heightDiff := height - oldHeight
        let g1 := { g with
          heightMapAmountChanged := g.heightMapAmountChanged + |heightDiff|,
          heightMapx1 := if x < g.heightMapx1 then x else g.heightMapx1,
          heightMapx2 := if x > g.heightMapx2 then x else g.heightMapx2,
          heightMapz1 := if z < g.heightMapz1 then z else g.heightMapz1,
          heightMapz2 := if z > g.heightMapz2 then z else g.heightMapz2 }
        (g1.SetHeight index height, .ok [.number heightDiff])

/-- `LuaSyncedCtrl::SetSmoothMesh`. -/
def SetSmoothMesh (S : SmoothGround) (L : lua_State) (g : Game) : Game × LuaResult :=
  if !g.inSmoothMesh then
    (g, .error "SetSmoothMesh() can only be called in SetSmoothMeshFunc()")
  else
    match luaL_checkfloat L (L.arg 1) with
    | .error e => (g, .error e)
    | .ok xl =>
    match luaL_checkfloat L (L.arg 2) with
    | .error e => (g, .error e)
    | .ok zl =>
    match luaL_checkfloat L (L.arg 3) with
    | .error e => (g, .error e)
    | .ok h =>
      let x := float2int (xl / (S.GetResolution : ℚ))
      let z := float2int (zl / (S.GetResolution : ℚ))
      if x < 0 ∨ x > S.GetMaxX - 1 ∨ z < 0 ∨ z > S.GetMaxY - 1 then (g, .ok [])
      else
        let index := (z * S.GetMaxX) + x
        let oldHeight := g.smoothMesh index
        let height :=
          if lua_israwnumber (L.arg 4) then oldHeight + (h - oldHeight) * lua_tofloat L (L.arg 4)
          else h
        let heightDiff := height - oldHeight
        let g1 := { g with smoothMeshAmountChanged := g.smoothMeshAmountChanged + |heightDiff| }
        (g1.SetSmoothHeight index height, .ok [.number heightDiff])

/-- `LuaSyncedCtrl::SetHeightMapFunc`.  `callback` is the Lua function passed
as first argument, run by `lua_pcall` on the remaining arguments; it is none
when there is no first argument or it is not a function.  The error of the
callback is logged and raised again. -/
def SetHeightMapFunc (M : MapServices) (callback : Option (Game → Game × LuaResult))
    (g : Game) : Game × LuaResult :=
  if M.Disabled then (g, .ok [])
  else
    match callback with
    | none => (g, .error "Incorrect arguments to Spring.SetHeightMapFunc(func, ...)")
    | some f =>
      if g.inHeightMap then (g, .error "SetHeightMapFunc() recursion is not permitted")
      else
        let g1 := { g with
          heightMapx1 := M.mapx, heightMapx2 := -1, heightMapz1 := M.mapy, heightMapz2 := 0,
          heightMapAmountChanged := 0, inHeightMap := true }
        let r := f g1
        let g2 := { r.1 with inHeightMap := false }
        match r.2 with
        | .error e => ({ g2 with errorLog := g2.errorLog ++ [e] }, .error e)
        | .ok _ => (g2, .ok [.number g2.heightMapAmountChanged])

/-- What a Lua chunk does with the height-map functions: it returns, raises
an error, calls `AddHeightMap` or `SetHeightMap` with arguments, calls
`SetHeightMapFunc` with a chunk as callback or without a function, or runs a
chunk under `pcall`; after a call that returned it goes on with `next`. -/
inductive MapScript where
  | done
  | raise
  | addHeightMap (args : List LuaValue) (next : MapScript)
  | setHeightMap (args : List LuaValue) (next : MapScript)
  | setHeightMapFunc (callback : MapScript) (next : MapScript)
  | setHeightMapFuncNoFunction (next : MapScript)
  | pcall (body : MapScript) (next : MapScript)

/-- Running a chunk: the error of a call that raises ends the chunk, unless
the call is made under `pcall`. -/
def runMapScript (M : MapServices) (L : lua_State) : MapScript → Game → Game × LuaResult
  | .done => fun g => (g, .ok [])
  | .raise => fun g => (g, .error "error")
  | .addHeightMap args next => fun g =>
    match AddHeightMap M { L with stack := args } g with
    | (g1, .error e) => (g1, .error e)
    | (g1, .ok _) => runMapScript M L next g1
  | .setHeightMap args next => fun g =>
    match SetHeightMap M { L with stack := args } g with
    | (g1, .error e) => (g1, .error e)
    | (g1, .ok _) => runMapScript M L next g1
  | .setHeightMapFunc callback next => fun g =>
    match SetHeightMapFunc M (some (runMapScript M L callback)) g with
    | (g1, .error e) => (g1, .error e)
    | (g1, .ok _) => runMapScript M L next g1
  | .setHeightMapFuncNoFunction next => fun g =>
    match SetHeightMapFunc M none g with
    | (g1, .error e) => (g1, .error e)
    | (g1, .ok _) => runMapScript M L next g1
  | .pcall body next => fun g => runMapScript M L next (runMapScript M L body g).1

/-! ## Recursion counters -/

/-- `LuaSyncedCtrl::PushEntries`: the re-initialisation of the static state
(the registration of the functions is outside this model). -/
def PushEntries (g : Game) : Game :=
  { g with
    inCreateUnit := 0, inDestroyUnit := 0, inCreateFeature := 0, inDestroyFeature := 0,
    inGiveOrder := 0, inTransferUnit := 0, inHeightMap := false, inSmoothMesh := false,
    heightMapx1 := 0, heightMapx2 := 0, heightMapz1 := 0, heightMapz2 := 0,
    heightMapAmountChanged := 0, originalHeightMapAmountChanged := 0,
    smoothMeshAmountChanged := 0 }

/-- The six static recursion counters. -/
inductive Counter where
  | inCreateUnit
  | inDestroyUnit
  | inTransferUnit
  | inCreateFeature
  | inDestroyFeature
  | inGiveOrder
deriving DecidableEq

/-- The value of a counter. -/
def Game.counter (g : Game) : Counter → Int
  | .inCreateUnit => g.inCreateUnit
  | .inDestroyUnit => g.inDestroyUnit
  | .inTransferUnit => g.inTransferUnit
  | .inCreateFeature => g.inCreateFeature
  | .inDestroyFeature => g.inDestroyFeature
  | .inGiveOrder => g.inGiveOrder

/-- Assignment to a counter. -/
def Game.setCounter (g : Game) (c : Counter) (v : Int) : Game :=
  match c with
  | .inCreateUnit => { g with inCreateUnit := v }
  | .inDestroyUnit => { g with inDestroyUnit := v }
  | .inTransferUnit => { g with inTransferUnit := v }
  | .inCreateFeature => { g with inCreateFeature := v }
  | .inDestroyFeature => { g with inDestroyFeature := v }
  | .inGiveOrder => { g with inGiveOrder := v }

/-- `LuaSyncedCtrl::DestroyFeatureCommon`; `DeleteFeature` is
`featureHandler.DeleteFeature`, which is not among the sources and runs the
feature-destroyed call-ins; the feature is given by its id. -/
def DestroyFeatureCommon (MAX_CMD_RECURSION_DEPTH : Nat) (DeleteFeature : Int → Game → Game)
    (featureID : Int) (g : Game) : Game × Except String Unit :=
  if g.inDestroyFeature ≥ (MAX_CMD_RECURSION_DEPTH : Int) then
    (g, .error "DestroyFeature() recursion is not permitted")
  else
    let g1 := { g with inDestroyFeature := g.inDestroyFeature + 1 }
    let g2 := DeleteFeature featureID g1
    ({ g2 with inDestroyFeature := g2.inDestroyFeature - 1 }, .ok ())

/-- The twelve functions that test a recursion counter. -/
inductive Gateway where
  | CreateUnit
  | DestroyUnit
  | TransferUnit
  | CreateFeature
  | DestroyFeature
  | SetFeatureHealth
  | GiveOrderToUnit
  | GiveOrderToUnitMap
  | GiveOrderToUnitArray
  | GiveOrderArrayToUnit
  | GiveOrderArrayToUnitMap
  | GiveOrderArrayToUnitArray
deriving DecidableEq

/-- The counter a function tests, raises and lowers (`DestroyFeature` and
`SetFeatureHealth` do so in `DestroyFeatureCommon`). -/
def Gateway.counter : Gateway → Counter
  | .CreateUnit => .inCreateUnit
  | .DestroyUnit => .inDestroyUnit
  | .TransferUnit => .inTransferUnit
  | .CreateFeature => .inCreateFeature
  | .DestroyFeature => .inDestroyFeature
  | .SetFeatureHealth => .inDestroyFeature
  | _ => .inGiveOrder

/-- Whether the function has, between its increment and its decrement, a
statement that can raise: `luaL_optint` of the arguments 10 and 9 in
`CreateUnit` (lines 1770, 1777), of the argument 7 in `CreateFeature` (line
4562), and `luaL_optboolean` of the argument 3 in `GiveOrderArrayToUnitArray`
(line 5995).  Each of them runs before the collaborator that may call back. -/
def Gateway.raisesInside : Gateway → Bool
  | .CreateUnit => true
  | .CreateFeature => true
  | .GiveOrderArrayToUnitArray => true
  | _ => false

/-- How a call of a guarded function proceeds, as far as the counters go: it
returns or raises before the recursion test (a bad argument, a denied or
missing entity, `SetFeatureHealth` without destruction), it passes the test
and raises between the increment and the decrement, or it passes the test
and reaches the decrement. -/
inductive Path where
  | early (raises : Bool)
  | inside
  | through

/-- What a Lua chunk does with the guarded functions: it returns, raises an
error, calls a guarded function, or runs a chunk under `pcall`.  A call names
the function, the path it takes and the chunk `callIns` that the call-ins
run while the function is between increment and decrement (the handlers of
unit-created, unit-destroyed, command and feature events). -/
inductive Script where
  | done
  | raise
  | call (f : Gateway) (p : Path) (callIns : Script) (next : Script)
  | pcall (body : Script) (next : Script)

/-- The outcome of running a chunk: the state it leaves, whether it raised,
and the states the run went through, the first and the last included. -/
structure Run where
  final : Game
  raised : Bool
  trace : List Game

/-- Running a chunk on the counters.  A call that takes the path `early`
leaves them as they are.  Otherwise the function raises when its counter is
at `MAX_CMD_RECURSION_DEPTH` or above; else it increments the counter, then
either raises (path `inside`, for the functions of `Gateway.raisesInside`)
or runs its collaborator, whose call-ins run `callIns` with their errors
caught by the event handler, and decrements the counter.  An error ends the
chunk unless it is under `pcall`. -/
def runScript (MAX_CMD_RECURSION_DEPTH : Nat) : Script → Game → Run
  | .done, g => { final := g, raised := false, trace := [g] }
  | .raise, g => { final := g, raised := true, trace := [g] }
  | .pcall body next, g =>
    let r1 := runScript MAX_CMD_RECURSION_DEPTH body g
    let r2 := runScript MAX_CMD_RECURSION_DEPTH next r1.final
    { final := r2.final, raised := r2.raised, trace := r1.trace ++ r2.trace }
  | .call f p callIns next, g =>
    match p with
    | .early raises =>
      if raises then { final := g, raised := true, trace := [g] }
      else runScript MAX_CMD_RECURSION_DEPTH next g
    | p1 =>
      if g.counter f.counter ≥ (MAX_CMD_RECURSION_DEPTH : Int) then
        { final := g, raised := true, trace := [g] }
      else
        let g1 := g.setCounter f.counter (g.counter f.counter + 1)
        if (match p1 with
            | .inside => f.raisesInside
            | _ => false) then
          { final := g1, raised := true, trace := [g, g1] }
        else
          let r1 := runScript MAX_CMD_RECURSION_DEPTH callIns g1
          let g2 := r1.final.setCounter f.counter (r1.final.counter f.counter - 1)
          let r2 := runScript MAX_CMD_RECURSION_DEPTH next g2
          { final := r2.final, raised := r2.raised, trace := g :: r1.trace ++ r2.trace }

/-! ## Specification vocabulary -/

/-- The entries of the Lua array `{v1, v2, ...}` whose first index is `k`. -/
def luaArrayFrom (k : Nat) : List LuaValue → List (LuaValue × LuaValue)
  | [] => []
  | v :: vs => (.number (k : ℚ), v) :: luaArrayFrom (k + 1) vs

/-- The Lua array `{v1, v2, ...}`: indices 1, 2, ... visited in order. -/
def luaArray (vs : List LuaValue) : LuaValue :=
  .table (luaArrayFrom 1 vs)

/-- The Lua array of the unit ids of a list. -/
def unitIDArray (ids : List Int) : LuaValue :=
  luaArray (ids.map (fun (unitID : Int) => LuaValue.number (unitID : ℚ)))

/-- The commands of a list of (unit id, command) pairs that are addressed to
the unit `unitID`, in order. -/
def commandsFor (pairs : List (Int × Command)) (unitID : Int) : List Command :=
  (pairs.filter (fun p => p.1 == unitID)).map (fun p => p.2)

/-- The game in which every unit has, appended to its queue, the commands
that a list of (unit id, command) pairs addresses to it. -/
def Game.deliver (g : Game) (pairs : List (Int × Command)) : Game :=
  { g with
    units := g.units.map (fun u => { u with commandQue := u.commandQue ++ commandsFor pairs u.id }) }

/-- The game in which the units whose id is in `ids` are marked dead. -/
def Game.markDead (g : Game) (ids : List Int) : Game :=
  { g with units := g.units.map (fun u => if u.id ∈ ids then { u with isDead := true } else u) }

/-- The Lua table whose keys are the unit ids of a list, each with the value
given for it. -/
def unitIDMap (entries : List (Int × LuaValue)) : LuaValue :=
  .table (entries.map (fun (e : Int × LuaValue) => (LuaValue.number (e.1 : ℚ), e.2)))

/-- Whether `unitID` names an existing unit that the caller may control. -/
def Game.mayOrder (g : Game) (L : lua_State) (unitID : Int) : Bool :=
  match g.GetUnit unitID with
  | some unit => CanControlUnit L unit
  | none => false

/-- The ResourcePack invariant of a team: `0 ≤ current ≤ storageCap` for
metal and for energy. -/
def CTeam.resInvariant (t : CTeam) : Prop :=
  0 ≤ t.res.metal ∧ t.res.metal ≤ t.resStorage.metal ∧
    0 ≤ t.res.energy ∧ t.res.energy ≤ t.resStorage.energy

/-- The visibility bit a flag name stands for; none for an unknown name
(`private` is among the unknown names: its case is commented out in the
source). -/
def visibilityBit (C : RulesParamLos) (name : String) : Option Int :=
  if name = "public" then some C.PUBLIC
  else if name = "inlos" then some C.INLOS
  else if name = "typed" then some C.TYPED
  else if name = "inradar" then some C.INRADAR
  else if name = "allied" then some C.ALLIED
  else none

/-- The bits of the entries of a flag table whose key is one of the five
names and whose value is true, in the order of the entries. -/
def flagBits (C : RulesParamLos) (es : List (LuaValue × LuaValue)) : List Int :=
  es.filterMap (fun kv =>
    match kv with
    | (.string name, .boolean true) => visibilityBit C name
    | _ => none)

/-- `float3::SqLength()`: the sum of the squares of the components. -/
def float3.SqLength (v : float3) : ℚ :=
  v.x * v.x + v.y * v.y + v.z * v.z

/-- One of the eight rate fields of a unit: conditional or unconditional, make
or use, energy or metal. -/
def CUnit.resourcing (u : CUnit) (conditional make energy : Bool) : ℚ :=
  let pack :=
    match conditional, make with
    | false, false => u.resourcesUncondUse
    | false, true => u.resourcesUncondMake
    | true, false => u.resourcesCondUse
    | true, true => u.resourcesCondMake
  if energy then pack.energy else pack.metal

/-- The unit `u` with its four rate packs replaced by those of `v`. -/
def CUnit.withRatesOf (u v : CUnit) : CUnit :=
  { u with
    resourcesCondUse := v.resourcesCondUse,
    resourcesCondMake := v.resourcesCondMake,
    resourcesUncondUse := v.resourcesUncondUse,
    resourcesUncondMake := v.resourcesUncondMake }

/-- The six counters of a state lie between 0 and `MAX_CMD_RECURSION_DEPTH`. -/
def Game.countersBounded (g : Game) (MAX_CMD_RECURSION_DEPTH : Nat) : Prop :=
  ∀ c : Counter, 0 ≤ g.counter c ∧ g.counter c ≤ (MAX_CMD_RECURSION_DEPTH : Int)

/-- The part of a unit that the health and paralyze entries of `SetUnitHealth`
read and write: health, maximal health, paralyze damage and stunned flag. -/
def CUnit.healthState (u : CUnit) : ℚ × ℚ × ℚ × Bool :=
  (u.health, u.maxHealth, u.paralyzeDamage, u.stunned)

/-- A state `g1` reached from `g` keeps the counters: they are within bounds
in `g1` and none is below its value in `g`. -/
def countersKept (MAX_CMD_RECURSION_DEPTH : Nat) (g g1 : Game) : Prop :=
  g1.countersBounded MAX_CMD_RECURSION_DEPTH ∧ ∀ c : Counter, g.counter c ≤ g1.counter c

/-- A state transformer keeps the counters when it does so from every state
whose counters are within bounds. -/
def keepsCounters (MAX_CMD_RECURSION_DEPTH : Nat) (h : Game → Game) : Prop :=
  ∀ g : Game, g.countersBounded MAX_CMD_RECURSION_DEPTH →
    countersKept MAX_CMD_RECURSION_DEPTH g (h g)

/-! ## Example inputs -/

/-- A team with 10 metal and 6 energy. -/
def exTeam : CTeam :=
  { res := { metal := 10, energy := 6 }, resStorage := { metal := 100, energy := 100 } }

/-- A game with six teams; team 0 is `exTeam`, team 1 has 3 metal and 10 energy. -/
def exGame : Game :=
  { teams := [exTeam, { res := { metal := 3, energy := 10 } }, {}, {}, {}, {}],
    units := [{ id := 7, team := 1 }, { id := 8, team := 5 }, { id := 9, team := 1 }, { id := 10, team := 1 }] }

/-- A restricted caller bound to team 0 calling `f(0, "metal", 4)`. -/
def exUseMetal : lua_State :=
  { stack := [.number 0, .string "metal", .number 4], fullCtrl := false, ctrlTeam := 0 }

/-- A restricted caller bound to team 1 calling `f(1, "metal", 4)`. -/
def exUseTooMuch : lua_State :=
  { stack := [.number 1, .string "metal", .number 4], fullCtrl := false, ctrlTeam := 1 }

/-- A restricted caller bound to team 0 calling `f(0, "energy", 6)`. -/
def exUseEnergy : lua_State :=
  { stack := [.number 0, .string "energy", .number 6], fullCtrl := false, ctrlTeam := 0 }

/-- A restricted caller bound to team 0 calling `f(0, {metal = 5, energy = 5})`. -/
def exUseBoth : lua_State :=
  { stack := [.number 0, .table [(.string "metal", .number 5), (.string "energy", .number 5)]],
    fullCtrl := false, ctrlTeam := 0 }

/-- A restricted caller bound to team 2 calling `f(5, "metal", 4)`. -/
def exDenied : lua_State :=
  { stack := [.number 5, .string "metal", .number 4], fullCtrl := false, ctrlTeam := 2 }

/-- A restricted caller bound to team 1 calling `f(7, {m = 5, e = 5})` for its unit 7. -/
def exUnitUseBoth : lua_State :=
  { stack := [.number 7, .table [(.string "m", .number 5), (.string "e", .number 5)]],
    fullCtrl := false, ctrlTeam := 1 }

/-- Stand-ins for the command parsers in the examples: a command is given by
its id alone. -/
def exUtils : LuaUtils :=
  { ParseCommand := fun L i => (luaL_checkint L (L.arg i)).map (fun id => { id := id }),
    ParseCommandArray := fun L i =>
      .ok ((lua_entries (L.arg i)).map (fun kv => { id := lua_toint L kv.2 })) }

/-- A restricted caller bound to team 2 calling `GiveOrderToUnit(8, 0)` for
unit 8, which exists and belongs to team 5. -/
def exOrderDenied : lua_State :=
  { stack := [.number 8, .number 0], fullCtrl := false, ctrlTeam := 2 }

/-- A restricted caller bound to team 2 calling `SetTeamRulesParam(5, "k", 1)`. -/
def exRulesDenied : lua_State :=
  { stack := [.number 5, .string "k", .number 1], fullCtrl := false, ctrlTeam := 2 }

/-- Stand-ins for the collaborators of `CreateUnit` in the examples: one unit
def "armcom" with id 1, nothing hinders building, and loading fails. -/
def exServices : UnitServices :=
  { GetUnitDefByName := fun n => if n = "armcom" then some 1 else none,
    GetUnitDefByID := fun i => if i = 1 then some 1 else none,
    ParseFacing := fun _ _ => .ok 0,
    CanBuildUnit := fun _ _ _ => true,
    LoadUnit := fun _ g => (g, none),
    SetSoloBuilder := fun _ _ _ g => g }

/-- A full-control caller calling
`CreateUnit("armcom", 0, 0, 0, 0, 0, false, true, nil, true)`: the tenth
argument, builderID, is a boolean. -/
def exCreateBadBuilder : lua_State :=
  { stack := [.string "armcom", .number 0, .number 0, .number 0, .number 0, .number 0,
      .boolean false, .boolean true, .nil, .boolean true] }

/-- A caller calling `SetRulesParam` (offset 0) as `f("k", nil, {public = true})`. -/
def exDeleteParam : lua_State :=
  { stack := [.string "k", .nil, .table [(.string "public", .boolean true)]] }

/-- A rules-param map with a public entry `k` and a private entry `j`. -/
def exParams : Params :=
  [("k", { value := .number 3, los := 32 }), ("j", { value := .boolean true, los := 1 })]

/-- A restricted caller bound to team 1 calling
`GiveOrderArrayToUnitArray({7, 9, 10}, {100, 200}, true)`: three of its units,
two commands, pairwise. -/
def exPairwise : lua_State :=
  { stack := [unitIDArray [7, 9, 10], luaArray [.number 100, .number 200], .boolean true],
    fullCtrl := false, ctrlTeam := 1 }

/-- A restricted caller bound to team 1 calling `DestroyUnit(7)`. -/
def exDestroy : lua_State :=
  { stack := [.number 7], fullCtrl := false, ctrlTeam := 1 }

/-- A restricted caller bound to team 1 calling `f({7, 8, 99, 9, 7}, 100)`:
unit 8 belongs to team 5 and no unit 99 exists. -/
def exBatchArray : lua_State :=
  { stack := [unitIDArray [7, 8, 99, 9, 7], .number 100], fullCtrl := false, ctrlTeam := 1 }

/-- Two teams with a storage cap of 100 each: team 0 has 10 metal, team 1 has
3 metal. -/
def exShareGame : Game :=
  { teams := [{ res := { metal := 10, energy := 0 }, resStorage := { metal := 100, energy := 100 } },
              { res := { metal := 3, energy := 0 }, resStorage := { metal := 100, energy := 100 } }] }

/-- A full-control caller calling `ShareTeamResource(0, 1, "m", 4)`. -/
def exShare : lua_State :=
  { stack := [.number 0, .number 1, .string "m", .number 4] }

/-- A full-control caller calling `ShareTeamResource(0, 0, "m", 4)`: the team
shares with itself. -/
def exShareSelf : lua_State :=
  { stack := [.number 0, .number 0, .string "m", .number 4] }

/-- A full-control caller calling `ShareTeamResource(0, 1, "m", -5)`. -/
def exShareNegative : lua_State :=
  { stack := [.number 0, .number 1, .string "m", .number (-5)] }

/-- A full-control caller calling `ShareTeamResource(1, 0, "m", 3)` in a game
where team 0 has 98 of 100 metal. -/
def exShareFull : lua_State :=
  { stack := [.number 1, .number 0, .string "m", .number 3] }

/-- Two teams with a storage cap of 100 each: team 0 has 98 metal, team 1 has
3 metal. -/
def exShareFullGame : Game :=
  { teams := [{ res := { metal := 98, energy := 0 }, resStorage := { metal := 100, energy := 100 } },
              { res := { metal := 3, energy := 0 }, resStorage := { metal := 100, energy := 100 } }] }

/-- A hook that approves every transfer. -/
def exApprove : Game → Int → Int → String → ℚ → Bool :=
  fun _ _ _ _ _ => true

/-- A restricted caller bound to team 0 calling `SetTeamResource(0, "ms", 4)`. -/
def exSetStorage : lua_State :=
  { stack := [.number 0, .string "ms", .number 4], fullCtrl := false, ctrlTeam := 0 }

/-- Stand-ins for the LOS collaborators in the examples: `SetLosStatus`
stores the status it is given, `CalcLosStatus` returns the stored one. -/
def exLos : LosServices :=
  { CalcLosStatus := fun g unitID allyTeam =>
      ((g.GetUnit unitID).map (fun u => u.losStatus allyTeam.toNat)).getD 0,
    SetLosStatus := fun unitID allyTeam status g =>
      g.modifyUnit unitID
        (fun u => { u with losStatus := Function.update u.losStatus allyTeam.toNat status }) }

/-- The example game with two ally teams; every `losStatus` is 0. -/
def exLosGame : Game :=
  { exGame with activeAllyTeams := 2 }

/-- A restricted caller bound to team 1 calling `f(7, 0, 16)` for its unit 7. -/
def exLosSixteen : lua_State :=
  { stack := [.number 7, .number 0, .number 16], fullCtrl := false, ctrlTeam := 1 }

/-- A restricted caller bound to team 1 calling `f(7, 0, 255)` for its unit 7. -/
def exLosAll : lua_State :=
  { stack := [.number 7, .number 0, .number 255], fullCtrl := false, ctrlTeam := 1 }

/-- A caller calling `SetRulesParam` (offset 0) as
`f("k", 7, {public = true, inlos = false, allied = true, foo = true})`. -/
def exVisibility : lua_State :=
  { stack := [.string "k", .number 7,
      .table [(.string "public", .boolean true), (.string "inlos", .boolean false),
              (.string "allied", .boolean true), (.string "foo", .boolean true)]] }

/-- A caller calling `SetRulesParam` (offset 0) as `f("k", "5")`, in a runtime
that reads the string "5" as the number 5. -/
def exNumericString : lua_State :=
  { stack := [.string "k", .string "5"], str2d := fun s => if s = "5" then some 5 else none }

/-- A caller calling `SetRulesParam` (offset 0) as `f("k", {})`: the value is
a table. -/
def exTableValue : lua_State :=
  { stack := [.string "k", .table []] }

/-- Stand-ins for the build collaborators in the examples: both leave the
unit as it is. -/
def exBuild : UnitBuildServices :=
  { FinishedBuilding := fun u => u, TurnIntoNanoframe := fun u => u }

/-- A game with one team and its unit 7, which has 80 of 100 health. -/
def exHealthGame : Game :=
  { teams := [{}], units := [{ id := 7, team := 0, health := 80, maxHealth := 100 }] }

/-- A full-control caller calling `SetUnitHealth(7, {health = 50, paralyze = 10})`. -/
def exSetHealth : lua_State :=
  { stack := [.number 7, .table [(.string "health", .number 50), (.string "paralyze", .number 10)]] }

/-- A caller calling `SetRulesParam` (offset 0) as `f("k", 9)`: a new value
and no visibility argument. -/
def exUpdateValue : lua_State :=
  { stack := [.string "k", .number 9] }

/-- A stand-in for `CUnit::ApplyImpulse` in the examples: the impulse is added
to the speed of the unit. -/
def exApplyImpulse : CUnit → float3 → CUnit :=
  fun u v => { u with speed := { x := u.speed.x + v.x, y := u.speed.y + v.y, z := u.speed.z + v.z } }

/-- A full-control caller calling `AddUnitImpulse(7, 10000, 10000, 10000)`. -/
def exImpulseDiagonal : lua_State :=
  { stack := [.number 7, .number 10000, .number 10000, .number 10000] }

/-- A full-control caller calling `AddUnitImpulse(7, 3, -20000, 20000)`. -/
def exImpulseMixed : lua_State :=
  { stack := [.number 7, .number 3, .number (-20000), .number 20000] }

/-- A restricted caller bound to team 1 calling
`GiveOrderArrayToUnitArray({8, 99, 7}, {100, 200, 300}, true)`: unit 8
belongs to team 5, no unit 99 exists, unit 7 is its own. -/
def exPairwiseSkipped : lua_State :=
  { stack := [unitIDArray [8, 99, 7], luaArray [.number 100, .number 200, .number 300],
      .boolean true],
    fullCtrl := false, ctrlTeam := 1 }

/-- A map of 4 by 4 squares of size 8. -/
def exMap : MapServices :=
  { mapx := 4, mapy := 4 }

/-- A smooth mesh of 3 by 3 cells of resolution 16. -/
def exSmooth : SmoothGround :=
  { GetResolution := 16, GetMaxX := 3, GetMaxY := 3 }

/-- A state inside the callbacks of `SetHeightMapFunc` and `SetSmoothMeshFunc`
in which the height map and the smooth mesh are 10 everywhere. -/
def exHeightGame : Game :=
  { inHeightMap := true, inSmoothMesh := true, heightMap := fun _ => 10, smoothMesh := fun _ => 10 }

/-- A caller calling `f(0, 0, 5)`: the point at the origin, target height 5,
no terraform factor. -/
def exLower : lua_State :=
  { stack := [.number 0, .number 0, .number 5] }

/-- A caller calling `GameOver({256, -256})`. -/
def exGameOver : lua_State :=
  { stack := [luaArray [.number 256, .number (-256)]] }

/-- A full-control caller calling `SetUnitHealth(7, t)` for a table `t` with
health 5 and paralyze 10 whose health entry is visited first. -/
def exHealthFirst : lua_State :=
  { stack := [.number 7, .table [(.string "health", .number 5), (.string "paralyze", .number 10)]] }

/-- The call of `exHealthFirst` for the table whose paralyze entry is visited
first. -/
def exParalyzeFirst : lua_State :=
  { stack := [.number 7, .table [(.string "paralyze", .number 10), (.string "health", .number 5)]] }

/-- A caller calling `f(16, 0, 1e20, 0, 3)`: a rectangle from x = 16 to
x = 1e20 on the row z = 0, and the height 3. -/
def exHugeRect : lua_State :=
  { stack := [.number 16, .number 0, .number 100000000000000000000, .number 0, .number 3] }

/-- A chunk that calls `SetHeightMapFunc` with a callback that sets the height
at the origin to 5, tries a nested `SetHeightMapFunc` under `pcall` and
raises an error; after the call, which it makes under `pcall`, the chunk
calls `SetHeightMap` outside a callback. -/
def exTerraform : MapScript :=
  .pcall
    (.setHeightMapFunc
      (.setHeightMap [.number 0, .number 0, .number 5]
        (.pcall (.setHeightMapFunc .done .done) .raise))
      .done)
    (.setHeightMap [.number 0, .number 0, .number 7] .done)

/-- A chunk that calls `CreateUnit` with a bad builder id under `pcall`, so
that the call raises between increment and decrement, and then destroys a
unit whose death call-in destroys a second unit, whose death call-in tries
to destroy a third. -/
def exCascade : Script :=
  .pcall (.call .CreateUnit .inside .done .done)
    (.call .DestroyUnit .through
      (.call .DestroyUnit .through
        (.call .DestroyUnit .through .done .done) .done) .done)

/-! # Theorems -/

/-! ## Helper lemmas -/

theorem Game.isValidTeam_of_team {g : Game} {teamID : Int} {t : CTeam}
    (h : g.Team teamID = some t) : g.IsValidTeam teamID = true := by
  unfold Game.Team at h
  unfold Game.IsValidTeam
  split at h
  · rename_i h0
    have hlt : teamID.toNat < g.teams.length := by
      by_contra hc
      rw [List.getElem?_eq_none (by omega)] at h
      cases h
    simp only [Bool.and_eq_true, decide_eq_true_eq]
    omega
  · cases h

theorem Game.team_setTeam {g : Game} {teamID : Int} {t : CTeam} (t1 : CTeam)
    (h : g.Team teamID = some t) : (g.setTeam teamID t1).Team teamID = some t1 := by
  have hv := Game.isValidTeam_of_team h
  unfold Game.IsValidTeam at hv
  simp only [Bool.and_eq_true, decide_eq_true_eq] at hv
  unfold Game.setTeam Game.Team
  have hlt : teamID.toNat < g.teams.length := by omega
  simp [hv.1, hlt]

theorem lua_number2int_intCast (n : Int) : lua_number2int (n : ℚ) = n := by
  simp [lua_number2int]

/-! ## C1 -/

theorem UseTeamResource_metal_eq (L : lua_State) (g : Game) (teamID : Int) (team : CTeam) (a : ℚ)
    (hid : luaL_checkint L (L.arg 1) = .ok teamID)
    (hteam : g.Team teamID = some team)
    (hctl : CanControlTeam L teamID = true)
    (hstr : lua_isstring (L.arg 2) = true)
    (hkind : firstChar (lua_tostring L (L.arg 2)) = 'm')
    (hamount : luaL_checkfloat L (L.arg 3) = .ok a) :
    UseTeamResource L g =
      (g.setTeam teamID (CTeam.UseMetal { team with resPull :=
          { team.resPull with metal := team.resPull.metal + max 0 a } } (max 0 a)).2,
        .ok [.boolean (CTeam.UseMetal { team with resPull :=
          { team.resPull with metal := team.resPull.metal + max 0 a } } (max 0 a)).1]) := by
  have hv := Game.isValidTeam_of_team hteam
  simp [UseTeamResource, hid, hv, hctl, hteam, hstr, hamount, hkind]

theorem UseTeamResource_energy_eq (L : lua_State) (g : Game) (teamID : Int) (team : CTeam) (a : ℚ)
    (hid : luaL_checkint L (L.arg 1) = .ok teamID)
    (hteam : g.Team teamID = some team)
    (hctl : CanControlTeam L teamID = true)
    (hstr : lua_isstring (L.arg 2) = true)
    (hkind : firstChar (lua_tostring L (L.arg 2)) = 'e')
    (hamount : luaL_checkfloat L (L.arg 3) = .ok a) :
    UseTeamResource L g =
      (g.setTeam teamID (CTeam.UseEnergy { team with resPull :=
          { team.resPull with energy := team.resPull.energy + max 0 a } } (max 0 a)).2,
        .ok [.boolean (CTeam.UseEnergy { team with resPull :=
          { team.resPull with energy := team.resPull.energy + max 0 a } } (max 0 a)).1]) := by
  have hv := Game.isValidTeam_of_team hteam
  simp [UseTeamResource, hid, hv, hctl, hteam, hstr, hamount, hkind]

/-- C1: the string form of `UseTeamResource` on a team the caller may control,
with a kind whose first character is `m` or `e` and an amount `a ≥ 0`, checks
and then uses.  When the current amount of that kind is at least `a` the call
returns true and leaves the current amount equal to the previous one minus
`a`, which is not negative; otherwise it returns false and leaves the current
amount as it was.  In both cases the pull accumulator of that kind grows by
`a`, and the current amount of the other kind is as it was. -/
theorem UseTeamResource_string_check_then_use (L : lua_State) (g : Game) (teamID : Int)
    (team : CTeam) (a : ℚ)
    (hid : luaL_checkint L (L.arg 1) = .ok teamID)
    (hteam : g.Team teamID = some team)
    (hctl : CanControlTeam L teamID = true)
    (hstr : lua_isstring (L.arg 2) = true)
    (hkind : firstChar (lua_tostring L (L.arg 2)) = 'm' ∨ firstChar (lua_tostring L (L.arg 2)) = 'e')
    (hamount : luaL_checkfloat L (L.arg 3) = .ok a) (ha : 0 ≤ a) :
    ∃ team1, (UseTeamResource L g).1.Team teamID = some team1 ∧
      (if firstChar (lua_tostring L (L.arg 2)) = 'm' then
        team1.resPull.metal = team.resPull.metal + a ∧ team1.res.energy = team.res.energy ∧
          (if team.res.metal ≥ a then
            (UseTeamResource L g).2 = .ok [.boolean true] ∧
              team1.res.metal = team.res.metal - a ∧ 0 ≤ team1.res.metal
          else
            (UseTeamResource L g).2 = .ok [.boolean false] ∧ team1.res.metal = team.res.metal)
      else
        team1.resPull.energy = team.resPull.energy + a ∧ team1.res.metal = team.res.metal ∧
          (if team.res.energy ≥ a then
            (UseTeamResource L g).2 = .ok [.boolean true] ∧
              team1.res.energy = team.res.energy - a ∧ 0 ≤ team1.res.energy
          else
            (UseTeamResource L g).2 = .ok [.boolean false] ∧
              team1.res.energy = team.res.energy)) := by
  have hmax : max 0 a = a := max_eq_right ha
  rcases hkind with hk | hk
  · rw [UseTeamResource_metal_eq L g teamID team a hid hteam hctl hstr hk hamount, hmax]
    refine ⟨_, Game.team_setTeam _ hteam, ?_⟩
    rw [if_pos hk]
    by_cases hc : team.res.metal ≥ a
    · rw [if_pos hc]
      simp only [CTeam.UseMetal, hc, if_true]
      exact ⟨trivial, trivial, trivial, trivial, by linarith⟩
    · rw [if_neg hc]
      simp only [CTeam.UseMetal, hc, if_false]
      exact ⟨trivial, trivial, trivial, trivial⟩
  · have hne : ¬ firstChar (lua_tostring L (L.arg 2)) = 'm' := by rw [hk]; decide
    rw [UseTeamResource_energy_eq L g teamID team a hid hteam hctl hstr hk hamount, hmax]
    refine ⟨_, Game.team_setTeam _ hteam, ?_⟩
    rw [if_neg hne]
    by_cases hc : team.res.energy ≥ a
    · rw [if_pos hc]
      simp only [CTeam.UseEnergy, hc, if_true]
      exact ⟨trivial, trivial, trivial, trivial, by linarith⟩
    · rw [if_neg hc]
      simp only [CTeam.UseEnergy, hc, if_false]
      exact ⟨trivial, trivial, trivial, trivial⟩

theorem UseTeamResource_string_check_then_use_witness :
    (∃ team1, (UseTeamResource exUseMetal exGame).1.Team 0 = some team1 ∧
      (UseTeamResource exUseMetal exGame).2 = .ok [.boolean true] ∧
      team1.res.metal = 6 ∧ team1.res.energy = 6 ∧ team1.resPull.metal = 4) ∧
    (∃ team1, (UseTeamResource exUseTooMuch exGame).1.Team 1 = some team1 ∧
      (UseTeamResource exUseTooMuch exGame).2 = .ok [.boolean false] ∧
      team1.res.metal = 3 ∧ team1.res.energy = 10 ∧ team1.resPull.metal = 4) ∧
    (∃ team1, (UseTeamResource exUseEnergy exGame).1.Team 0 = some team1 ∧
      (UseTeamResource exUseEnergy exGame).2 = .ok [.boolean true] ∧
      team1.res.metal = 10 ∧ team1.res.energy = 0 ∧ team1.resPull.energy = 6) := by
  have h1 := UseTeamResource_string_check_then_use exUseMetal exGame 0 exTeam 4
    (by simp [luaL_checkint, lua_isnumber, lua_toint, lua_tofloat, lua_number2int, lua_State.arg, exUseMetal])
    (by simp [Game.Team, exGame])
    (by simp [CanControlTeam, FullCtrl, CtrlTeam, exUseMetal])
    (by simp [lua_isstring, lua_State.arg, exUseMetal])
    (Or.inl (by simp [lua_tostring, lua_State.arg, exUseMetal, firstChar]))
    (by simp [luaL_checkfloat, lua_isnumber, lua_tofloat, lua_State.arg, exUseMetal])
    (by norm_num)
  have h2 := UseTeamResource_string_check_then_use exUseTooMuch exGame 1
    { res := { metal := 3, energy := 10 } } 4
    (by simp [luaL_checkint, lua_isnumber, lua_toint, lua_tofloat, lua_number2int, lua_State.arg, exUseTooMuch])
    (by simp [Game.Team, exGame])
    (by simp [CanControlTeam, FullCtrl, CtrlTeam, exUseTooMuch])
    (by simp [lua_isstring, lua_State.arg, exUseTooMuch])
    (Or.inl (by simp [lua_tostring, lua_State.arg, exUseTooMuch, firstChar]))
    (by simp [luaL_checkfloat, lua_isnumber, lua_tofloat, lua_State.arg, exUseTooMuch])
    (by norm_num)
  have h3 := UseTeamResource_string_check_then_use exUseEnergy exGame 0 exTeam 6
    (by simp [luaL_checkint, lua_isnumber, lua_toint, lua_tofloat, lua_number2int, lua_State.arg, exUseEnergy])
    (by simp [Game.Team, exGame])
    (by simp [CanControlTeam, FullCtrl, CtrlTeam, exUseEnergy])
    (by simp [lua_isstring, lua_State.arg, exUseEnergy])
    (Or.inr (by simp [lua_tostring, lua_State.arg, exUseEnergy, firstChar]))
    (by simp [luaL_checkfloat, lua_isnumber, lua_tofloat, lua_State.arg, exUseEnergy])
    (by norm_num)
  have k1 : firstChar (lua_tostring exUseMetal (exUseMetal.arg 2)) = 'm' := by
    simp [lua_tostring, lua_State.arg, exUseMetal, firstChar]
  have k2 : firstChar (lua_tostring exUseTooMuch (exUseTooMuch.arg 2)) = 'm' := by
    simp [lua_tostring, lua_State.arg, exUseTooMuch, firstChar]
  have k3 : ¬ firstChar (lua_tostring exUseEnergy (exUseEnergy.arg 2)) = 'm' := by
    simp [lua_tostring, lua_State.arg, exUseEnergy, firstChar]
  have c1 : exTeam.res.metal ≥ (4 : ℚ) := by norm_num [exTeam]
  have c2 : ¬ ((3 : ℚ) ≥ 4) := by norm_num
  have c3 : exTeam.res.energy ≥ (6 : ℚ) := by norm_num [exTeam]
  obtain ⟨t1, e1, h1⟩ := h1
  obtain ⟨t2, e2, h2⟩ := h2
  obtain ⟨t3, e3, h3⟩ := h3
  rw [if_pos k1, if_pos c1] at h1
  rw [if_pos k2, if_neg c2] at h2
  rw [if_neg k3, if_pos c3] at h3
  obtain ⟨p1, o1, r1, m1, _⟩ := h1
  obtain ⟨p2, o2, r2, m2⟩ := h2
  obtain ⟨p3, o3, r3, m3, _⟩ := h3
  refine ⟨⟨t1, e1, r1, ?_, ?_, ?_⟩, ⟨t2, e2, r2, ?_, ?_, ?_⟩, ⟨t3, e3, r3, ?_, ?_, ?_⟩⟩
  · rw [m1]; norm_num [exTeam]
  · rw [o1]; norm_num [exTeam]
  · rw [p1]; norm_num [exTeam]
  · rw [m2]
  · rw [o2]
  · rw [p2]; norm_num
  · rw [o3]; norm_num [exTeam]
  · rw [m3]; norm_num [exTeam]
  · rw [p3]; norm_num [exTeam]

/-! ## C3 -/

theorem UseTeamResource_table_eq (L : lua_State) (g : Game) (teamID : Int) (team : CTeam)
    (es : List (LuaValue × LuaValue))
    (hid : luaL_checkint L (L.arg 1) = .ok teamID)
    (hteam : g.Team teamID = some team)
    (hctl : CanControlTeam L teamID = true)
    (htab : L.arg 2 = .table es) :
    UseTeamResource L g =
      (if team.res.metal ≥ (ParseResourceUsage L es).1 ∧ team.res.energy ≥ (ParseResourceUsage L es).2 then
        (g.setTeam teamID
          { team with
            res := { metal := team.res.metal - (ParseResourceUsage L es).1,
                     energy := team.res.energy - (ParseResourceUsage L es).2 },
            resPull := { metal := team.resPull.metal + (ParseResourceUsage L es).1,
                         energy := team.resPull.energy + (ParseResourceUsage L es).2 } },
          .ok [.boolean true])
      else
        (g.setTeam teamID
          { team with
            resPull := { metal := team.resPull.metal + (ParseResourceUsage L es).1,
                         energy := team.resPull.energy + (ParseResourceUsage L es).2 } },
          .ok [.boolean false])) := by
  have hv := Game.isValidTeam_of_team hteam
  by_cases hc : team.res.metal ≥ (ParseResourceUsage L es).1 ∧ team.res.energy ≥ (ParseResourceUsage L es).2
  · have h1 := hc.1
    have h2 := hc.2
    simp [UseTeamResource, hid, hv, hctl, hteam, htab, lua_isstring, lua_istable, lua_entries,
      CTeam.UseMetal, CTeam.UseEnergy, h1, h2]
  · simp only [UseTeamResource, hid, hv, hctl, hteam, htab, lua_isstring, lua_istable, lua_entries]
    simp [hc]

/-- The table `{metal = m, energy = e}` is read as the amounts `max 0 m` and `max 0 e`. -/
theorem ParseResourceUsage_metal_energy (L : lua_State) (m e : ℚ) :
    ParseResourceUsage L [(.string "metal", .number m), (.string "energy", .number e)]
      = (max 0 m, max 0 e) := by
  simp [ParseResourceUsage, resourceUsageStep, lua_israwstring, lua_isnumber, lua_tostring,
    lua_tofloat, firstChar]

/-- C3 as the code has it: the table form of `UseTeamResource` on a team the
caller may control, with `m` and `e` the metal and energy amounts read from the
table, returns true exactly when current metal ≥ `m` and current energy ≥ `e`
and then consumes both; otherwise it returns false and consumes neither; in
both cases the pull accumulator grows by `m` and `e`. -/
theorem UseTeamResource_table_all_or_nothing (L : lua_State) (g : Game) (teamID : Int)
    (team : CTeam) (es : List (LuaValue × LuaValue))
    (hid : luaL_checkint L (L.arg 1) = .ok teamID)
    (hteam : g.Team teamID = some team)
    (hctl : CanControlTeam L teamID = true)
    (htab : L.arg 2 = .table es) :
    ∃ team1, (UseTeamResource L g).1.Team teamID = some team1 ∧
      team1.resPull.metal = team.resPull.metal + (ParseResourceUsage L es).1 ∧
      team1.resPull.energy = team.resPull.energy + (ParseResourceUsage L es).2 ∧
      (if team.res.metal ≥ (ParseResourceUsage L es).1 ∧ team.res.energy ≥ (ParseResourceUsage L es).2 then
        (UseTeamResource L g).2 = .ok [.boolean true] ∧
          team1.res.metal = team.res.metal - (ParseResourceUsage L es).1 ∧
          team1.res.energy = team.res.energy - (ParseResourceUsage L es).2
      else
        (UseTeamResource L g).2 = .ok [.boolean false] ∧
          team1.res.metal = team.res.metal ∧ team1.res.energy = team.res.energy) := by
  rw [UseTeamResource_table_eq L g teamID team es hid hteam hctl htab]
  by_cases hc : team.res.metal ≥ (ParseResourceUsage L es).1 ∧ team.res.energy ≥ (ParseResourceUsage L es).2
  · simp only [if_pos hc]
    exact ⟨_, Game.team_setTeam _ hteam, rfl, rfl, trivial, rfl, rfl⟩
  · simp only [if_neg hc]
    exact ⟨_, Game.team_setTeam _ hteam, rfl, rfl, trivial, rfl, rfl⟩

theorem UseTeamResource_table_all_or_nothing_witness :
    ∃ team1, (UseTeamResource exUseBoth exGame).1.Team 0 = some team1 ∧
      team1.resPull.metal = exTeam.resPull.metal + 5 ∧
      team1.resPull.energy = exTeam.resPull.energy + 5 ∧
      (UseTeamResource exUseBoth exGame).2 = .ok [.boolean true] ∧
      team1.res.metal = exTeam.res.metal - 5 ∧ team1.res.energy = exTeam.res.energy - 5 := by
  have h := UseTeamResource_table_all_or_nothing exUseBoth exGame 0 exTeam
    [(.string "metal", .number 5), (.string "energy", .number 5)]
    (by simp [luaL_checkint, lua_isnumber, lua_toint, lua_tofloat, lua_number2int, lua_State.arg, exUseBoth])
    (by simp [Game.Team, exGame])
    (by simp [CanControlTeam, FullCtrl, CtrlTeam, exUseBoth])
    (by simp [lua_State.arg, exUseBoth])
  rw [ParseResourceUsage_metal_energy] at h
  have hc : exTeam.res.metal ≥ (max 0 5 : ℚ) ∧ exTeam.res.energy ≥ (max 0 5 : ℚ) := by
    norm_num [exTeam]
  simp only [if_pos hc] at h
  obtain ⟨t, h1, h2, h3, h4, h5, h6⟩ := h
  have h05 : (max 0 5 : ℚ) = 5 := by norm_num
  rw [h05] at h2 h3 h5 h6
  exact ⟨t, h1, h2, h3, h4, h5, h6⟩

/-- C3, counterexample: `{metal = 5, energy = 5}` on a team with 10 metal and
6 energy succeeds, and the metal pull accumulator goes from 0 to 5. -/
theorem UseTeamResource_table_success_changes_pull :
    (UseTeamResource exUseBoth exGame).2 = .ok [.boolean true] ∧
      (exGame.Team 0).map (fun t => t.resPull.metal) = some 0 ∧
      ((UseTeamResource exUseBoth exGame).1.Team 0).map (fun t => t.resPull.metal) = some 5 ∧
      (5 : ℚ) ≠ 0 := by
  have hid : luaL_checkint exUseBoth (exUseBoth.arg 1) = .ok 0 := by
    simp [luaL_checkint, lua_isnumber, lua_toint, lua_tofloat, lua_number2int, lua_State.arg, exUseBoth]
  have hteam : exGame.Team 0 = some exTeam := by simp [Game.Team, exGame]
  have hctl : CanControlTeam exUseBoth 0 = true := by
    simp [CanControlTeam, FullCtrl, CtrlTeam, exUseBoth]
  have htab : exUseBoth.arg 2 = .table [(.string "metal", .number 5), (.string "energy", .number 5)] := by
    simp [lua_State.arg, exUseBoth]
  have hc : exTeam.res.metal ≥ (max 0 5 : ℚ) ∧ exTeam.res.energy ≥ (max 0 5 : ℚ) := by
    norm_num [exTeam]
  rw [UseTeamResource_table_eq exUseBoth exGame 0 exTeam _ hid hteam hctl htab,
    ParseResourceUsage_metal_energy, if_pos hc, Game.team_setTeam _ hteam, hteam]
  refine ⟨rfl, ?_, ?_, by norm_num⟩
  · simp [exTeam]
  · simp [exTeam]

/-! ## C2 -/

theorem UseUnitResource_table_eq (L : lua_State) (g : Game) (unit : CUnit) (team : CTeam)
    (es : List (LuaValue × LuaValue))
    (hunit : ParseUnit L g (L.arg 1) = .ok (some unit))
    (hteam : g.Team unit.team = some team)
    (htab : L.arg 2 = .table es)
    (hlack : team.res.metal < (ParseResourceUsage L es).1 ∨ team.res.energy < (ParseResourceUsage L es).2) :
    UseUnitResource L g =
      (g.setTeam unit.team
        { team with
          resPull := { metal := team.resPull.metal + (ParseResourceUsage L es).1,
                       energy := team.resPull.energy + (ParseResourceUsage L es).2 } },
        .ok [.boolean false]) := by
  have hc : ¬ (team.res.metal ≥ (ParseResourceUsage L es).1 ∧ team.res.energy ≥ (ParseResourceUsage L es).2) := by
    rintro ⟨h1, h2⟩
    rcases hlack with h | h
    · exact absurd h1 (not_le.mpr h)
    · exact absurd h2 (not_le.mpr h)
  simp only [UseUnitResource, hunit, hteam, htab, lua_isstring, lua_istable, lua_entries]
  simp [hc]

/-- C2: the table form of `UseUnitResource` on a unit the caller may control,
with `m` and `e` the amounts read from the table (a negative entry reads as 0):
when the owning team has less metal than `m` or less energy than `e`, the call
returns false and the team's metal and energy are as before; so whenever the
call changes the team's metal or energy, both amounts were available. -/
theorem UseUnitResource_table_all_or_nothing (L : lua_State) (g : Game) (unit : CUnit)
    (team : CTeam) (es : List (LuaValue × LuaValue))
    (hunit : ParseUnit L g (L.arg 1) = .ok (some unit))
    (hteam : g.Team unit.team = some team)
    (htab : L.arg 2 = .table es) :
    ((team.res.metal < (ParseResourceUsage L es).1 ∨ team.res.energy < (ParseResourceUsage L es).2) →
      (UseUnitResource L g).2 = .ok [.boolean false] ∧
      ∃ team1, (UseUnitResource L g).1.Team unit.team = some team1 ∧
        team1.res.metal = team.res.metal ∧ team1.res.energy = team.res.energy) ∧
    (∀ team1, (UseUnitResource L g).1.Team unit.team = some team1 →
      (team1.res.metal ≠ team.res.metal ∨ team1.res.energy ≠ team.res.energy) →
      team.res.metal ≥ (ParseResourceUsage L es).1 ∧ team.res.energy ≥ (ParseResourceUsage L es).2) := by
  have key : (team.res.metal < (ParseResourceUsage L es).1 ∨ team.res.energy < (ParseResourceUsage L es).2) →
      (UseUnitResource L g).2 = .ok [.boolean false] ∧
      ∃ team1, (UseUnitResource L g).1.Team unit.team = some team1 ∧
        team1.res.metal = team.res.metal ∧ team1.res.energy = team.res.energy := by
    intro hlack
    rw [UseUnitResource_table_eq L g unit team es hunit hteam htab hlack]
    exact ⟨rfl, _, Game.team_setTeam _ hteam, rfl, rfl⟩
  refine ⟨key, ?_⟩
  intro team1 h1 hne
  by_contra hc
  have hlack : team.res.metal < (ParseResourceUsage L es).1 ∨ team.res.energy < (ParseResourceUsage L es).2 := by
    by_cases hm : team.res.metal ≥ (ParseResourceUsage L es).1
    · right
      exact not_le.mp (fun he => hc ⟨hm, he⟩)
    · left
      exact not_le.mp hm
  obtain ⟨_, t, ht, hm, he⟩ := key hlack
  rw [h1] at ht
  cases ht
  rcases hne with h | h
  · exact h hm
  · exact h he

theorem UseUnitResource_table_all_or_nothing_witness :
    (UseUnitResource exUnitUseBoth exGame).2 = .ok [.boolean false] ∧
      ∃ team1, (UseUnitResource exUnitUseBoth exGame).1.Team 1 = some team1 ∧
        team1.res.metal = 3 ∧ team1.res.energy = 10 := by
  have hunit : ParseUnit exUnitUseBoth exGame (exUnitUseBoth.arg 1)
      = .ok (some { id := 7, team := 1 }) := by
    simp [ParseUnit, ParseRawUnit, luaL_checkint, lua_isnumber, lua_toint, lua_tofloat,
      lua_number2int, lua_State.arg, exUnitUseBoth, Game.GetUnit, exGame, List.find?,
      CanControlUnit, CanControlTeam, FullCtrl, CtrlTeam]
  have h := (UseUnitResource_table_all_or_nothing exUnitUseBoth exGame { id := 7, team := 1 }
    { res := { metal := 3, energy := 10 } } [(.string "m", .number 5), (.string "e", .number 5)]
    hunit (by simp [Game.Team, exGame]) (by simp [lua_State.arg, exUnitUseBoth])).1
    (Or.inl (by
      simp [ParseResourceUsage, resourceUsageStep, lua_israwstring, lua_isnumber, lua_tostring,
        lua_tofloat, firstChar]
      norm_num))
  exact h

/-! ## C4 -/

/-- C4: on a valid team that the caller may not control, `AddTeamResource`,
`UseTeamResource`, `SetTeamResource` and `SetTeamShareLevel` return no value
and leave the whole game state, hence every field of the team, as it was,
whatever the other arguments are. -/
theorem denied_team_ledger_access_noop (L : lua_State) (g : Game) (teamID : Int)
    (hid : luaL_checkint L (L.arg 1) = .ok teamID)
    (hvalid : g.IsValidTeam teamID = true)
    (hdeny : CanControlTeam L teamID = false) :
    AddTeamResource L g = (g, .ok []) ∧ UseTeamResource L g = (g, .ok []) ∧
      SetTeamResource L g = (g, .ok []) ∧ SetTeamShareLevel L g = (g, .ok []) := by
  refine ⟨?_, ?_, ?_, ?_⟩
  · simp [AddTeamResource, hid, hvalid, hdeny]
  · simp [UseTeamResource, hid, hvalid, hdeny]
  · simp [SetTeamResource, hid, hvalid, hdeny]
  · simp [SetTeamShareLevel, hid, hvalid, hdeny]

theorem denied_team_ledger_access_noop_witness :
    AddTeamResource exDenied exGame = (exGame, .ok []) ∧
      UseTeamResource exDenied exGame = (exGame, .ok []) ∧
      SetTeamResource exDenied exGame = (exGame, .ok []) ∧
      SetTeamShareLevel exDenied exGame = (exGame, .ok []) :=
  denied_team_ledger_access_noop exDenied exGame 5
    (by simp [luaL_checkint, lua_isnumber, lua_toint, lua_tofloat, lua_number2int, lua_State.arg, exDenied])
    (by simp [Game.IsValidTeam, exGame])
    (by simp [CanControlTeam, FullCtrl, CtrlTeam, exDenied])

/-! ## C5 -/

/-- With well-formed arguments, `GiveOrderToUnit` on an existing unit that the
caller may not control raises "invalid unitID": `ParseUnit` has already turned
the unit into a null pointer, and the `CanControlUnit` test that would return
false is never reached. -/
theorem GiveOrderToUnit_denied_eq (MAX_CMD_RECURSION_DEPTH : Nat) (U : LuaUtils) (L : lua_State)
    (g : Game) (unitID : Int) (unit : CUnit)
    (hallow : L.allowChanges = true)
    (hid : luaL_checkint L (L.arg 1) = .ok unitID)
    (hunit : g.GetUnit unitID = some unit)
    (hdeny : CanControlUnit L unit = false) :
    GiveOrderToUnit MAX_CMD_RECURSION_DEPTH U L g = (g, .error "GiveOrderToUnit invalid unitID") := by
  simp [GiveOrderToUnit, CheckAllowGameChanges, hallow, ParseUnit, ParseRawUnit, hid, hunit, hdeny]

/-- C5, the code at the failing input: a caller bound to team 2 orders unit 8
of team 5; the call raises an error instead of returning false. -/
theorem GiveOrderToUnit_denied_raises (MAX_CMD_RECURSION_DEPTH : Nat) :
    GiveOrderToUnit MAX_CMD_RECURSION_DEPTH exUtils exOrderDenied exGame
      = (exGame, .error "GiveOrderToUnit invalid unitID") :=
  GiveOrderToUnit_denied_eq MAX_CMD_RECURSION_DEPTH exUtils exOrderDenied exGame 8
    { id := 8, team := 5 } rfl
    (by simp [luaL_checkint, lua_isnumber, lua_toint, lua_tofloat, lua_number2int, lua_State.arg,
      exOrderDenied])
    (by simp [Game.GetUnit, exGame, List.find?])
    (by simp [CanControlUnit, CanControlTeam, FullCtrl, CtrlTeam, exOrderDenied])

/-! ## C6 -/

/-- C6, the code at the failing input: a caller bound to team 2 calls
`SetTeamRulesParam(5, "k", 1)`; the call returns normally and team 5, whose
rules-param map was empty, now has the entry `k`. -/
theorem SetTeamRulesParam_writes_foreign_team (C : RulesParamLos) :
    CanControlTeam exRulesDenied 5 = false ∧
      (exGame.Team 5).map (fun t => paramsFind t.modParams "k") = some none ∧
      (SetTeamRulesParam C exRulesDenied exGame).2 = .ok [] ∧
      ((SetTeamRulesParam C exRulesDenied exGame).1.Team 5).map
        (fun t => (paramsFind t.modParams "k").map (fun p => p.los)) = some (some C.PRIVATE) := by
  refine ⟨?_, ?_, ?_, ?_⟩
  · simp [CanControlTeam, FullCtrl, CtrlTeam, exRulesDenied]
  · simp [Game.Team, exGame, paramsFind]
  · simp [SetTeamRulesParam, ParseTeam, lua_isnumber, lua_toint, lua_tofloat, lua_number2int,
      lua_State.arg, exRulesDenied, Game.IsValidTeam, Game.Team, exGame, SetRulesParam,
      luaL_checkstring, lua_isstring, lua_tostring, lua_israwnumber, lua_istable, luaL_optint,
      lua_isnoneornil, paramsFind, paramsStore]
  · simp [SetTeamRulesParam, ParseTeam, lua_isnumber, lua_toint, lua_tofloat, lua_number2int,
      lua_State.arg, exRulesDenied, Game.IsValidTeam, Game.Team, Game.setTeam, exGame, SetRulesParam,
      luaL_checkstring, lua_isstring, lua_tostring, lua_israwnumber, lua_istable, luaL_optint,
      lua_isnoneornil, paramsFind, paramsStore]

/-! ## C8 -/

/-- When every check of `CreateUnit` before the counter is raised passes and
the tenth argument (builderID) is neither nil nor a number, the call raises
with the create-unit counter one above its value on entry. -/
theorem CreateUnit_bad_builderID_eq (MAX_CMD_RECURSION_DEPTH : Nat) (S : UnitServices)
    (L : lua_State) (g : Game) (unitDef : Int) (x y z : ℚ) (facing teamID : Int)
    (beingBuilt flattenGround : Bool)
    (hallow : L.allowChanges = true)
    (hdepth : g.inCreateUnit < (MAX_CMD_RECURSION_DEPTH : Int))
    (hname : lua_israwstring (L.arg 1) = true)
    (hdef : S.GetUnitDefByName (lua_tostring L (L.arg 1)) = some unitDef)
    (hx : luaL_checkfloat L (L.arg 2) = .ok x) (hy : luaL_checkfloat L (L.arg 3) = .ok y)
    (hz : luaL_checkfloat L (L.arg 4) = .ok z) (hfacing : S.ParseFacing L 5 = .ok facing)
    (hteamID : luaL_optint L (L.arg 6) (CtrlTeam L) = .ok teamID)
    (hbuilt : luaL_optboolean (L.arg 7) false = .ok beingBuilt)
    (hflat : luaL_optboolean (L.arg 8) true = .ok flattenGround)
    (hvalid : g.IsValidTeam teamID = true)
    (hctl : FullCtrl L = true ∨ CtrlTeam L = teamID)
    (hbuild : S.CanBuildUnit g unitDef teamID = true)
    (hbad : lua_isnoneornil (L.arg 10) = false) (hnum : lua_isnumber L (L.arg 10) = false) :
    CreateUnit MAX_CMD_RECURSION_DEPTH S L g
      = ({ g with inCreateUnit := g.inCreateUnit + 1 }, .error "number expected") := by
  have hd : ¬ g.inCreateUnit ≥ (MAX_CMD_RECURSION_DEPTH : Int) := not_le.mpr hdepth
  have hc : (!FullCtrl L && CtrlTeam L != teamID) = false := by
    rcases hctl with h | h
    · simp [h]
    · simp [h]
  have h10 : luaL_optint L (L.arg 10) (-1) = .error "number expected" := by
    simp [luaL_optint, hbad, luaL_checkint, hnum]
  simp only [CreateUnit, CheckAllowGameChanges, hallow, hd, hname, hdef, hx, hy, hz, hfacing,
    hteamID, hbuilt, hflat, hvalid, hc, hbuild, h10]
  simp [hbuild]

/-- C8, the code at the failing input: `CreateUnit` with a boolean as
builderID raises, and the create-unit counter, 0 on entry, is 1 afterwards. -/
theorem CreateUnit_error_exit_leaves_counter_raised :
    exGame.inCreateUnit = 0 ∧
      (CreateUnit 16 exServices exCreateBadBuilder exGame).2 = .error "number expected" ∧
      (CreateUnit 16 exServices exCreateBadBuilder exGame).1.inCreateUnit = 1 := by
  have h := CreateUnit_bad_builderID_eq 16 exServices exCreateBadBuilder exGame 1 0 0 0 0 0 false true
    rfl (by simp [exGame]) (by simp [lua_israwstring, lua_State.arg, exCreateBadBuilder])
    (by simp [exServices, lua_tostring, lua_State.arg, exCreateBadBuilder])
    (by simp [luaL_checkfloat, lua_isnumber, lua_tofloat, lua_State.arg, exCreateBadBuilder])
    (by simp [luaL_checkfloat, lua_isnumber, lua_tofloat, lua_State.arg, exCreateBadBuilder])
    (by simp [luaL_checkfloat, lua_isnumber, lua_tofloat, lua_State.arg, exCreateBadBuilder])
    (by simp [exServices])
    (by simp [luaL_optint, lua_isnoneornil, luaL_checkint, lua_isnumber, lua_toint, lua_tofloat,
      lua_number2int, lua_State.arg, exCreateBadBuilder])
    (by simp [luaL_optboolean, lua_isnoneornil, luaL_checkboolean, lua_State.arg, exCreateBadBuilder])
    (by simp [luaL_optboolean, lua_isnoneornil, luaL_checkboolean, lua_State.arg, exCreateBadBuilder])
    (by simp [Game.IsValidTeam, exGame])
    (Or.inl rfl)
    (by simp [exServices])
    (by simp [lua_isnoneornil, lua_State.arg, exCreateBadBuilder])
    (by simp [lua_isnumber, lua_State.arg, exCreateBadBuilder])
  rw [h]
  simp [exGame]

/-! ## C9 -/

theorem paramsFind_erase_self (params : Params) (key : String) :
    paramsFind (paramsErase params key) key = none := by
  induction params with
  | nil => rfl
  | cons e es ih =>
    obtain ⟨a, b⟩ := e
    unfold paramsFind paramsErase at *
    by_cases h : a = key
    · simp only [List.filter_cons, h, bne_self_eq_false, Bool.false_eq_true, if_false]
      exact ih
    · have h2 : (key == a) = false := by simpa using fun h3 : key = a => h h3.symm
      have h4 : (a != key) = true := by simpa using h
      simp only [List.filter_cons, h4, if_true, List.lookup_cons, h2]
      exact ih

theorem paramsFind_erase_ne (params : Params) (key k : String) (hk : k ≠ key) :
    paramsFind (paramsErase params key) k = paramsFind params k := by
  induction params with
  | nil => rfl
  | cons e es ih =>
    obtain ⟨a, b⟩ := e
    unfold paramsFind paramsErase at *
    by_cases h : a = key
    · subst h
      have h2 : (k == a) = false := by simpa using hk
      simp only [List.filter_cons, bne_self_eq_false, Bool.false_eq_true, if_false,
        List.lookup_cons, h2]
      exact ih
    · have h4 : (a != key) = true := by simpa using h
      simp only [List.filter_cons, h4, if_true, List.lookup_cons]
      cases hka : k == a
      · exact ih
      · rfl

/-- C9: `SetRulesParam` with a nil or missing value returns normally and
leaves the map with the key erased, whatever the visibility argument is: the
key has no entry afterwards, whatever its mask was, and every other key has
the entry (value and mask) it had before. -/
theorem SetRulesParam_nil_deletes (C : RulesParamLos) (L : lua_State) (offset : Nat)
    (params : Params) (key : String)
    (hkey : luaL_checkstring L (L.arg (offset + 1)) = .ok key)
    (hnil : lua_isnoneornil (L.arg (offset + 2)) = true) :
    SetRulesParam C L offset params = (paramsErase params key, .ok ()) ∧
      paramsFind (SetRulesParam C L offset params).1 key = none ∧
      ∀ k, k ≠ key → paramsFind (SetRulesParam C L offset params).1 k = paramsFind params k := by
  have hv : L.arg (offset + 2) = .nil := by
    cases h : L.arg (offset + 2) <;> simp [h, lua_isnoneornil] at hnil ⊢
  have heq : SetRulesParam C L offset params = (paramsErase params key, .ok ()) := by
    simp [SetRulesParam, hkey, hv, lua_israwnumber, lua_israwboolean, lua_isstring, lua_isnoneornil]
  rw [heq]
  exact ⟨rfl, paramsFind_erase_self params key, fun k hk => paramsFind_erase_ne params key k hk⟩

theorem SetRulesParam_nil_deletes_witness :
    SetRulesParam {} exDeleteParam 0 exParams = (paramsErase exParams "k", .ok ()) ∧
      paramsFind (SetRulesParam {} exDeleteParam 0 exParams).1 "k" = none ∧
      ∀ k, k ≠ "k" →
        paramsFind (SetRulesParam {} exDeleteParam 0 exParams).1 k = paramsFind exParams k :=
  SetRulesParam_nil_deletes {} exDeleteParam 0 exParams "k"
    (by simp [luaL_checkstring, lua_isstring, lua_tostring, lua_State.arg, exDeleteParam])
    (by simp [lua_isnoneornil, lua_State.arg, exDeleteParam])

/-! ## C10 -/

theorem Game.getUnit_id {g : Game} {unitID : Int} {u : CUnit}
    (h : g.GetUnit unitID = some u) : u.id = unitID := by
  unfold Game.GetUnit at h
  have := List.find?_some h
  simpa using this

theorem Game.getUnit_modifyUnit (g : Game) (unitID j : Int) (f : CUnit → CUnit)
    (hf : ∀ u, (f u).id = u.id) :
    (g.modifyUnit unitID f).GetUnit j
      = (g.GetUnit j).map (fun u => if u.id == unitID then f u else u) := by
  unfold Game.modifyUnit Game.GetUnit
  simp only [List.find?_map]
  congr 1
  apply congrArg (fun p => List.find? p g.units)
  funext u
  simp only [Function.comp]
  split
  · rw [hf]
  · rfl

theorem ParseUnit_number_ok (L : lua_State) (g : Game) (unitID : Int) (u : CUnit)
    (hu : g.GetUnit unitID = some u) (hc : CanControlUnit L u = true) :
    ParseUnit L g (.number (unitID : ℚ)) = .ok (some u) := by
  simp [ParseUnit, ParseRawUnit, luaL_checkint, lua_isnumber, lua_toint, lua_tofloat,
    lua_number2int_intCast, hu, hc]

theorem parseUnitArray_foldl (L : lua_State) (g : Game) (ids : List Int)
    (hex : ∀ unitID ∈ ids, ∃ u, g.GetUnit unitID = some u ∧ CanControlUnit L u = true)
    (k : Nat) (acc : List Int) :
    (luaArrayFrom k (ids.map (fun (unitID : Int) => LuaValue.number (unitID : ℚ)))).foldl
      (parseUnitArrayStep L g) acc = acc ++ ids := by
  induction ids generalizing k acc with
  | nil => simp [luaArrayFrom]
  | cons a as ih =>
    obtain ⟨u, hu, hc⟩ := hex a (List.mem_cons_self a as)
    have hid := Game.getUnit_id hu
    simp only [List.map_cons, luaArrayFrom, List.foldl_cons]
    have hstep : parseUnitArrayStep L g acc (.number (k : ℚ), .number (a : ℚ)) = acc ++ [a] := by
      simp [parseUnitArrayStep, lua_israwnumber, lua_isnumber, ParseUnit_number_ok L g a u hu hc, hid]
    rw [hstep, ih (fun x hx => hex x (List.mem_cons_of_mem a hx))]
    simp

theorem ParseUnitArray_luaArray (L : lua_State) (g : Game) (ids : List Int)
    (hex : ∀ unitID ∈ ids, ∃ u, g.GetUnit unitID = some u ∧ CanControlUnit L u = true) :
    ParseUnitArray L g (unitIDArray ids) = .ok ids := by
  simp [ParseUnitArray, unitIDArray, luaArray, lua_istable, lua_entries,
    parseUnitArray_foldl L g ids hex]

theorem Game.deliver_nil (g : Game) : g.deliver [] = g := by
  simp [Game.deliver, commandsFor]

theorem Game.deliver_cons (g : Game) (unitID : Int) (cmd : Command) (rest : List (Int × Command)) :
    (g.GiveCommand unitID cmd).deliver rest = g.deliver ((unitID, cmd) :: rest) := by
  simp only [Game.deliver, Game.GiveCommand, Game.modifyUnit, List.map_map]
  congr 1
  apply List.map_congr_left
  intro u _
  simp only [Function.comp, commandsFor, List.filter_cons]
  by_cases h : u.id = unitID
  · have h1 : (u.id == unitID) = true := by simpa using h
    have h2 : (unitID == u.id) = true := by simpa using h.symm
    simp [h1, h2]
  · have h1 : (u.id == unitID) = false := by simpa using h
    have h2 : (unitID == u.id) = false := by simpa using fun h3 : unitID = u.id => h h3.symm
    simp [h1, h2]

theorem giveOrders_pairwise_foldl (L : lua_State) (pairs : List (Int × Command)) (g0 : Game) (c : Nat)
    (hex : ∀ p ∈ pairs, ∃ u, g0.GetUnit p.1 = some u ∧ CanControlUnit L u = true) :
    (pairs.map (fun uc => (uc.1, [uc.2]))).foldl (giveOrdersStep L) (g0, c)
      = (g0.deliver pairs, c + pairs.length) := by
  induction pairs generalizing g0 c with
  | nil => simp [Game.deliver_nil]
  | cons p rest ih =>
    obtain ⟨unitID, cmd⟩ := p
    obtain ⟨u, hu, hc⟩ := hex (unitID, cmd) (List.mem_cons_self _ _)
    have hid := Game.getUnit_id hu
    have hstep : giveOrdersStep L (g0, c) (unitID, [cmd]) = (g0.GiveCommand unitID cmd, c + 1) := by
      simp [giveOrdersStep, hu, hc, hid]
    have hex1 : ∀ q ∈ rest, ∃ v, (g0.GiveCommand unitID cmd).GetUnit q.1 = some v ∧
        CanControlUnit L v = true := by
      intro q hq
      obtain ⟨v, hv, hcv⟩ := hex q (List.mem_cons_of_mem _ hq)
      unfold Game.GiveCommand
      rw [Game.getUnit_modifyUnit g0 unitID q.1
        (fun u => { u with commandQue := u.commandQue ++ [cmd] }) (fun _ => rfl), hv]
      refine ⟨_, rfl, ?_⟩
      show CanControlUnit L (if (v.id == unitID) = true then _ else v) = true
      split
      · simpa [CanControlUnit] using hcv
      · exact hcv
    simp only [List.map_cons, List.foldl_cons, hstep]
    rw [ih (g0.GiveCommand unitID cmd) (c + 1) hex1, Game.deliver_cons]
    simp only [List.length_cons]
    congr 1
    omega

theorem commandsFor_zip_of_not_mem (ids : List Int) (cmds : List Command) (a : Int)
    (ha : a ∉ ids) : commandsFor (ids.zip cmds) a = [] := by
  unfold commandsFor
  rw [List.map_eq_nil_iff, List.filter_eq_nil_iff]
  intro p hp hpa
  have h1 : p.1 ∈ ids := (List.of_mem_zip (show (p.1, p.2) ∈ ids.zip cmds from hp)).1
  have h2 : p.1 = a := by simpa using hpa
  exact ha (h2 ▸ h1)

theorem commandsFor_zip_nodup (ids : List Int) (cmds : List Command) (hnd : ids.Nodup)
    (i : Nat) (hi : i < ids.length) :
    commandsFor (ids.zip cmds) (ids.get ⟨i, hi⟩) = (cmds[i]?).toList := by
  induction ids generalizing cmds i with
  | nil => simp at hi
  | cons a as ih =>
    have hnd1 := List.nodup_cons.mp hnd
    cases cmds with
    | nil => simp [commandsFor]
    | cons c cs =>
      cases i with
      | zero =>
        have h0 := commandsFor_zip_of_not_mem as cs a hnd1.1
        unfold commandsFor at h0 ⊢
        simp [List.filter_cons, h0]
      | succ k =>
        have hk : k < as.length := by simpa using hi
        have hne : ¬ a = as.get ⟨k, hk⟩ := fun h => hnd1.1 (h ▸ List.get_mem as k hk)
        have := ih cs hnd1.2 k hk
        unfold commandsFor at this ⊢
        simp only [List.zip_cons_cons, List.filter_cons, List.get_cons_succ, List.getElem?_cons_succ]
        have hb : ((a, c).1 == as.get ⟨k, hk⟩) = false := by simpa using hne
        rw [hb]
        simpa using this

theorem Game.getUnit_deliver (g : Game) (pairs : List (Int × Command)) (j : Int) :
    (g.deliver pairs).GetUnit j
      = (g.GetUnit j).map (fun u => { u with commandQue := u.commandQue ++ commandsFor pairs u.id }) := by
  unfold Game.deliver Game.GetUnit
  simp only [List.find?_map]
  rfl

/-- C10: `GiveOrderArrayToUnitArray` with pairwise = true, on the array of the
ids of `n ≥ 1` existing units that the caller may control and an array of
`m ≥ 1` commands, below the recursion limit: it returns `min n m`; the state
it leaves is the one in which the `i`-th command has been appended to the
queue of the `i`-th unit for every `i < min n m`, and nothing else changed;
and when the `n` units are distinct, the queue of the `i`-th unit has grown
by exactly the `i`-th command if there is one (`i < m`) and by nothing
otherwise. -/
theorem GiveOrderArrayToUnitArray_pairwise (MAX_CMD_RECURSION_DEPTH : Nat) (U : LuaUtils)
    (L : lua_State) (g : Game) (ids : List Int) (cmds : List Command)
    (hallow : L.allowChanges = true)
    (hunits : L.arg 1 = unitIDArray ids)
    (hex : ∀ unitID ∈ ids, ∃ u, g.GetUnit unitID = some u ∧ CanControlUnit L u = true)
    (hcmds : U.ParseCommandArray L 2 = .ok cmds)
    (hn : ids ≠ []) (hm : cmds ≠ [])
    (hpair : L.arg 3 = .boolean true)
    (hdepth : g.inGiveOrder < (MAX_CMD_RECURSION_DEPTH : Int)) :
    (GiveOrderArrayToUnitArray MAX_CMD_RECURSION_DEPTH U L g).2
        = .ok [.number ((min ids.length cmds.length : Nat) : ℚ)] ∧
      (GiveOrderArrayToUnitArray MAX_CMD_RECURSION_DEPTH U L g).1 = g.deliver (ids.zip cmds) ∧
      (ids.Nodup → ∀ (i : Nat) (hi : i < ids.length), ∃ u, g.GetUnit (ids.get ⟨i, hi⟩) = some u ∧
        ((GiveOrderArrayToUnitArray MAX_CMD_RECURSION_DEPTH U L g).1.GetUnit (ids.get ⟨i, hi⟩)).map
          (fun v => v.commandQue) = some (u.commandQue ++ (cmds[i]?).toList)) := by
  have hd : ¬ g.inGiveOrder ≥ (MAX_CMD_RECURSION_DEPTH : Int) := not_le.mpr hdepth
  have hparse := ParseUnitArray_luaArray L g ids hex
  have hne1 : ids.isEmpty = false := by cases ids <;> simp_all
  have hne2 : cmds.isEmpty = false := by cases cmds <;> simp_all
  have hex1 : ∀ p ∈ ids.zip cmds, ∃ u,
      ({ g with inGiveOrder := g.inGiveOrder + 1 } : Game).GetUnit p.1 = some u ∧
        CanControlUnit L u = true := by
    intro p hp
    exact hex p.1 (List.of_mem_zip (show (p.1, p.2) ∈ ids.zip cmds from hp)).1
  have hfold := giveOrders_pairwise_foldl L (ids.zip cmds)
    { g with inGiveOrder := g.inGiveOrder + 1 } 0 hex1
  have heq : GiveOrderArrayToUnitArray MAX_CMD_RECURSION_DEPTH U L g
      = (g.deliver (ids.zip cmds), .ok [.number ((min ids.length cmds.length : Nat) : ℚ)]) := by
    simp only [GiveOrderArrayToUnitArray, CheckAllowGameChanges, hallow, hunits, hparse, hcmds,
      hne1, hne2, hd, hpair, luaL_optboolean, lua_isnoneornil, luaL_checkboolean]
    simp only [Bool.not_true, Bool.false_eq_true, if_false, if_true, Bool.or_self, hfold]
    simp [Game.deliver]
  rw [heq]
  refine ⟨rfl, rfl, ?_⟩
  intro hnd i hi
  obtain ⟨u, hu, _⟩ := hex (ids.get ⟨i, hi⟩) (List.get_mem ids i hi)
  refine ⟨u, hu, ?_⟩
  have hid := Game.getUnit_id hu
  simp only [Game.getUnit_deliver, hu, Option.map_some']
  rw [hid, commandsFor_zip_nodup ids cmds hnd i hi]

theorem GiveOrderArrayToUnitArray_pairwise_witness :
    (GiveOrderArrayToUnitArray 16 exUtils exPairwise exGame).2 = .ok [.number 2] ∧
      ((GiveOrderArrayToUnitArray 16 exUtils exPairwise exGame).1.GetUnit 7).map
        (fun v => v.commandQue) = some [{ id := 100 }] ∧
      ((GiveOrderArrayToUnitArray 16 exUtils exPairwise exGame).1.GetUnit 9).map
        (fun v => v.commandQue) = some [{ id := 200 }] ∧
      ((GiveOrderArrayToUnitArray 16 exUtils exPairwise exGame).1.GetUnit 10).map
        (fun v => v.commandQue) = some [] := by
  have hex : ∀ unitID ∈ ([7, 9, 10] : List Int),
      ∃ u, exGame.GetUnit unitID = some u ∧ CanControlUnit exPairwise u = true := by
    intro unitID hmem
    simp only [List.mem_cons, List.mem_singleton, List.not_mem_nil, or_false] at hmem
    rcases hmem with h | h | h <;> subst h <;>
      simp [Game.GetUnit, exGame, List.find?, CanControlUnit, CanControlTeam, FullCtrl, CtrlTeam,
        exPairwise]
  have h := GiveOrderArrayToUnitArray_pairwise 16 exUtils exPairwise exGame [7, 9, 10]
    [{ id := 100 }, { id := 200 }] rfl rfl hex
    (by simp [exUtils, exPairwise, lua_State.arg, lua_entries, luaArray, luaArrayFrom, lua_toint,
      lua_tofloat, lua_number2int])
    (by simp) (by simp) rfl (by simp [exGame])
  obtain ⟨h1, _, h3⟩ := h
  have hnd : ([7, 9, 10] : List Int).Nodup := by decide
  obtain ⟨u0, hu0, hq0⟩ := h3 hnd 0 (by simp)
  obtain ⟨u1, hu1, hq1⟩ := h3 hnd 1 (by simp)
  obtain ⟨u2, hu2, hq2⟩ := h3 hnd 2 (by simp)
  have e0 : exGame.GetUnit 7 = some { id := 7, team := 1 } := by
    simp [Game.GetUnit, exGame, List.find?]
  have e1 : exGame.GetUnit 9 = some { id := 9, team := 1 } := by
    simp [Game.GetUnit, exGame, List.find?]
  have e2 : exGame.GetUnit 10 = some { id := 10, team := 1 } := by
    simp [Game.GetUnit, exGame, List.find?]
  simp only [List.get_eq_getElem, List.getElem_cons_zero, List.getElem_cons_succ] at hu0 hu1 hu2 hq0 hq1 hq2
  rw [e0] at hu0
  rw [e1] at hu1
  rw [e2] at hu2
  cases hu0
  cases hu1
  cases hu2
  refine ⟨?_, ?_, ?_, ?_⟩
  · rw [h1]
    norm_num
  · rw [hq0]
    simp
  · rw [hq1]
    simp
  · rw [hq2]
    simp

/-! ## C7 -/

theorem DestroyUnit_proceeds_eq (MAX_CMD_RECURSION_DEPTH : Nat) (UnitDestroyed : Int → Game → Game)
    (L : lua_State) (g : Game) (unit : CUnit) (recycleID : Bool)
    (hallow : L.allowChanges = true)
    (hunit : ParseUnit L g (L.arg 1) = .ok (some unit))
    (hselfd : ∃ b, luaL_optboolean (L.arg 2) false = .ok b)
    (hreclaimed : ∃ b, luaL_optboolean (L.arg 3) false = .ok b)
    (hrecycle : luaL_optboolean (L.arg 5) false = .ok recycleID)
    (hattacker : ∃ a, (if !lua_isnoneornil (L.arg 4) then ParseUnit L g (L.arg 4) else .ok none) = .ok a)
    (hlt : g.inDestroyUnit < (MAX_CMD_RECURSION_DEPTH : Int)) :
    DestroyUnit MAX_CMD_RECURSION_DEPTH UnitDestroyed L g =
      ({ (if recycleID then
            (({ g with inDestroyUnit := g.inDestroyUnit + 1 } : Game).ForcedKillUnit
              UnitDestroyed unit.id).GarbageCollectUnit unit.id
          else ({ g with inDestroyUnit := g.inDestroyUnit + 1 } : Game).ForcedKillUnit
              UnitDestroyed unit.id) with
          inDestroyUnit :=
            (if recycleID then
              (({ g with inDestroyUnit := g.inDestroyUnit + 1 } : Game).ForcedKillUnit
                UnitDestroyed unit.id).GarbageCollectUnit unit.id
            else ({ g with inDestroyUnit := g.inDestroyUnit + 1 } : Game).ForcedKillUnit
                UnitDestroyed unit.id).inDestroyUnit - 1 }, .ok []) := by
  obtain ⟨b2, h2⟩ := hselfd
  obtain ⟨b3, h3⟩ := hreclaimed
  obtain ⟨a, h4⟩ := hattacker
  have hd : ¬ g.inDestroyUnit ≥ (MAX_CMD_RECURSION_DEPTH : Int) := not_le.mpr hlt
  simp only [DestroyUnit, CheckAllowGameChanges, hallow, hunit, h2, h3, hrecycle, h4, hd]
  simp

theorem DestroyUnit_limit_eq (MAX_CMD_RECURSION_DEPTH : Nat) (UnitDestroyed : Int → Game → Game)
    (L : lua_State) (g : Game) (unit : CUnit) (recycleID : Bool)
    (hallow : L.allowChanges = true)
    (hunit : ParseUnit L g (L.arg 1) = .ok (some unit))
    (hselfd : ∃ b, luaL_optboolean (L.arg 2) false = .ok b)
    (hreclaimed : ∃ b, luaL_optboolean (L.arg 3) false = .ok b)
    (hrecycle : luaL_optboolean (L.arg 5) false = .ok recycleID)
    (hattacker : ∃ a, (if !lua_isnoneornil (L.arg 4) then ParseUnit L g (L.arg 4) else .ok none) = .ok a)
    (hge : g.inDestroyUnit ≥ (MAX_CMD_RECURSION_DEPTH : Int)) :
    DestroyUnit MAX_CMD_RECURSION_DEPTH UnitDestroyed L g = (g, .error destroyUnitRecursionError) := by
  obtain ⟨b2, h2⟩ := hselfd
  obtain ⟨b3, h3⟩ := hreclaimed
  obtain ⟨a, h4⟩ := hattacker
  simp only [DestroyUnit, CheckAllowGameChanges, hallow, hunit, h2, h3, hrecycle, h4, hge]
  simp

theorem Game.markDead_nil (g : Game) : g.markDead [] = g := by
  simp [Game.markDead]

theorem Game.markDead_cons (g : Game) (a : Int) (ids : List Int) :
    (g.modifyUnit a (fun u => { u with isDead := true })).markDead ids = g.markDead (a :: ids) := by
  simp only [Game.markDead, Game.modifyUnit, List.map_map]
  congr 1
  apply List.map_congr_left
  intro u _
  cases u with
  | mk uid team dead que mp hp mhp pd cp bp st los sp rcu rcm ruu rum =>
    simp only [Function.comp, List.mem_cons]
    by_cases h : uid = a
    · subst h
      simp
    · by_cases h2 : uid ∈ ids
      · simp [h, h2]
      · simp [h, h2]

theorem Game.getUnit_markDead (g : Game) (ids : List Int) (j : Int) :
    (g.markDead ids).GetUnit j
      = (g.GetUnit j).map (fun u => if u.id ∈ ids then { u with isDead := true } else u) := by
  unfold Game.markDead Game.GetUnit
  simp only [List.find?_map]
  congr 1
  apply congrArg (fun p => List.find? p g.units)
  funext u
  simp only [Function.comp]
  split <;> rfl

theorem destroyChain_eq (MAX_CMD_RECURSION_DEPTH : Nat) (L : lua_State)
    (hallow : L.allowChanges = true) (ids : List Int) (g : Game) (k : Nat)
    (hk : g.inDestroyUnit + (k : Int) = (MAX_CMD_RECURSION_DEPTH : Int))
    (hex : ∀ unitID ∈ ids, ∃ u, g.GetUnit unitID = some u ∧ CanControlUnit L u = true) :
    destroyChain MAX_CMD_RECURSION_DEPTH L ids g =
      { g.markDead (ids.take k) with
        errorLog := g.errorLog ++ (if k < ids.length then [destroyUnitRecursionError] else []) } := by
  induction ids generalizing g k with
  | nil => simp [destroyChain, Game.markDead_nil]
  | cons a rest ih =>
    obtain ⟨u, hu, hc⟩ := hex a (List.mem_cons_self a rest)
    have hid := Game.getUnit_id hu
    have hunit : ParseUnit { L with stack := [.number (a : ℚ)] } g
        (lua_State.arg { L with stack := [.number (a : ℚ)] } 1) = .ok (some u) :=
      ParseUnit_number_ok { L with stack := [.number (a : ℚ)] } g a u hu hc
    have hnil : ∀ b, luaL_optboolean (lua_State.arg { L with stack := [.number (a : ℚ)] } 2) b = .ok b ∧
        luaL_optboolean (lua_State.arg { L with stack := [.number (a : ℚ)] } 3) b = .ok b ∧
        luaL_optboolean (lua_State.arg { L with stack := [.number (a : ℚ)] } 5) b = .ok b := by
      intro b
      simp [luaL_optboolean, lua_isnoneornil, lua_State.arg]
    have hatt : ∃ x, (if !lua_isnoneornil (lua_State.arg { L with stack := [.number (a : ℚ)] } 4)
        then ParseUnit { L with stack := [.number (a : ℚ)] } g
          (lua_State.arg { L with stack := [.number (a : ℚ)] } 4) else .ok none) = .ok x :=
      ⟨none, by simp [lua_isnoneornil, lua_State.arg]⟩
    cases k with
    | zero =>
      have hge : g.inDestroyUnit ≥ (MAX_CMD_RECURSION_DEPTH : Int) := by
        simp at hk
        omega
      simp only [destroyChain, runCallIn]
      rw [DestroyUnit_limit_eq MAX_CMD_RECURSION_DEPTH
        (fun _ => destroyChain MAX_CMD_RECURSION_DEPTH L rest)
        { L with stack := [.number (a : ℚ)] } g u false hallow hunit
        ⟨false, (hnil false).1⟩ ⟨false, (hnil false).2.1⟩ (hnil false).2.2 hatt hge]
      simp [Game.markDead_nil]
    | succ k1 =>
      have hlt : g.inDestroyUnit < (MAX_CMD_RECURSION_DEPTH : Int) := by
        push_cast at hk
        omega
      have hex1 : ∀ unitID ∈ rest, ∃ v,
          (({ g with inDestroyUnit := g.inDestroyUnit + 1 } : Game).modifyUnit a
            (fun u => { u with isDead := true })).GetUnit unitID = some v ∧
          CanControlUnit L v = true := by
        intro q hq
        obtain ⟨v, hv, hcv⟩ := hex q (List.mem_cons_of_mem _ hq)
        rw [Game.getUnit_modifyUnit _ a q (fun u => { u with isDead := true }) (fun _ => rfl)]
        have hv1 : ({ g with inDestroyUnit := g.inDestroyUnit + 1 } : Game).GetUnit q = some v := hv
        rw [hv1]
        refine ⟨_, rfl, ?_⟩
        show CanControlUnit L (if (v.id == a) = true then _ else v) = true
        split
        · simpa [CanControlUnit] using hcv
        · exact hcv
      have hk1 : (({ g with inDestroyUnit := g.inDestroyUnit + 1 } : Game).modifyUnit a
            (fun u => { u with isDead := true })).inDestroyUnit + (k1 : Int)
            = (MAX_CMD_RECURSION_DEPTH : Int) := by
        show g.inDestroyUnit + 1 + (k1 : Int) = _
        push_cast at hk
        omega
      have hrec := ih _ k1 hk1 hex1
      simp only [destroyChain, runCallIn]
      rw [DestroyUnit_proceeds_eq MAX_CMD_RECURSION_DEPTH
        (fun _ => destroyChain MAX_CMD_RECURSION_DEPTH L rest)
        { L with stack := [.number (a : ℚ)] } g u false hallow hunit
        ⟨false, (hnil false).1⟩ ⟨false, (hnil false).2.1⟩ (hnil false).2.2 hatt hlt]
      simp only [Bool.false_eq_true, if_false, Game.ForcedKillUnit, hid, hrec, Game.markDead_cons]
      simp [Game.markDead, Game.modifyUnit]

theorem get_mem_take_iff (ids : List Int) (hnd : ids.Nodup) (k i : Nat) (hi : i < ids.length) :
    ids.get ⟨i, hi⟩ ∈ ids.take k ↔ i < k := by
  rw [List.mem_take_iff_getElem]
  constructor
  · rintro ⟨j, hj, hji⟩
    have hj1 : j < ids.length := by omega
    have : j = i := (List.Nodup.getElem_inj_iff hnd).1 (by simpa using hji)
    omega
  · intro h
    exact ⟨i, by omega, by simp⟩

/-- C7: `DestroyUnit` with well-formed arguments on a unit the caller may
control, the destroy-unit counter being at most `MAX_CMD_RECURSION_DEPTH`.
Below the limit the call returns normally, and the state it leaves is that of
the kill, run with the counter raised by one, with the counter lowered by one
again; at the limit it raises and leaves the state, hence the unit, as it
was; so it raises exactly when the counter equals the limit.  And for a
script that destroys distinct controllable units nested in one another,
starting with the counter at 0: the counter is 0 again afterwards, the `i`-th
unit has been marked dead exactly when `i < MAX_CMD_RECURSION_DEPTH`, and the
recursion error has been raised, once, exactly when the nesting is deeper
than `MAX_CMD_RECURSION_DEPTH`. -/
theorem DestroyUnit_recursion_limit (MAX_CMD_RECURSION_DEPTH : Nat) (L : lua_State)
    (hallow : L.allowChanges = true) :
    (∀ (UnitDestroyed : Int → Game → Game) (g : Game) (unit : CUnit) (recycleID : Bool),
      ParseUnit L g (L.arg 1) = .ok (some unit) →
      (∃ b, luaL_optboolean (L.arg 2) false = .ok b) →
      (∃ b, luaL_optboolean (L.arg 3) false = .ok b) →
      luaL_optboolean (L.arg 5) false = .ok recycleID →
      (∃ a, (if !lua_isnoneornil (L.arg 4) then ParseUnit L g (L.arg 4) else .ok none) = .ok a) →
      g.inDestroyUnit ≤ (MAX_CMD_RECURSION_DEPTH : Int) →
      (g.inDestroyUnit < (MAX_CMD_RECURSION_DEPTH : Int) →
        DestroyUnit MAX_CMD_RECURSION_DEPTH UnitDestroyed L g =
          ({ (if recycleID then
                (({ g with inDestroyUnit := g.inDestroyUnit + 1 } : Game).ForcedKillUnit
                  UnitDestroyed unit.id).GarbageCollectUnit unit.id
              else ({ g with inDestroyUnit := g.inDestroyUnit + 1 } : Game).ForcedKillUnit
                  UnitDestroyed unit.id) with
              inDestroyUnit :=
                (if recycleID then
                  (({ g with inDestroyUnit := g.inDestroyUnit + 1 } : Game).ForcedKillUnit
                    UnitDestroyed unit.id).GarbageCollectUnit unit.id
                else ({ g with inDestroyUnit := g.inDestroyUnit + 1 } : Game).ForcedKillUnit
                    UnitDestroyed unit.id).inDestroyUnit - 1 }, .ok [])) ∧
      (g.inDestroyUnit = (MAX_CMD_RECURSION_DEPTH : Int) →
        DestroyUnit MAX_CMD_RECURSION_DEPTH UnitDestroyed L g
          = (g, .error destroyUnitRecursionError)) ∧
      ((∃ e, (DestroyUnit MAX_CMD_RECURSION_DEPTH UnitDestroyed L g).2 = .error e)
        ↔ g.inDestroyUnit = (MAX_CMD_RECURSION_DEPTH : Int))) ∧
    (∀ (ids : List Int) (g : Game), ids.Nodup →
      (∀ unitID ∈ ids, ∃ u, g.GetUnit unitID = some u ∧ CanControlUnit L u = true) →
      g.inDestroyUnit = 0 →
      (destroyChain MAX_CMD_RECURSION_DEPTH L ids g).inDestroyUnit = 0 ∧
      (destroyChain MAX_CMD_RECURSION_DEPTH L ids g).errorLog
        = g.errorLog ++ (if MAX_CMD_RECURSION_DEPTH < ids.length then [destroyUnitRecursionError] else []) ∧
      ∀ (i : Nat) (hi : i < ids.length), ∃ u, g.GetUnit (ids.get ⟨i, hi⟩) = some u ∧
        ((destroyChain MAX_CMD_RECURSION_DEPTH L ids g).GetUnit (ids.get ⟨i, hi⟩)).map
          (fun v => v.isDead) = some (decide (i < MAX_CMD_RECURSION_DEPTH) || u.isDead)) := by
  constructor
  · intro UnitDestroyed g unit recycleID hunit h2 h3 h5 h4 hle
    have hp := DestroyUnit_proceeds_eq MAX_CMD_RECURSION_DEPTH UnitDestroyed L g unit recycleID
      hallow hunit h2 h3 h5 h4
    have hl := DestroyUnit_limit_eq MAX_CMD_RECURSION_DEPTH UnitDestroyed L g unit recycleID
      hallow hunit h2 h3 h5 h4
    refine ⟨hp, fun h => hl (le_of_eq h.symm), ?_⟩
    constructor
    · rintro ⟨e, he⟩
      by_contra hne
      have hlt : g.inDestroyUnit < (MAX_CMD_RECURSION_DEPTH : Int) := lt_of_le_of_ne hle hne
      rw [hp hlt] at he
      cases he
    · intro h
      rw [hl (le_of_eq h.symm)]
      exact ⟨_, rfl⟩
  · intro ids g hnd hex h0
    have hk : g.inDestroyUnit + ((MAX_CMD_RECURSION_DEPTH : Nat) : Int)
        = (MAX_CMD_RECURSION_DEPTH : Int) := by
      rw [h0]
      simp
    rw [destroyChain_eq MAX_CMD_RECURSION_DEPTH L hallow ids g MAX_CMD_RECURSION_DEPTH hk hex]
    refine ⟨h0, rfl, ?_⟩
    intro i hi
    obtain ⟨u, hu, _⟩ := hex (ids.get ⟨i, hi⟩) (List.get_mem ids i hi)
    refine ⟨u, hu, ?_⟩
    have hid := Game.getUnit_id hu
    have hget : ∀ (g1 : Game) (l : List String),
        ({ g1 with errorLog := l } : Game).GetUnit (ids.get ⟨i, hi⟩) = g1.GetUnit (ids.get ⟨i, hi⟩) :=
      fun _ _ => rfl
    rw [hget, Game.getUnit_markDead, hu]
    simp only [Option.map_some', hid, get_mem_take_iff ids hnd MAX_CMD_RECURSION_DEPTH i hi]
    by_cases hlt : i < MAX_CMD_RECURSION_DEPTH
    · simp [hlt]
    · simp [hlt]

theorem DestroyUnit_recursion_limit_witness :
    (destroyChain 2 exDestroy [7, 9, 10] exGame).inDestroyUnit = 0 ∧
      (destroyChain 2 exDestroy [7, 9, 10] exGame).errorLog = [destroyUnitRecursionError] ∧
      ((destroyChain 2 exDestroy [7, 9, 10] exGame).GetUnit 7).map (fun v => v.isDead) = some true ∧
      ((destroyChain 2 exDestroy [7, 9, 10] exGame).GetUnit 9).map (fun v => v.isDead) = some true ∧
      ((destroyChain 2 exDestroy [7, 9, 10] exGame).GetUnit 10).map (fun v => v.isDead) = some false := by
  have hex : ∀ unitID ∈ ([7, 9, 10] : List Int),
      ∃ u, exGame.GetUnit unitID = some u ∧ CanControlUnit exDestroy u = true := by
    intro unitID hmem
    simp only [List.mem_cons, List.mem_singleton, List.not_mem_nil, or_false] at hmem
    rcases hmem with h | h | h <;> subst h <;>
      simp [Game.GetUnit, exGame, List.find?, CanControlUnit, CanControlTeam, FullCtrl, CtrlTeam,
        exDestroy]
  obtain ⟨h1, h2, h3⟩ := (DestroyUnit_recursion_limit 2 exDestroy rfl).2 [7, 9, 10] exGame
    (by decide) hex rfl
  obtain ⟨u0, hu0, hq0⟩ := h3 0 (by simp)
  obtain ⟨u1, hu1, hq1⟩ := h3 1 (by simp)
  obtain ⟨u2, hu2, hq2⟩ := h3 2 (by simp)
  have e0 : exGame.GetUnit 7 = some { id := 7, team := 1 } := by
    simp [Game.GetUnit, exGame, List.find?]
  have e1 : exGame.GetUnit 9 = some { id := 9, team := 1 } := by
    simp [Game.GetUnit, exGame, List.find?]
  have e2 : exGame.GetUnit 10 = some { id := 10, team := 1 } := by
    simp [Game.GetUnit, exGame, List.find?]
  simp only [List.get_eq_getElem, List.getElem_cons_zero, List.getElem_cons_succ] at hu0 hu1 hu2 hq0 hq1 hq2
  rw [e0] at hu0
  rw [e1] at hu1
  rw [e2] at hu2
  cases hu0
  cases hu1
  cases hu2
  refine ⟨h1, ?_, ?_, ?_, ?_⟩
  · rw [h2]
    simp [exGame]
  · rw [hq0]
    simp
  · rw [hq1]
    simp
  · rw [hq2]
    simp

/-! ## C11 -/

theorem parseUnit_number_mayOrder (L : lua_State) (g : Game) (unitID : Int) :
    (match ParseUnit L g (.number (unitID : ℚ)) with
      | .ok (some unit) => some unit.id
      | _ => none) = if g.mayOrder L unitID then some unitID else none := by
  unfold Game.mayOrder
  cases hu : g.GetUnit unitID with
  | none =>
    simp [ParseUnit, ParseRawUnit, luaL_checkint, lua_isnumber, lua_toint, lua_tofloat,
      lua_number2int_intCast, hu]
  | some u =>
    have hid := Game.getUnit_id hu
    cases hc : CanControlUnit L u <;>
      simp [ParseUnit, ParseRawUnit, luaL_checkint, lua_isnumber, lua_toint, lua_tofloat,
        lua_number2int_intCast, hu, hc, hid]

theorem parseUnitArrayStep_number (L : lua_State) (g : Game) (acc : List Int) (k : ℚ) (unitID : Int) :
    parseUnitArrayStep L g acc (.number k, .number (unitID : ℚ))
      = if g.mayOrder L unitID then acc ++ [unitID] else acc := by
  have h := parseUnit_number_mayOrder L g unitID
  unfold parseUnitArrayStep
  simp only [lua_israwnumber, lua_isnumber, Bool.not_true, Bool.or_self, Bool.false_eq_true, if_false]
  cases hp : ParseUnit L g (.number (unitID : ℚ)) with
  | error e =>
    rw [hp] at h
    by_cases hm : g.mayOrder L unitID = true
    · simp [hm] at h
    · simp [hm]
  | ok o =>
    cases o with
    | none =>
      rw [hp] at h
      by_cases hm : g.mayOrder L unitID = true
      · simp [hm] at h
      · simp [hm]
    | some u =>
      rw [hp] at h
      by_cases hm : g.mayOrder L unitID = true
      · simp [hm] at h
        simp [hm, h]
      · simp [hm] at h

theorem parseUnitMapStep_number (L : lua_State) (g : Game) (acc : List Int) (unitID : Int)
    (v : LuaValue) :
    parseUnitMapStep L g acc (.number (unitID : ℚ), v)
      = if g.mayOrder L unitID then acc ++ [unitID] else acc := by
  have h := parseUnit_number_mayOrder L g unitID
  unfold parseUnitMapStep
  simp only [lua_israwnumber, Bool.not_true, Bool.false_eq_true, if_false]
  cases hp : ParseUnit L g (.number (unitID : ℚ)) with
  | error e =>
    rw [hp] at h
    by_cases hm : g.mayOrder L unitID = true
    · simp [hm] at h
    · simp [hm]
  | ok o =>
    cases o with
    | none =>
      rw [hp] at h
      by_cases hm : g.mayOrder L unitID = true
      · simp [hm] at h
      · simp [hm]
    | some u =>
      rw [hp] at h
      by_cases hm : g.mayOrder L unitID = true
      · simp [hm] at h
        simp [hm, h]
      · simp [hm] at h

theorem parseUnitArray_foldl_filter (L : lua_State) (g : Game) (names : List Int)
    (k : Nat) (acc : List Int) :
    (luaArrayFrom k (names.map (fun (unitID : Int) => LuaValue.number (unitID : ℚ)))).foldl
      (parseUnitArrayStep L g) acc = acc ++ names.filter (g.mayOrder L) := by
  induction names generalizing k acc with
  | nil => simp [luaArrayFrom]
  | cons a as ih =>
    simp only [List.map_cons, luaArrayFrom, List.foldl_cons, parseUnitArrayStep_number, ih,
      List.filter_cons]
    by_cases hm : g.mayOrder L a = true
    · simp [hm]
    · simp [hm]

theorem parseUnitMap_foldl_filter (L : lua_State) (g : Game) (entries : List (Int × LuaValue))
    (acc : List Int) :
    (entries.map (fun (e : Int × LuaValue) => (LuaValue.number (e.1 : ℚ), e.2))).foldl
      (parseUnitMapStep L g) acc = acc ++ (entries.map (fun e => e.1)).filter (g.mayOrder L) := by
  induction entries generalizing acc with
  | nil => simp
  | cons a as ih =>
    simp only [List.map_cons, List.foldl_cons, parseUnitMapStep_number, ih, List.filter_cons]
    by_cases hm : g.mayOrder L a.1 = true
    · simp [hm]
    · simp [hm]

theorem giveOrders_single_foldl (L : lua_State) (units : List Int) (cmd : Command) (g0 : Game)
    (hex : ∀ unitID ∈ units, g0.mayOrder L unitID = true) :
    (units.map (fun u => (u, [cmd]))).foldl (giveOrdersStep L) (g0, 0)
      = (g0.deliver (units.map (fun u => (u, cmd))), units.length) := by
  have hex1 : ∀ p ∈ units.map (fun u => (u, cmd)),
      ∃ u, g0.GetUnit p.1 = some u ∧ CanControlUnit L u = true := by
    intro p hp
    obtain ⟨unitID, hmem, rfl⟩ := List.mem_map.mp hp
    have := hex unitID hmem
    unfold Game.mayOrder at this
    cases hu : g0.GetUnit unitID with
    | none => rw [hu] at this; cases this
    | some u => rw [hu] at this; exact ⟨u, rfl, this⟩
  have h := giveOrders_pairwise_foldl L (units.map (fun u => (u, cmd))) g0 0 hex1
  simpa [List.map_map, Function.comp] using h

theorem commandsFor_map_same (units : List Int) (cmd : Command) (unitID : Int) :
    commandsFor (units.map (fun u => (u, cmd))) unitID = List.replicate (units.count unitID) cmd := by
  induction units with
  | nil => simp [commandsFor]
  | cons a as ih =>
    unfold commandsFor at ih ⊢
    by_cases h : a = unitID
    · subst h
      simp [List.filter_cons, List.replicate_succ, ih]
    · have h1 : (a == unitID) = false := by simpa using h
      simp [List.filter_cons, h1, List.count_cons, ih]

theorem giveOrder_batch_result (MAX_CMD_RECURSION_DEPTH : Nat) (L : lua_State) (g : Game)
    (units : List Int) (cmd : Command)
    (hdepth : g.inGiveOrder < (MAX_CMD_RECURSION_DEPTH : Int))
    (hex : ∀ unitID ∈ units, g.mayOrder L unitID = true) :
    (if units.isEmpty then (g, (.ok [.number 0] : LuaResult))
      else if g.inGiveOrder ≥ (MAX_CMD_RECURSION_DEPTH : Int) then
        (g, .error "recursion not permitted")
      else
        ({ ((units.map (fun u => (u, [cmd]))).foldl (giveOrdersStep L)
              ({ g with inGiveOrder := g.inGiveOrder + 1 }, 0)).1 with
            inGiveOrder := ((units.map (fun u => (u, [cmd]))).foldl (giveOrdersStep L)
              ({ g with inGiveOrder := g.inGiveOrder + 1 }, 0)).1.inGiveOrder - 1 },
          .ok [.number (((units.map (fun u => (u, [cmd]))).foldl (giveOrdersStep L)
              ({ g with inGiveOrder := g.inGiveOrder + 1 }, 0)).2 : ℚ)]))
      = (g.deliver (units.map (fun u => (u, cmd))), .ok [.number (units.length : ℚ)]) := by
  cases units with
  | nil => simp [Game.deliver_nil]
  | cons a as =>
    have hd : ¬ g.inGiveOrder ≥ (MAX_CMD_RECURSION_DEPTH : Int) := not_le.mpr hdepth
    have hfold := giveOrders_single_foldl L (a :: as) cmd { g with inGiveOrder := g.inGiveOrder + 1 }
      (fun unitID hm => hex unitID hm)
    simp only [List.isEmpty_cons, Bool.false_eq_true, if_false, hd, hfold]
    simp [Game.deliver]

/-- C11: `GiveOrderToUnitArray` on the array of the unit ids `names` and
`GiveOrderToUnitMap` on a table whose keys are the unit ids `names`, with a
well-formed command and below the recursion limit.  Both return normally; the
count returned is the number of entries that name an existing unit the
caller may control; the state left is the one in which the command has been
appended, once per such entry, to the queue of the unit it names, and nothing
else changed.  So a unit the caller may control gets the command once for
every entry naming it, and the queue of a unit the caller may not control
stays as it was. -/
theorem GiveOrderToUnits_batch_skips_denied (MAX_CMD_RECURSION_DEPTH : Nat) (U : LuaUtils)
    (L : lua_State) (g : Game) (cmd : Command)
    (hallow : L.allowChanges = true)
    (hcmd : U.ParseCommand L 2 = .ok cmd)
    (hdepth : g.inGiveOrder < (MAX_CMD_RECURSION_DEPTH : Int)) :
    (∀ names : List Int, L.arg 1 = unitIDArray names →
      GiveOrderToUnitArray MAX_CMD_RECURSION_DEPTH U L g
        = (g.deliver ((names.filter (g.mayOrder L)).map (fun u => (u, cmd))),
            .ok [.number ((names.filter (g.mayOrder L)).length : ℚ)])) ∧
    (∀ entries : List (Int × LuaValue), L.arg 1 = unitIDMap entries →
      GiveOrderToUnitMap MAX_CMD_RECURSION_DEPTH U L g
        = (g.deliver ((((entries.map (fun e => e.1)).filter (g.mayOrder L))).map (fun u => (u, cmd))),
            .ok [.number ((((entries.map (fun e => e.1)).filter (g.mayOrder L))).length : ℚ)])) ∧
    (∀ (names : List Int) (unitID : Int),
      ((g.deliver ((names.filter (g.mayOrder L)).map (fun u => (u, cmd)))).GetUnit unitID).map
          (fun v => v.commandQue)
        = (g.GetUnit unitID).map (fun u => u.commandQue ++
            (if g.mayOrder L unitID then List.replicate (names.count unitID) cmd else []))) := by
  refine ⟨?_, ?_, ?_⟩
  · intro names harg
    have hparse : ParseUnitArray L g (L.arg 1) = .ok (names.filter (g.mayOrder L)) := by
      simp [ParseUnitArray, harg, unitIDArray, luaArray, lua_istable, lua_entries,
        parseUnitArray_foldl_filter]
    have hres := giveOrder_batch_result MAX_CMD_RECURSION_DEPTH L g (names.filter (g.mayOrder L)) cmd
      hdepth (fun unitID hm => (List.mem_filter.mp hm).2)
    have hd : ¬ g.inGiveOrder ≥ (MAX_CMD_RECURSION_DEPTH : Int) := not_le.mpr hdepth
    simp only [GiveOrderToUnitArray, CheckAllowGameChanges, hallow, hparse, hcmd]
    rw [← hres]
    by_cases he : (names.filter (g.mayOrder L)).isEmpty = true
    · simp [he]
    · simp [he, hd]
  · intro entries harg
    have hparse : ParseUnitMap L g (L.arg 1)
        = .ok ((entries.map (fun e => e.1)).filter (g.mayOrder L)) := by
      simp [ParseUnitMap, harg, unitIDMap, lua_istable, lua_entries, parseUnitMap_foldl_filter]
    have hres := giveOrder_batch_result MAX_CMD_RECURSION_DEPTH L g
      ((entries.map (fun e => e.1)).filter (g.mayOrder L)) cmd
      hdepth (fun unitID hm => (List.mem_filter.mp hm).2)
    have hd : ¬ g.inGiveOrder ≥ (MAX_CMD_RECURSION_DEPTH : Int) := not_le.mpr hdepth
    simp only [GiveOrderToUnitMap, CheckAllowGameChanges, hallow, hparse, hcmd]
    rw [← hres]
    by_cases he : ((entries.map (fun e => e.1)).filter (g.mayOrder L)).isEmpty = true
    · simp [he]
    · simp [he, hd]
  · intro names unitID
    rw [Game.getUnit_deliver]
    cases hu : g.GetUnit unitID with
    | none => rfl
    | some u =>
      have hid := Game.getUnit_id hu
      simp only [Option.map_some', hid, commandsFor_map_same]
      by_cases hm : g.mayOrder L unitID = true
      · simp [hm, List.count_filter]
      · have h0 : (names.filter (g.mayOrder L)).count unitID = 0 := by
          rw [List.count_eq_zero]
          intro hmem
          exact hm (List.mem_filter.mp hmem).2
        simp [hm, h0]

theorem GiveOrderToUnits_batch_skips_denied_witness :
    (GiveOrderToUnitArray 16 exUtils exBatchArray exGame).2 = .ok [.number 3] ∧
      ((GiveOrderToUnitArray 16 exUtils exBatchArray exGame).1.GetUnit 7).map
        (fun v => v.commandQue) = some [{ id := 100 }, { id := 100 }] ∧
      ((GiveOrderToUnitArray 16 exUtils exBatchArray exGame).1.GetUnit 9).map
        (fun v => v.commandQue) = some [{ id := 100 }] ∧
      ((GiveOrderToUnitArray 16 exUtils exBatchArray exGame).1.GetUnit 8).map
        (fun v => v.commandQue) = some [] := by
  have h := GiveOrderToUnits_batch_skips_denied 16 exUtils exBatchArray exGame { id := 100 } rfl
    (by simp [exUtils, exBatchArray, lua_State.arg, luaL_checkint, lua_isnumber, lua_toint,
      lua_tofloat, lua_number2int, Except.map])
    (by simp [exGame])
  obtain ⟨h1, _, h3⟩ := h
  have hm7 : exGame.mayOrder exBatchArray 7 = true := by
    simp [Game.mayOrder, Game.GetUnit, exGame, List.find?, CanControlUnit, CanControlTeam,
      FullCtrl, CtrlTeam, exBatchArray]
  have hm8 : exGame.mayOrder exBatchArray 8 = false := by
    simp [Game.mayOrder, Game.GetUnit, exGame, List.find?, CanControlUnit, CanControlTeam,
      FullCtrl, CtrlTeam, exBatchArray]
  have hm99 : exGame.mayOrder exBatchArray 99 = false := by
    simp [Game.mayOrder, Game.GetUnit, exGame, List.find?]
  have hm9 : exGame.mayOrder exBatchArray 9 = true := by
    simp [Game.mayOrder, Game.GetUnit, exGame, List.find?, CanControlUnit, CanControlTeam,
      FullCtrl, CtrlTeam, exBatchArray]
  have hf : ([7, 8, 99, 9, 7] : List Int).filter (exGame.mayOrder exBatchArray) = [7, 9, 7] := by
    simp [List.filter, hm7, hm8, hm99, hm9]
  have e7 : exGame.GetUnit 7 = some { id := 7, team := 1 } := by
    simp [Game.GetUnit, exGame, List.find?]
  have e8 : exGame.GetUnit 8 = some { id := 8, team := 5 } := by
    simp [Game.GetUnit, exGame, List.find?]
  have e9 : exGame.GetUnit 9 = some { id := 9, team := 1 } := by
    simp [Game.GetUnit, exGame, List.find?]
  rw [h1 [7, 8, 99, 9, 7] rfl]
  refine ⟨?_, ?_, ?_, ?_⟩
  · rw [hf]
    norm_num
  · rw [h3 [7, 8, 99, 9, 7] 7, e7, hm7]
    simp [List.replicate]
  · rw [h3 [7, 8, 99, 9, 7] 9, e9, hm9]
    simp [List.replicate]
  · rw [h3 [7, 8, 99, 9, 7] 8, e8, hm8]
    simp

/-! ## C12 -/

theorem Game.team_setTeam_ne (g : Game) {teamID1 teamID2 : Int} {t : CTeam} (t1 : CTeam)
    (hne : teamID1 ≠ teamID2) (h1 : g.Team teamID1 = some t) :
    (g.setTeam teamID1 t1).Team teamID2 = g.Team teamID2 := by
  have hv := Game.isValidTeam_of_team h1
  unfold Game.IsValidTeam at hv
  simp only [Bool.and_eq_true, decide_eq_true_eq] at hv
  unfold Game.setTeam Game.Team
  by_cases h2 : 0 ≤ teamID2
  · have hn : teamID1.toNat ≠ teamID2.toNat := by omega
    simp [hv.1, h2, List.getElem?_set_ne hn]
  · simp [hv.1, h2]

theorem Game.team_modifyTeam_self (g : Game) {teamID : Int} {t : CTeam} (f : CTeam → CTeam)
    (h : g.Team teamID = some t) : (g.modifyTeam teamID f).Team teamID = some (f t) := by
  simp only [Game.modifyTeam, h]
  exact Game.team_setTeam _ h

theorem Game.team_modifyTeam_ne (g : Game) {teamID1 teamID2 : Int} (f : CTeam → CTeam)
    (hne : teamID1 ≠ teamID2) : (g.modifyTeam teamID1 f).Team teamID2 = g.Team teamID2 := by
  unfold Game.modifyTeam
  cases h : g.Team teamID1 with
  | none => rfl
  | some t => exact Game.team_setTeam_ne g _ hne h

theorem Game.team_transfer_ne (g : Game) {teamID1 teamID2 : Int} {team1 team2 : CTeam}
    (f1 f2 : CTeam → CTeam) (hne : teamID1 ≠ teamID2)
    (h1 : g.Team teamID1 = some team1) (h2 : g.Team teamID2 = some team2) :
    ((g.modifyTeam teamID1 f1).modifyTeam teamID2 f2).Team teamID1 = some (f1 team1) ∧
      ((g.modifyTeam teamID1 f1).modifyTeam teamID2 f2).Team teamID2 = some (f2 team2) := by
  constructor
  · rw [Game.team_modifyTeam_ne _ f2 (Ne.symm hne)]
    exact Game.team_modifyTeam_self g f1 h1
  · have h21 : (g.modifyTeam teamID1 f1).Team teamID2 = some team2 :=
      (Game.team_modifyTeam_ne g f1 hne).trans h2
    exact Game.team_modifyTeam_self _ f2 h21

theorem Game.team_transfer_self (g : Game) {teamID : Int} {team : CTeam}
    (f1 f2 : CTeam → CTeam) (h : g.Team teamID = some team) :
    ((g.modifyTeam teamID f1).modifyTeam teamID f2).Team teamID = some (f2 (f1 team)) :=
  Game.team_modifyTeam_self _ f2 (Game.team_modifyTeam_self g f1 h)

theorem ShareTeamResource_metal_eq
    (AllowResourceTransfer : Game → Int → Int → String → ℚ → Bool) (L : lua_State) (g : Game)
    (teamID1 teamID2 : Int) (team1 team2 : CTeam) (type : String) (requested : ℚ)
    (hid1 : luaL_checkint L (L.arg 1) = .ok teamID1)
    (hteam1 : g.Team teamID1 = some team1)
    (hctl : CanControlTeam L teamID1 = true)
    (hid2 : luaL_checkint L (L.arg 2) = .ok teamID2)
    (hteam2 : g.Team teamID2 = some team2)
    (htype : luaL_checkstring L (L.arg 3) = .ok type)
    (hreq : luaL_checkfloat L (L.arg 4) = .ok requested)
    (hk : firstChar type = 'm')
    (hyes : AllowResourceTransfer g teamID1 teamID2 "m" (min requested team1.res.metal) = true) :
    ShareTeamResource AllowResourceTransfer L g
      = (g.transferMetal teamID1 teamID2 (min requested team1.res.metal), .ok []) := by
  have hv1 := Game.isValidTeam_of_team hteam1
  have hv2 := Game.isValidTeam_of_team hteam2
  simp [ShareTeamResource, hid1, hv1, hctl, hteam1, hid2, hv2, hteam2, htype, hreq, hk, hyes]

/-- C12 as the code has it: `ShareTeamResource` on a source team the caller
may control and a valid destination team, for kind metal or energy, computes
`t = min(requested, source.current)`.  If the hook refuses, the state is
unchanged.  If it approves and the two teams differ, the source's current
drops by `t`, the destination's rises by `t`, and the source's sent and the
destination's received amounts and statistics rise by `t`.  If it approves
and source and destination are the same team, the team's current is as
before and its sent and received amounts rise by `t`. -/
theorem ShareTeamResource_moves_clamped_amount
    (AllowResourceTransfer : Game → Int → Int → String → ℚ → Bool) (L : lua_State) (g : Game)
    (teamID1 teamID2 : Int) (team1 team2 : CTeam) (type : String) (requested : ℚ)
    (hid1 : luaL_checkint L (L.arg 1) = .ok teamID1)
    (hteam1 : g.Team teamID1 = some team1)
    (hctl : CanControlTeam L teamID1 = true)
    (hid2 : luaL_checkint L (L.arg 2) = .ok teamID2)
    (hteam2 : g.Team teamID2 = some team2)
    (htype : luaL_checkstring L (L.arg 3) = .ok type)
    (hreq : luaL_checkfloat L (L.arg 4) = .ok requested) :
    (firstChar type = 'm' →
      (AllowResourceTransfer g teamID1 teamID2 "m" (min requested team1.res.metal) = false →
        ShareTeamResource AllowResourceTransfer L g = (g, .ok [])) ∧
      (AllowResourceTransfer g teamID1 teamID2 "m" (min requested team1.res.metal) = true →
        (ShareTeamResource AllowResourceTransfer L g).2 = .ok [] ∧
        (teamID1 ≠ teamID2 → ∃ s d,
          (ShareTeamResource AllowResourceTransfer L g).1.Team teamID1 = some s ∧
          (ShareTeamResource AllowResourceTransfer L g).1.Team teamID2 = some d ∧
          s.res.metal = team1.res.metal - min requested team1.res.metal ∧
          s.resSent.metal = team1.resSent.metal + min requested team1.res.metal ∧
          s.currentStats.metalSent = team1.currentStats.metalSent + min requested team1.res.metal ∧
          d.res.metal = team2.res.metal + min requested team1.res.metal ∧
          d.resReceived.metal = team2.resReceived.metal + min requested team1.res.metal ∧
          d.currentStats.metalReceived
            = team2.currentStats.metalReceived + min requested team1.res.metal) ∧
        (teamID1 = teamID2 → ∃ s,
          (ShareTeamResource AllowResourceTransfer L g).1.Team teamID1 = some s ∧
          s.res.metal = team1.res.metal ∧
          s.resSent.metal = team1.resSent.metal + min requested team1.res.metal ∧
          s.resReceived.metal = team1.resReceived.metal + min requested team1.res.metal))) ∧
    (firstChar type = 'e' →
      (AllowResourceTransfer g teamID1 teamID2 "e" (min requested team1.res.energy) = false →
        ShareTeamResource AllowResourceTransfer L g = (g, .ok [])) ∧
      (AllowResourceTransfer g teamID1 teamID2 "e" (min requested team1.res.energy) = true →
        (ShareTeamResource AllowResourceTransfer L g).2 = .ok [] ∧
        (teamID1 ≠ teamID2 → ∃ s d,
          (ShareTeamResource AllowResourceTransfer L g).1.Team teamID1 = some s ∧
          (ShareTeamResource AllowResourceTransfer L g).1.Team teamID2 = some d ∧
          s.res.energy = team1.res.energy - min requested team1.res.energy ∧
          s.resSent.energy = team1.resSent.energy + min requested team1.res.energy ∧
          s.currentStats.energySent = team1.currentStats.energySent + min requested team1.res.energy ∧
          d.res.energy = team2.res.energy + min requested team1.res.energy ∧
          d.resReceived.energy = team2.resReceived.energy + min requested team1.res.energy ∧
          d.currentStats.energyReceived
            = team2.currentStats.energyReceived + min requested team1.res.energy) ∧
        (teamID1 = teamID2 → ∃ s,
          (ShareTeamResource AllowResourceTransfer L g).1.Team teamID1 = some s ∧
          s.res.energy = team1.res.energy ∧
          s.resSent.energy = team1.resSent.energy + min requested team1.res.energy ∧
          s.resReceived.energy = team1.resReceived.energy + min requested team1.res.energy))) := by
  have hv1 := Game.isValidTeam_of_team hteam1
  have hv2 := Game.isValidTeam_of_team hteam2
  constructor
  · intro hk
    
    constructor
    · intro hno
      simp [ShareTeamResource, hid1, hv1, hctl, hteam1, hid2, hv2, hteam2, htype, hreq, hk, hno]
    · intro hyes
      have heq : ShareTeamResource AllowResourceTransfer L g
          = (g.transferMetal teamID1 teamID2 (min requested team1.res.metal), .ok []) := by
        simp [ShareTeamResource, hid1, hv1, hctl, hteam1, hid2, hv2, hteam2, htype, hreq, hk, hyes]
      rw [heq]
      refine ⟨rfl, ?_, ?_⟩
      · intro hne
        obtain ⟨hs, hd⟩ := Game.team_transfer_ne g
          (CTeam.sendMetal (min requested team1.res.metal))
          (CTeam.receiveMetal (min requested team1.res.metal)) hne hteam1 hteam2
        exact ⟨_, _, hs, hd, rfl, rfl, rfl, rfl, rfl, rfl⟩
      · intro hsame
        subst hsame
        have hs := Game.team_transfer_self g
          (CTeam.sendMetal (min requested team1.res.metal))
          (CTeam.receiveMetal (min requested team1.res.metal)) hteam1
        refine ⟨_, hs, ?_, rfl, rfl⟩
        simp [CTeam.sendMetal, CTeam.receiveMetal]
  · intro hk
    have hnm : ¬ firstChar type = 'm' := by rw [hk]; decide
    constructor
    · intro hno
      simp [ShareTeamResource, hid1, hv1, hctl, hteam1, hid2, hv2, hteam2, htype, hreq, hk, hno]
    · intro hyes
      have heq : ShareTeamResource AllowResourceTransfer L g
          = (g.transferEnergy teamID1 teamID2 (min requested team1.res.energy), .ok []) := by
        simp [ShareTeamResource, hid1, hv1, hctl, hteam1, hid2, hv2, hteam2, htype, hreq, hk, hyes]
      rw [heq]
      refine ⟨rfl, ?_, ?_⟩
      · intro hne
        obtain ⟨hs, hd⟩ := Game.team_transfer_ne g
          (CTeam.sendEnergy (min requested team1.res.energy))
          (CTeam.receiveEnergy (min requested team1.res.energy)) hne hteam1 hteam2
        exact ⟨_, _, hs, hd, rfl, rfl, rfl, rfl, rfl, rfl⟩
      · intro hsame
        subst hsame
        have hs := Game.team_transfer_self g
          (CTeam.sendEnergy (min requested team1.res.energy))
          (CTeam.receiveEnergy (min requested team1.res.energy)) hteam1
        refine ⟨_, hs, ?_, rfl, rfl⟩
        simp [CTeam.sendEnergy, CTeam.receiveEnergy]

theorem ShareTeamResource_moves_clamped_amount_witness :
    (ShareTeamResource exApprove exShare exShareGame).2 = .ok [] ∧
      ((ShareTeamResource exApprove exShare exShareGame).1.Team 0).map (fun t => t.res.metal)
        = some 6 ∧
      ((ShareTeamResource exApprove exShare exShareGame).1.Team 1).map (fun t => t.res.metal)
        = some 7 ∧
      ((ShareTeamResource exApprove exShare exShareGame).1.Team 0).map (fun t => t.resSent.metal)
        = some 4 ∧
      ((ShareTeamResource exApprove exShare exShareGame).1.Team 1).map (fun t => t.resReceived.metal)
        = some 4 := by
  have h := (ShareTeamResource_moves_clamped_amount exApprove exShare exShareGame 0 1
    { res := { metal := 10, energy := 0 }, resStorage := { metal := 100, energy := 100 } }
    { res := { metal := 3, energy := 0 }, resStorage := { metal := 100, energy := 100 } } "m" 4
    (by simp [luaL_checkint, lua_isnumber, lua_toint, lua_tofloat, lua_number2int, lua_State.arg, exShare])
    (by simp [Game.Team, exShareGame])
    (by simp [CanControlTeam, FullCtrl, exShare])
    (by simp [luaL_checkint, lua_isnumber, lua_toint, lua_tofloat, lua_number2int, lua_State.arg, exShare])
    (by simp [Game.Team, exShareGame])
    (by simp [luaL_checkstring, lua_isstring, lua_tostring, lua_State.arg, exShare])
    (by simp [luaL_checkfloat, lua_isnumber, lua_tofloat, lua_State.arg, exShare])).1
    (by simp [firstChar])
  obtain ⟨hr, hmove, _⟩ := h.2 rfl
  obtain ⟨s0, d0, hs, hd, h1, h2, _, h4, h5, _⟩ := hmove (by decide)
  have hmin : min (4 : ℚ) 10 = 4 := by norm_num
  simp only [hmin] at h1 h2 h4 h5
  refine ⟨hr, ?_, ?_, ?_, ?_⟩
  · rw [hs, Option.map_some', h1]
    norm_num
  · rw [hd, Option.map_some', h4]
    norm_num
  · rw [hs, Option.map_some', h2]
    norm_num
  · rw [hd, Option.map_some', h5]
    norm_num

/-- C12, counterexample: a team with 10 metal shares 4 metal with itself and
the hook approves; `t = min(4, 10) = 4`, and the team's metal is 10
afterwards, not `10 - 4`. -/
theorem ShareTeamResource_self_keeps_current :
    exApprove exShareGame 0 0 "m" (min 4 10) = true ∧
      (exShareGame.Team 0).map (fun t => t.res.metal) = some 10 ∧
      (ShareTeamResource exApprove exShareSelf exShareGame).2 = .ok [] ∧
      ((ShareTeamResource exApprove exShareSelf exShareGame).1.Team 0).map (fun t => t.res.metal)
        = some 10 ∧
      (10 : ℚ) ≠ 10 - min 4 10 := by
  have hteam : exShareGame.Team 0 = some
      { res := { metal := 10, energy := 0 }, resStorage := { metal := 100, energy := 100 } } := by
    simp [Game.Team, exShareGame]
  have heq := ShareTeamResource_metal_eq exApprove exShareSelf exShareGame 0 0 _ _ "m" 4
    (by simp [luaL_checkint, lua_isnumber, lua_toint, lua_tofloat, lua_number2int, lua_State.arg,
      exShareSelf])
    hteam
    (by simp [CanControlTeam, FullCtrl, exShareSelf])
    (by simp [luaL_checkint, lua_isnumber, lua_toint, lua_tofloat, lua_number2int, lua_State.arg,
      exShareSelf])
    hteam
    (by simp [luaL_checkstring, lua_isstring, lua_tostring, lua_State.arg, exShareSelf])
    (by simp [luaL_checkfloat, lua_isnumber, lua_tofloat, lua_State.arg, exShareSelf])
    (by simp [firstChar]) rfl
  refine ⟨rfl, by rw [hteam]; rfl, by rw [heq], ?_, by norm_num⟩
  rw [heq]
  simp only [Game.transferMetal]
  rw [Game.team_transfer_self exShareGame _ _ hteam]
  simp [CTeam.sendMetal, CTeam.receiveMetal]

/-! ## C13 -/

/-- C13, the code at two failing inputs, the hook approving and both teams
within `0 ≤ current ≤ storageCap` before the call: sharing -5 metal from
team 0 (10 metal) to team 1 (3 metal) leaves team 1 with -2 metal; sharing
3 metal from team 1 to team 0 (98 of 100 metal) leaves team 0 with 101. -/
theorem ShareTeamResource_breaks_resource_invariant :
    (∀ t ∈ exShareGame.teams, t.resInvariant) ∧
      (ShareTeamResource exApprove exShareNegative exShareGame).2 = .ok [] ∧
      ((ShareTeamResource exApprove exShareNegative exShareGame).1.Team 1).map
        (fun t => t.res.metal) = some (-2) ∧
      (∀ t ∈ exShareFullGame.teams, t.resInvariant) ∧
      (ShareTeamResource exApprove exShareFull exShareFullGame).2 = .ok [] ∧
      ((ShareTeamResource exApprove exShareFull exShareFullGame).1.Team 0).map
        (fun t => (t.res.metal, t.resStorage.metal)) = some (101, 100) := by
  have ha0 : exShareGame.Team 0 = some
      { res := { metal := 10, energy := 0 }, resStorage := { metal := 100, energy := 100 } } := by
    simp [Game.Team, exShareGame]
  have ha1 : exShareGame.Team 1 = some
      { res := { metal := 3, energy := 0 }, resStorage := { metal := 100, energy := 100 } } := by
    simp [Game.Team, exShareGame]
  have hb0 : exShareFullGame.Team 0 = some
      { res := { metal := 98, energy := 0 }, resStorage := { metal := 100, energy := 100 } } := by
    simp [Game.Team, exShareFullGame]
  have hb1 : exShareFullGame.Team 1 = some
      { res := { metal := 3, energy := 0 }, resStorage := { metal := 100, energy := 100 } } := by
    simp [Game.Team, exShareFullGame]
  have heqa := ShareTeamResource_metal_eq exApprove exShareNegative exShareGame 0 1 _ _ "m" (-5)
    (by simp [luaL_checkint, lua_isnumber, lua_toint, lua_tofloat, lua_number2int, lua_State.arg,
      exShareNegative])
    ha0 (by simp [CanControlTeam, FullCtrl, exShareNegative])
    (by simp [luaL_checkint, lua_isnumber, lua_toint, lua_tofloat, lua_number2int, lua_State.arg,
      exShareNegative])
    ha1
    (by simp [luaL_checkstring, lua_isstring, lua_tostring, lua_State.arg, exShareNegative])
    (by simp [luaL_checkfloat, lua_isnumber, lua_tofloat, lua_State.arg, exShareNegative])
    (by simp [firstChar]) rfl
  have heqb := ShareTeamResource_metal_eq exApprove exShareFull exShareFullGame 1 0 _ _ "m" 3
    (by simp [luaL_checkint, lua_isnumber, lua_toint, lua_tofloat, lua_number2int, lua_State.arg,
      exShareFull])
    hb1 (by simp [CanControlTeam, FullCtrl, exShareFull])
    (by simp [luaL_checkint, lua_isnumber, lua_toint, lua_tofloat, lua_number2int, lua_State.arg,
      exShareFull])
    hb0
    (by simp [luaL_checkstring, lua_isstring, lua_tostring, lua_State.arg, exShareFull])
    (by simp [luaL_checkfloat, lua_isnumber, lua_tofloat, lua_State.arg, exShareFull])
    (by simp [firstChar]) rfl
  refine ⟨?_, by rw [heqa], ?_, ?_, by rw [heqb], ?_⟩
  · intro t ht
    simp only [exShareGame, List.mem_cons, List.mem_singleton, List.not_mem_nil, or_false] at ht
    rcases ht with h | h <;> subst h <;> norm_num [CTeam.resInvariant]
  · rw [heqa]
    simp only [Game.transferMetal]
    rw [(Game.team_transfer_ne exShareGame _ _ (by decide) ha0 ha1).2]
    norm_num [CTeam.receiveMetal]
  · intro t ht
    simp only [exShareFullGame, List.mem_cons, List.mem_singleton, List.not_mem_nil, or_false] at ht
    rcases ht with h | h <;> subst h <;> norm_num [CTeam.resInvariant]
  · rw [heqb]
    simp only [Game.transferMetal]
    rw [(Game.team_transfer_ne exShareFullGame _ _ (by decide) hb1 hb0).2]
    norm_num [CTeam.receiveMetal]

/-! ## C14 -/

/-- C14: `SetTeamResource` on a team the caller may control, with value `v`.
It returns nothing.  The keys m/metal and e/energy set the current amount to
`min(storageCap, max(0, v))`, which for a storage cap that is not negative is
`v` clamped to `[0, storageCap]` and lies in that interval; the keys
ms/metalStorage and es/energyStorage set the storage cap to `max(0, v)` and
the current amount to the smaller of its old value and the new cap, so that
it is at most the new cap and, if it was not negative, still not negative.
The amounts of the other kind stay as they were. -/
theorem SetTeamResource_clamps (L : lua_State) (g : Game) (teamID : Int) (team : CTeam)
    (key : String) (v : ℚ)
    (hid : luaL_checkint L (L.arg 1) = .ok teamID)
    (hteam : g.Team teamID = some team)
    (hctl : CanControlTeam L teamID = true)
    (hval : luaL_checkfloat L (L.arg 3) = .ok v)
    (hkey : luaL_checkstring L (L.arg 2) = .ok key) :
    (SetTeamResource L g).2 = .ok [] ∧
    (∃ team1, (SetTeamResource L g).1.Team teamID = some team1) ∧
    ∀ team1, (SetTeamResource L g).1.Team teamID = some team1 →
      ((key = "m" ∨ key = "metal") →
        team1.res.metal = min team.resStorage.metal (max 0 v) ∧
        team1.resStorage = team.resStorage ∧ team1.res.energy = team.res.energy ∧
        (0 ≤ team.resStorage.metal →
          team1.res.metal
            = (if v < 0 then 0 else if team.resStorage.metal < v then team.resStorage.metal else v) ∧
          0 ≤ team1.res.metal ∧ team1.res.metal ≤ team1.resStorage.metal)) ∧
      ((key = "e" ∨ key = "energy") →
        team1.res.energy = min team.resStorage.energy (max 0 v) ∧
        team1.resStorage = team.resStorage ∧ team1.res.metal = team.res.metal ∧
        (0 ≤ team.resStorage.energy →
          team1.res.energy
            = (if v < 0 then 0 else if team.resStorage.energy < v then team.resStorage.energy else v) ∧
          0 ≤ team1.res.energy ∧ team1.res.energy ≤ team1.resStorage.energy)) ∧
      ((key = "ms" ∨ key = "metalStorage") →
        team1.resStorage.metal = max 0 v ∧ team1.res.metal = min team.res.metal (max 0 v) ∧
        team1.resStorage.energy = team.resStorage.energy ∧ team1.res.energy = team.res.energy ∧
        team1.res.metal ≤ team1.resStorage.metal ∧
        (0 ≤ team.res.metal → 0 ≤ team1.res.metal)) ∧
      ((key = "es" ∨ key = "energyStorage") →
        team1.resStorage.energy = max 0 v ∧ team1.res.energy = min team.res.energy (max 0 v) ∧
        team1.resStorage.metal = team.resStorage.metal ∧ team1.res.metal = team.res.metal ∧
        team1.res.energy ≤ team1.resStorage.energy ∧
        (0 ≤ team.res.energy → 0 ≤ team1.res.energy)) := by
  have hv := Game.isValidTeam_of_team hteam
  refine ⟨?_, ?_, ?_⟩
  · simp only [SetTeamResource, hid, hv, hctl, hteam, hval, hkey]
    simp only [Bool.not_true, Bool.false_eq_true, if_false]
    split_ifs <;> rfl
  · simp only [SetTeamResource, hid, hv, hctl, hteam, hval, hkey]
    simp only [Bool.not_true, Bool.false_eq_true, if_false]
    split_ifs
    · exact ⟨_, Game.team_setTeam _ hteam⟩
    · exact ⟨_, Game.team_setTeam _ hteam⟩
    · exact ⟨_, Game.team_setTeam _ hteam⟩
    · exact ⟨_, Game.team_setTeam _ hteam⟩
    · exact ⟨_, hteam⟩
  · intro team1 h1
    refine ⟨?_, ?_, ?_, ?_⟩
    · intro hk
      have heq : SetTeamResource L g = (g.setTeam teamID { team with
          res := { team.res with metal := min team.resStorage.metal (max 0 v) } }, .ok []) := by
        rcases hk with h | h <;> subst h <;>
          simp [SetTeamResource, hid, hv, hctl, hteam, hval, hkey]
      rw [heq, Game.team_setTeam _ hteam] at h1
      cases h1
      refine ⟨rfl, rfl, rfl, ?_⟩
      intro hcap
      refine ⟨?_, le_min hcap (le_max_left 0 v), min_le_left _ _⟩
      show min team.resStorage.metal (max 0 v) = _
      by_cases hneg : v < 0
      · rw [if_pos hneg, max_eq_left (le_of_lt hneg), min_eq_right hcap]
      · rw [if_neg hneg, max_eq_right (not_lt.mp hneg)]
        by_cases hbig : team.resStorage.metal < v
        · rw [if_pos hbig, min_eq_left (le_of_lt hbig)]
        · rw [if_neg hbig, min_eq_right (not_lt.mp hbig)]
    · intro hk
      have heq : SetTeamResource L g = (g.setTeam teamID { team with
          res := { team.res with energy := min team.resStorage.energy (max 0 v) } }, .ok []) := by
        rcases hk with h | h <;> subst h <;>
          simp [SetTeamResource, hid, hv, hctl, hteam, hval, hkey]
      rw [heq, Game.team_setTeam _ hteam] at h1
      cases h1
      refine ⟨rfl, rfl, rfl, ?_⟩
      intro hcap
      refine ⟨?_, le_min hcap (le_max_left 0 v), min_le_left _ _⟩
      show min team.resStorage.energy (max 0 v) = _
      by_cases hneg : v < 0
      · rw [if_pos hneg, max_eq_left (le_of_lt hneg), min_eq_right hcap]
      · rw [if_neg hneg, max_eq_right (not_lt.mp hneg)]
        by_cases hbig : team.resStorage.energy < v
        · rw [if_pos hbig, min_eq_left (le_of_lt hbig)]
        · rw [if_neg hbig, min_eq_right (not_lt.mp hbig)]
    · intro hk
      have heq : SetTeamResource L g = (g.setTeam teamID { team with
          resStorage := { team.resStorage with metal := max 0 v },
          res := { team.res with metal := min team.res.metal (max 0 v) } }, .ok []) := by
        rcases hk with h | h <;> subst h <;>
          simp [SetTeamResource, hid, hv, hctl, hteam, hval, hkey]
      rw [heq, Game.team_setTeam _ hteam] at h1
      cases h1
      exact ⟨rfl, rfl, rfl, rfl, min_le_right _ _, fun h0 => le_min h0 (le_max_left 0 v)⟩
    · intro hk
      have heq : SetTeamResource L g = (g.setTeam teamID { team with
          resStorage := { team.resStorage with energy := max 0 v },
          res := { team.res with energy := min team.res.energy (max 0 v) } }, .ok []) := by
        rcases hk with h | h <;> subst h <;>
          simp [SetTeamResource, hid, hv, hctl, hteam, hval, hkey]
      rw [heq, Game.team_setTeam _ hteam] at h1
      cases h1
      exact ⟨rfl, rfl, rfl, rfl, min_le_right _ _, fun h0 => le_min h0 (le_max_left 0 v)⟩

theorem SetTeamResource_clamps_witness :
    (SetTeamResource exSetStorage exGame).2 = .ok [] ∧
      ∃ team1, (SetTeamResource exSetStorage exGame).1.Team 0 = some team1 ∧
        team1.resStorage.metal = 4 ∧ team1.res.metal = 4 ∧ team1.res.energy = 6 := by
  have h := SetTeamResource_clamps exSetStorage exGame 0 exTeam "ms" 4
    (by simp [luaL_checkint, lua_isnumber, lua_toint, lua_tofloat, lua_number2int, lua_State.arg,
      exSetStorage])
    (by simp [Game.Team, exGame])
    (by simp [CanControlTeam, FullCtrl, CtrlTeam, exSetStorage])
    (by simp [luaL_checkfloat, lua_isnumber, lua_tofloat, lua_State.arg, exSetStorage])
    (by simp [luaL_checkstring, lua_isstring, lua_tostring, lua_State.arg, exSetStorage])
  obtain ⟨team1, h1⟩ := h.2.1
  refine ⟨h.1, team1, h1, ?_⟩
  obtain ⟨hs, hr, _, he, _, _⟩ := (h.2.2 team1 h1).2.2.1 (Or.inl rfl)
  refine ⟨?_, ?_, ?_⟩
  · rw [hs]
    norm_num
  · rw [hr]
    norm_num [exTeam]
  · rw [he]
    simp [exTeam]

/-! ## C16 -/

theorem shiftLeft_or_low_nibble (a b : Nat) :
    (a <<< 4) ||| (b &&& 0x0F) = 16 * a + b % 16 := by
  have h1 : b &&& 0x0F = b % 16 := Nat.and_pow_two_sub_one_eq_mod b 4
  have h2 : a <<< 4 = 2 ^ 4 * a := by rw [Nat.shiftLeft_eq, Nat.mul_comm]
  have h3 : b % 16 < 2 ^ 4 := Nat.mod_lt _ (by decide)
  rw [h1, h2, ← Nat.mul_add_lt_is_or h3]

theorem ParseLosBits_number (L : lua_State) (n : Int) (bits : Nat) :
    ParseLosBits L (.number (n : ℚ)) bits = .ok (toUChar n) := by
  simp [ParseLosBits, lua_isnumber, lua_tofloat, lua_number2int_intCast]

/-- C16: `SetUnitLosMask` on a unit the caller may control and a valid ally
team, the losTypes argument (an integer of any size, or a table) being parsed
to the mask `newMask`: the value stored into `losStatus[allyTeam]` is an 8-bit
value whose lower four bits are those of the previous value and whose upper
four bits are the low four bits of `newMask`. -/
theorem SetUnitLosMask_keeps_live_status (S : LosServices) (L : lua_State) (g : Game)
    (unit : CUnit) (allyTeam : Int) (newMask : Nat)
    (hunit : ParseUnit L g (L.arg 1) = .ok (some unit))
    (hally : luaL_checkint L (L.arg 2) = .ok allyTeam)
    (hvalid : g.IsValidAllyTeam allyTeam = true)
    (hparse : ParseLosBits L (L.arg 3) (unit.losStatus allyTeam.toNat >>> LOS_MASK_SHIFT)
      = .ok newMask) :
    ∃ state, losMaskState L unit allyTeam = .ok state ∧
      SetUnitLosMask S L g =
        (S.SetLosStatus unit.id allyTeam
          (S.CalcLosStatus (g.modifyUnit unit.id
            (fun u => { u with losStatus := Function.update u.losStatus allyTeam.toNat state }))
            unit.id allyTeam)
          (g.modifyUnit unit.id
            (fun u => { u with losStatus := Function.update u.losStatus allyTeam.toNat state })),
          .ok []) ∧
      state < 256 ∧
      state % 16 = unit.losStatus allyTeam.toNat % 16 ∧
      state / 16 = newMask % 16 := by
  have hstate : losMaskState L unit allyTeam
      = .ok ((16 * newMask + unit.losStatus allyTeam.toNat % 16) % 256) := by
    have hparse1 : ParseLosBits L (L.arg 3) (unit.losStatus allyTeam.toNat >>> 4)
        = .ok newMask := hparse
    simp only [losMaskState, LOS_MASK_SHIFT, hparse1, shiftLeft_or_low_nibble]
  refine ⟨_, hstate, ?_, ?_, ?_, ?_⟩
  · simp only [SetUnitLosMask, hunit, hally, hvalid, hstate]
    simp
  · omega
  · omega
  · omega

theorem SetUnitLosMask_keeps_live_status_witness :
    ∃ state, losMaskState exLosAll { id := 7, team := 1 } 0 = .ok state ∧
      state < 256 ∧ state % 16 = 0 ∧ state / 16 = 15 := by
  obtain ⟨state, h1, _, h3, h4, h5⟩ := SetUnitLosMask_keeps_live_status exLos exLosAll exLosGame
    { id := 7, team := 1 } 0 255
    (by simp [ParseUnit, ParseRawUnit, luaL_checkint, lua_isnumber, lua_toint, lua_tofloat,
      lua_number2int, lua_State.arg, exLosAll, Game.GetUnit, exLosGame, exGame, List.find?,
      CanControlUnit, CanControlTeam, FullCtrl, CtrlTeam])
    (by simp [luaL_checkint, lua_isnumber, lua_toint, lua_tofloat, lua_number2int, lua_State.arg,
      exLosAll])
    (by simp [Game.IsValidAllyTeam, exLosGame])
    (by
      have h := ParseLosBits_number exLosAll 255 0
      simpa [lua_State.arg, exLosAll, toUChar, LOS_MASK_SHIFT] using h)
  exact ⟨state, h1, h3, by simpa using h4, by simpa using h5⟩

/-! ## C15 -/

/-- C15, the code at the failing input: `SetUnitLosState(7, 0, 16)` on a unit
whose `losStatus[0]` is 0 passes the status 16 to `SetLosStatus`; its upper
four bits are 1, those of the previous status are 0. -/
theorem SetUnitLosState_integer_reaches_mask_bits :
    (exLosGame.GetUnit 7).map (fun u => u.losStatus 0) = some 0 ∧
      losStateStatus exLosSixteen { id := 7, team := 1 } 0 = .ok 16 ∧
      (16 / 16 : Nat) ≠ 0 / 16 ∧
      (SetUnitLosState exLos exLosSixteen exLosGame).2 = .ok [] ∧
      ((SetUnitLosState exLos exLosSixteen exLosGame).1.GetUnit 7).map (fun u => u.losStatus 0)
        = some 16 := by
  have hget : exLosGame.GetUnit 7 = some { id := 7, team := 1 } := by
    simp [Game.GetUnit, exLosGame, exGame, List.find?]
  have hunit : ParseUnit exLosSixteen exLosGame (exLosSixteen.arg 1)
      = .ok (some { id := 7, team := 1 }) := by
    simp [ParseUnit, ParseRawUnit, luaL_checkint, lua_isnumber, lua_toint, lua_tofloat,
      lua_number2int, lua_State.arg, exLosSixteen, hget, CanControlUnit, CanControlTeam,
      FullCtrl, CtrlTeam]
  have hally : luaL_checkint exLosSixteen (exLosSixteen.arg 2) = .ok 0 := by
    simp [luaL_checkint, lua_isnumber, lua_toint, lua_tofloat, lua_number2int, lua_State.arg,
      exLosSixteen]
  have hstatus : losStateStatus exLosSixteen { id := 7, team := 1 } 0 = .ok 16 := by
    have h := ParseLosBits_number exLosSixteen 16 0
    have harg : exLosSixteen.arg 3 = .number ((16 : Int) : ℚ) := by
      simp [lua_State.arg, exLosSixteen]
    simp only [losStateStatus, harg, Int.toNat_zero, Nat.zero_and, h]
    simp [toUChar]
  have hvalid : exLosGame.IsValidAllyTeam 0 = true := by
    simp [Game.IsValidAllyTeam, exLosGame]
  have heq : SetUnitLosState exLos exLosSixteen exLosGame
      = (exLos.SetLosStatus 7 0 16 exLosGame, .ok []) := by
    simp [SetUnitLosState, hunit, hally, hvalid, hstatus]
  refine ⟨by rw [hget]; rfl, hstatus, by decide, by rw [heq], ?_⟩
  · rw [heq]
    simp only [exLos]
    rw [Game.getUnit_modifyUnit exLosGame 7 7
      (fun u => { u with losStatus := Function.update u.losStatus (Int.toNat 0) 16 })
      (fun _ => rfl), hget]
    simp

/-! ## C17 -/

theorem lookup_map_replace (params : Params) (key : String) (p : Param) :
    List.lookup key (params.map (fun e => if e.1 == key then (key, p) else e))
      = (List.lookup key params).map (fun _ => p) := by
  induction params with
  | nil => rfl
  | cons e es ih =>
    obtain ⟨a, b⟩ := e
    by_cases h : a = key
    · subst h
      simp [List.lookup_cons]
    · have h1 : (a == key) = false := by simpa using h
      have h2 : (key == a) = false := by simpa using fun h3 : key = a => h h3.symm
      simp only [List.map_cons, h1, Bool.false_eq_true, if_false, List.lookup_cons, h2]
      exact ih

theorem lookup_append_new (params : Params) (key : String) (p : Param)
    (h : List.lookup key params = none) : List.lookup key (params ++ [(key, p)]) = some p := by
  induction params with
  | nil => simp [List.lookup_cons]
  | cons e es ih =>
    obtain ⟨a, b⟩ := e
    simp only [List.lookup_cons] at h
    cases hka : key == a
    · rw [hka] at h
      simp only [List.cons_append, List.lookup_cons, hka]
      exact ih h
    · rw [hka] at h
      cases h

theorem paramsFind_store_self (params : Params) (key : String) (p : Param) :
    paramsFind (paramsStore params key p) key = some p := by
  unfold paramsStore paramsFind
  cases h : List.lookup key params with
  | none => simp [lookup_append_new params key p h]
  | some q =>
    simp only [Option.isSome_some, if_true]
    rw [lookup_map_replace, h]
    rfl

theorem losMask_foldl_flags (C : RulesParamLos) (L : lua_State) (es : List (LuaValue × LuaValue))
    (hflags : ∀ kv ∈ es, ∃ name b, kv = (LuaValue.string name, LuaValue.boolean b)) (m : Int) :
    es.foldl (losMaskStep C L) (.ok m) = .ok ((flagBits C es).foldl Int.lor m) := by
  induction es generalizing m with
  | nil => rfl
  | cons kv rest ih =>
    obtain ⟨name, b, rfl⟩ := hflags kv (List.mem_cons_self _ _)
    have hrest := fun m1 => ih (fun kv1 h1 => hflags kv1 (List.mem_cons_of_mem _ h1)) m1
    cases b with
    | false =>
      have hstep : losMaskStep C L (.ok m) (.string name, .boolean false) = .ok m := by
        simp [losMaskStep, luaL_optboolean, lua_isnoneornil, luaL_checkboolean]
      simp only [List.foldl_cons, hstep, hrest, flagBits, List.filterMap_cons]
    | true =>
      have hstep : losMaskStep C L (.ok m) (.string name, .boolean true)
          = .ok (match visibilityBit C name with
              | some bit => Int.lor m bit
              | none => m) := by
        simp only [losMaskStep, luaL_optboolean, lua_isnoneornil, luaL_checkboolean, lua_isstring,
          lua_israwnumber, lua_tostring, visibilityBit]
        simp only [Bool.false_eq_true, if_false, Bool.not_true]
        split_ifs <;> rfl
      simp only [List.foldl_cons, hstep, flagBits, List.filterMap_cons]
      cases hb : visibilityBit C name with
      | none => exact hrest m
      | some bit => simp only [List.foldl_cons]; exact hrest _

theorem testBit_foldl_lor (bits : List Int) (m : Int) (i : Nat) :
    Int.testBit (bits.foldl Int.lor m) i = (Int.testBit m i || bits.any (fun b => Int.testBit b i)) := by
  induction bits generalizing m with
  | nil => simp
  | cons b rest ih =>
    simp only [List.foldl_cons, ih, Int.testBit_lor, List.any_cons, Bool.or_assoc]

/-- C17: `SetRulesParam` with a storable value (number, boolean or string) and,
as visibility argument, a table whose keys are strings and whose values are
booleans returns normally and stores the key with the mask obtained from the
private bit by OR-ing in the bits of exactly those entries whose key is one
of public, inlos, typed, inradar, allied and whose value is true: a bit of
the mask is set exactly when it is set in the private bit or in the bit of
one of those entries. -/
theorem SetRulesParam_table_mask (C : RulesParamLos) (L : lua_State) (offset : Nat)
    (params : Params) (key : String) (es : List (LuaValue × LuaValue))
    (hkey : luaL_checkstring L (L.arg (offset + 1)) = .ok key)
    (hval : lua_israwnumber (L.arg (offset + 2)) = true ∨ lua_israwboolean (L.arg (offset + 2)) = true
      ∨ lua_isstring (L.arg (offset + 2)) = true)
    (htab : L.arg (offset + 3) = .table es)
    (hflags : ∀ kv ∈ es, ∃ name b, kv = (LuaValue.string name, LuaValue.boolean b)) :
    (SetRulesParam C L offset params).2 = .ok () ∧
      ∃ p, paramsFind (SetRulesParam C L offset params).1 key = some p ∧
        p.los = (flagBits C es).foldl Int.lor C.PRIVATE ∧
        ∀ i : Nat, Int.testBit p.los i
          = (Int.testBit C.PRIVATE i || (flagBits C es).any (fun b => Int.testBit b i)) := by
  have hfold := losMask_foldl_flags C L es hflags C.PRIVATE
  have hres : ∃ v, SetRulesParam C L offset params
      = (paramsStore params key { value := v, los := (flagBits C es).foldl Int.lor C.PRIVATE },
          .ok ()) := by
    by_cases h1 : lua_israwnumber (L.arg (offset + 2)) = true
    · exact ⟨.number (lua_tofloat L (L.arg (offset + 2))),
        by simp [SetRulesParam, hkey, h1, htab, lua_istable, lua_entries, hfold]⟩
    · by_cases h2 : lua_israwboolean (L.arg (offset + 2)) = true
      · exact ⟨.boolean (lua_toboolean (L.arg (offset + 2))),
          by simp [SetRulesParam, hkey, h1, h2, htab, lua_istable, lua_entries, hfold]⟩
      · have h3 : lua_isstring (L.arg (offset + 2)) = true := by
          rcases hval with h | h | h
          · exact absurd h h1
          · exact absurd h h2
          · exact h
        exact ⟨.string (lua_tostring L (L.arg (offset + 2))),
          by simp [SetRulesParam, hkey, h1, h2, h3, htab, lua_istable, lua_entries, hfold]⟩
  obtain ⟨v, heq⟩ := hres
  rw [heq]
  refine ⟨rfl, _, paramsFind_store_self _ _ _, rfl, ?_⟩
  intro i
  exact testBit_foldl_lor _ _ i

theorem SetRulesParam_table_mask_witness :
    (SetRulesParam {} exVisibility 0 []).2 = .ok () ∧
      ∃ p, paramsFind (SetRulesParam {} exVisibility 0 []).1 "k" = some p ∧ p.los = 35 := by
  obtain ⟨h1, p, h2, h3, _⟩ := SetRulesParam_table_mask {} exVisibility 0 [] "k"
    [(.string "public", .boolean true), (.string "inlos", .boolean false),
     (.string "allied", .boolean true), (.string "foo", .boolean true)]
    (by simp [luaL_checkstring, lua_isstring, lua_tostring, lua_State.arg, exVisibility])
    (Or.inl (by simp [lua_israwnumber, lua_State.arg, exVisibility]))
    (by simp [lua_State.arg, exVisibility])
    (by
      intro kv hkv
      simp only [List.mem_cons, List.mem_singleton, List.not_mem_nil, or_false] at hkv
      rcases hkv with h | h | h | h <;> subst h <;> exact ⟨_, _, rfl⟩)
  refine ⟨h1, p, h2, ?_⟩
  rw [h3]
  simp [flagBits, visibilityBit]
  rfl

/-! ## C18 -/

/-- Whatever the runtime makes of it as a number, a string passed as value is
stored by `SetRulesParam` as a string. -/
theorem SetRulesParam_string_value_eq (C : RulesParamLos) (L : lua_State) (offset : Nat)
    (params : Params) (key s : String)
    (hkey : luaL_checkstring L (L.arg (offset + 1)) = .ok key)
    (hval : L.arg (offset + 2) = .string s)
    (hlos : L.arg (offset + 3) = .nil) :
    SetRulesParam C L offset params
      = (paramsStore params key
          { value := .string s,
            los := ((paramsFind params key).getD { value := .number 0, los := C.PRIVATE }).los },
          .ok ()) := by
  simp [SetRulesParam, hkey, hval, hlos, lua_israwnumber, lua_israwboolean, lua_isstring,
    lua_tostring, lua_istable, luaL_optint, lua_isnoneornil]

/-- C18, the code at the failing input: `SetRulesParam("k", "5")` in a runtime
that reads "5" as the number 5 returns normally and stores the string "5",
not the number 5. -/
theorem SetRulesParam_numeric_string_stays_string :
    lua_isnumber exNumericString (exNumericString.arg 2) = true ∧
      lua_tofloat exNumericString (exNumericString.arg 2) = 5 ∧
      (SetRulesParam {} exNumericString 0 []).2 = .ok () ∧
      (paramsFind (SetRulesParam {} exNumericString 0 []).1 "k").map
        (fun p => match p.value with
          | .string s => s
          | _ => "not a string") = some "5" := by
  have heq := SetRulesParam_string_value_eq {} exNumericString 0 [] "k" "5"
    (by simp [luaL_checkstring, lua_isstring, lua_tostring, lua_State.arg, exNumericString])
    (by simp [lua_State.arg, exNumericString])
    (by simp [lua_State.arg, exNumericString])
  refine ⟨?_, ?_, by rw [heq], ?_⟩
  · simp [lua_isnumber, lua_State.arg, exNumericString]
  · simp [lua_tofloat, lua_State.arg, exNumericString]
  · rw [heq, paramsFind_store_self]
    rfl

/-! ## C20 -/

/-- When the value is neither number, boolean, string nor nil, `SetRulesParam`
raises after erasing the key. -/
theorem SetRulesParam_malformed_eq (C : RulesParamLos) (L : lua_State) (offset : Nat)
    (params : Params) (key : String) (es : List (LuaValue × LuaValue))
    (hkey : luaL_checkstring L (L.arg (offset + 1)) = .ok key)
    (hval : L.arg (offset + 2) = .table es) :
    SetRulesParam C L offset params = (paramsErase params key, .error "Incorrect arguments") := by
  simp [SetRulesParam, hkey, hval, lua_israwnumber, lua_israwboolean, lua_isstring,
    lua_isnoneornil]

/-- C20, the code at the failing input: `SetRulesParam("k", {})` on a map
that holds `k` (number 3, public) raises, and the map it leaves has no entry
for `k`. -/
theorem SetRulesParam_error_erases_entry :
    (paramsFind exParams "k").map (fun p => p.los) = some 32 ∧
      (SetRulesParam {} exTableValue 0 exParams).2 = .error "Incorrect arguments" ∧
      paramsFind (SetRulesParam {} exTableValue 0 exParams).1 "k" = none := by
  have heq := SetRulesParam_malformed_eq {} exTableValue 0 exParams "k" []
    (by simp [luaL_checkstring, lua_isstring, lua_tostring, lua_State.arg, exTableValue])
    (by simp [lua_State.arg, exTableValue])
  refine ⟨by simp [paramsFind, exParams, List.lookup], by rw [heq], ?_⟩
  rw [heq]
  exact paramsFind_erase_self exParams "k"

/-! ## C19 -/

theorem setUnitHealthStep_health (paralyzeOnMaxHealth : Bool) (B : UnitBuildServices)
    (L : lua_State) (u : CUnit) (h : ℚ) :
    setUnitHealthStep paralyzeOnMaxHealth B L u (.string "health", .number h)
      = { u with health := min u.maxHealth h } := by
  simp [setUnitHealthStep, lua_israwstring, lua_isnumber, lua_tostring, lua_tofloat]

theorem setUnitHealthStep_paralyze (paralyzeOnMaxHealth : Bool) (B : UnitBuildServices)
    (L : lua_State) (u : CUnit) (p : ℚ) (hp : 0 ≤ p) :
    setUnitHealthStep paralyzeOnMaxHealth B L u (.string "paralyze", .number p)
      = { u with
          paralyzeDamage := p,
          stunned := if p > (if paralyzeOnMaxHealth then u.maxHealth else u.health) then true
            else u.stunned } := by
  have hmax : max 0 p = p := max_eq_right hp
  have hneg : ¬ p < 0 := not_lt.mpr hp
  cases paralyzeOnMaxHealth with
  | true =>
    by_cases hc : p > u.maxHealth
    · simp [setUnitHealthStep, lua_israwstring, lua_isnumber, lua_tostring, lua_tofloat, hmax,
        CUnit.SetStunned, hc]
    · simp [setUnitHealthStep, lua_israwstring, lua_isnumber, lua_tostring, lua_tofloat, hmax,
        CUnit.SetStunned, hneg, hc]
  | false =>
    by_cases hc : p > u.health
    · simp [setUnitHealthStep, lua_israwstring, lua_isnumber, lua_tostring, lua_tofloat, hmax,
        CUnit.SetStunned, hc]
    · simp [setUnitHealthStep, lua_israwstring, lua_isnumber, lua_tostring, lua_tofloat, hmax,
        CUnit.SetStunned, hneg, hc]

theorem SetUnitHealth_table_eq (paralyzeOnMaxHealth : Bool) (B : UnitBuildServices)
    (L : lua_State) (g : Game) (unitID : Int) (unit : CUnit) (es : List (LuaValue × LuaValue))
    (hid : luaL_checkint L (L.arg 1) = .ok unitID)
    (hget : g.GetUnit unitID = some unit)
    (hctl : CanControlUnit L unit = true)
    (htab : L.arg 2 = .table es) :
    SetUnitHealth paralyzeOnMaxHealth B L g
      = (g.modifyUnit unitID (fun u => es.foldl (setUnitHealthStep paralyzeOnMaxHealth B L) u),
          .ok []) := by
  have hidu := Game.getUnit_id hget
  simp [SetUnitHealth, ParseUnit, ParseRawUnit, hid, hget, hctl, htab, lua_isnumber, lua_istable,
    lua_entries, hidu]

theorem Game.getUnit_modifyUnit_self (g : Game) {unitID : Int} {unit : CUnit}
    (hget : g.GetUnit unitID = some unit) (f : CUnit → CUnit) (hf : ∀ u, (f u).id = u.id) :
    (g.modifyUnit unitID f).GetUnit unitID = some (f unit) := by
  have hidu : (unit.id == unitID) = true := by simpa using Game.getUnit_id hget
  rw [Game.getUnit_modifyUnit g unitID unitID f hf, hget]
  simp only [Option.map_some', hidu, if_true]

/-- C19: `SetUnitHealth(u, {health = h, paralyze = p})` with `p ≥ 0`, on a unit
the caller may control, the two entries being visited in either order,
returns normally and leaves the unit with health `min(maxHealth, h)` and
paralyze damage `p`. -/
theorem SetUnitHealth_round_trip (paralyzeOnMaxHealth : Bool) (B : UnitBuildServices)
    (L : lua_State) (g : Game) (unitID : Int) (unit : CUnit) (h p : ℚ)
    (es : List (LuaValue × LuaValue))
    (hid : luaL_checkint L (L.arg 1) = .ok unitID)
    (hget : g.GetUnit unitID = some unit)
    (hctl : CanControlUnit L unit = true)
    (htab : L.arg 2 = .table es)
    (hes : es = [(.string "health", .number h), (.string "paralyze", .number p)] ∨
      es = [(.string "paralyze", .number p), (.string "health", .number h)])
    (hp : 0 ≤ p) :
    (SetUnitHealth paralyzeOnMaxHealth B L g).2 = .ok [] ∧
      ∃ u, (SetUnitHealth paralyzeOnMaxHealth B L g).1.GetUnit unitID = some u ∧
        u.health = min unit.maxHealth h ∧ u.paralyzeDamage = p := by
  rw [SetUnitHealth_table_eq paralyzeOnMaxHealth B L g unitID unit es hid hget hctl htab]
  refine ⟨rfl, ?_⟩
  have hf : ∃ f : CUnit → CUnit,
      (fun u => es.foldl (setUnitHealthStep paralyzeOnMaxHealth B L) u) = f ∧
      (∀ u, (f u).id = u.id) ∧ (∀ u, (f u).health = min u.maxHealth h) ∧
      ∀ u, (f u).paralyzeDamage = p := by
    rcases hes with h1 | h1
    · refine ⟨fun (u : CUnit) => { u with
          health := min u.maxHealth h,
          paralyzeDamage := p,
          stunned := if p > (if paralyzeOnMaxHealth then u.maxHealth else min u.maxHealth h)
            then true else u.stunned }, ?_, fun _ => rfl, fun _ => rfl, fun _ => rfl⟩
      funext u
      rw [h1]
      simp only [List.foldl_cons, List.foldl_nil, setUnitHealthStep_health,
        setUnitHealthStep_paralyze _ _ _ _ _ hp]
    · refine ⟨fun (u : CUnit) => { u with
          health := min u.maxHealth h,
          paralyzeDamage := p,
          stunned := if p > (if paralyzeOnMaxHealth then u.maxHealth else u.health)
            then true else u.stunned }, ?_, fun _ => rfl, fun _ => rfl, fun _ => rfl⟩
      funext u
      rw [h1]
      simp only [List.foldl_cons, List.foldl_nil, setUnitHealthStep_health,
        setUnitHealthStep_paralyze _ _ _ _ _ hp]
  obtain ⟨f, hfe, hfid, hfh, hfp⟩ := hf
  rw [hfe]
  exact ⟨f unit, Game.getUnit_modifyUnit_self g hget f hfid, hfh unit, hfp unit⟩

theorem SetUnitHealth_round_trip_witness :
    (SetUnitHealth false exBuild exSetHealth exHealthGame).2 = .ok [] ∧
      ∃ u, (SetUnitHealth false exBuild exSetHealth exHealthGame).1.GetUnit 7 = some u ∧
        u.health = 50 ∧ u.paralyzeDamage = 10 := by
  obtain ⟨h1, u, h2, h3, h4⟩ := SetUnitHealth_round_trip false exBuild exSetHealth exHealthGame 7
    { id := 7, team := 0, health := 80, maxHealth := 100 } 50 10
    [(.string "health", .number 50), (.string "paralyze", .number 10)]
    (by simp [luaL_checkint, lua_isnumber, lua_toint, lua_tofloat, lua_number2int, lua_State.arg,
      exSetHealth])
    (by simp [Game.GetUnit, exHealthGame, List.find?])
    (by simp [CanControlUnit, CanControlTeam, FullCtrl, exSetHealth])
    (by simp [lua_State.arg, exSetHealth])
    (Or.inl rfl) (by norm_num)
  refine ⟨h1, u, h2, ?_, h4⟩
  rw [h3]
  norm_num

/-! ## C30 -/

theorem lookup_map_replace_ne (params : Params) (key k : String) (p : Param)
    (hkb : (k == key) = false) :
    List.lookup k (params.map (fun e => if e.1 == key then (key, p) else e))
      = List.lookup k params := by
  induction params with
  | nil => rfl
  | cons e es ih =>
    obtain ⟨a, b⟩ := e
    by_cases h : a = key
    · subst h
      simp only [List.map_cons, beq_self_eq_true, if_true, List.lookup_cons, hkb]
      exact ih
    · have h1 : (a == key) = false := by simpa using h
      simp only [List.map_cons, h1, Bool.false_eq_true, if_false, List.lookup_cons]
      cases hka : k == a
      · exact ih
      · rfl

theorem lookup_append_ne (params : Params) (key k : String) (p : Param)
    (hkb : (k == key) = false) :
    List.lookup k (params ++ [(key, p)]) = List.lookup k params := by
  induction params with
  | nil => simp [List.lookup_cons, hkb]
  | cons e es ih =>
    obtain ⟨a, b⟩ := e
    simp only [List.cons_append, List.lookup_cons]
    cases hka : k == a
    · exact ih
    · rfl

theorem paramsFind_store_ne (params : Params) (key k : String) (p : Param) (hk : k ≠ key) :
    paramsFind (paramsStore params key p) k = paramsFind params k := by
  have hkb : (k == key) = false := by simpa using hk
  unfold paramsStore paramsFind
  split
  · exact lookup_map_replace_ne params key k p hkb
  · exact lookup_append_ne params key k p hkb

theorem paramsStore_keys (params : Params) (key : String) (p : Param)
    (h : (paramsFind params key).isSome = true) :
    (paramsStore params key p).map (fun e => e.1) = params.map (fun e => e.1) := by
  unfold paramsStore
  rw [if_pos h]
  rw [List.map_map]
  apply List.map_congr_left
  intro e _
  by_cases he : e.1 = key
  · simp [he]
  · simp [he]

/-- With a value that is stored and no visibility argument, `SetRulesParam`
stores the value under the mask the entry had (the private bit for a new
entry). -/
theorem SetRulesParam_value_eq (C : RulesParamLos) (L : lua_State) (offset : Nat)
    (params : Params) (key : String)
    (hkey : luaL_checkstring L (L.arg (offset + 1)) = .ok key)
    (hval : lua_israwnumber (L.arg (offset + 2)) = true ∨ lua_israwboolean (L.arg (offset + 2)) = true
      ∨ lua_isstring (L.arg (offset + 2)) = true)
    (hlos : L.arg (offset + 3) = .nil) :
    SetRulesParam C L offset params
      = (paramsStore params key
          { value :=
              if lua_israwnumber (L.arg (offset + 2)) then
                .number (lua_tofloat L (L.arg (offset + 2)))
              else if lua_israwboolean (L.arg (offset + 2)) then
                .boolean (lua_toboolean (L.arg (offset + 2)))
              else .string (lua_tostring L (L.arg (offset + 2))),
            los := ((paramsFind params key).getD { value := .number 0, los := C.PRIVATE }).los },
          .ok ()) := by
  by_cases h1 : lua_israwnumber (L.arg (offset + 2)) = true
  · simp [SetRulesParam, hkey, h1, hlos, lua_istable, luaL_optint, lua_isnoneornil]
  · by_cases h2 : lua_israwboolean (L.arg (offset + 2)) = true
    · simp [SetRulesParam, hkey, h1, h2, hlos, lua_istable, luaL_optint, lua_isnoneornil]
    · have h3 : lua_isstring (L.arg (offset + 2)) = true := by
        rcases hval with h | h | h
        · exact absurd h h1
        · exact absurd h h2
        · exact h
      simp [SetRulesParam, hkey, h1, h2, h3, hlos, lua_istable, luaL_optint, lua_isnoneornil]

/-- C30: on a map that has an entry for the key, `SetRulesParam` with a value
that is a raw number, a raw boolean or a string and with no visibility
argument (nil or missing) returns normally; the entry of the key then holds
the new value under the mask it had, every other key reads as before, and
the keys of the map are the same, in the same order. -/
theorem SetRulesParam_update_keeps_visibility (C : RulesParamLos) (L : lua_State) (offset : Nat)
    (params : Params) (key : String) (old : Param)
    (hkey : luaL_checkstring L (L.arg (offset + 1)) = .ok key)
    (hval : lua_israwnumber (L.arg (offset + 2)) = true ∨ lua_israwboolean (L.arg (offset + 2)) = true
      ∨ lua_isstring (L.arg (offset + 2)) = true)
    (hlos : L.arg (offset + 3) = .nil)
    (hold : paramsFind params key = some old) :
    (SetRulesParam C L offset params).2 = .ok () ∧
      paramsFind (SetRulesParam C L offset params).1 key
        = some { value :=
                   if lua_israwnumber (L.arg (offset + 2)) then
                     .number (lua_tofloat L (L.arg (offset + 2)))
                   else if lua_israwboolean (L.arg (offset + 2)) then
                     .boolean (lua_toboolean (L.arg (offset + 2)))
                   else .string (lua_tostring L (L.arg (offset + 2))),
                 los := old.los } ∧
      (∀ k, k ≠ key → paramsFind (SetRulesParam C L offset params).1 k = paramsFind params k) ∧
      (SetRulesParam C L offset params).1.map (fun e => e.1) = params.map (fun e => e.1) := by
  rw [SetRulesParam_value_eq C L offset params key hkey hval hlos]
  refine ⟨rfl, ?_, ?_, ?_⟩
  · rw [paramsFind_store_self, hold]
    rfl
  · intro k hk
    exact paramsFind_store_ne params key k _ hk
  · exact paramsStore_keys params key _ (by rw [hold]; rfl)

theorem SetRulesParam_update_keeps_visibility_witness :
    (SetRulesParam {} exUpdateValue 0 exParams).2 = .ok () ∧
      (paramsFind (SetRulesParam {} exUpdateValue 0 exParams).1 "k").map (fun p => p.los)
        = some 32 ∧
      paramsFind (SetRulesParam {} exUpdateValue 0 exParams).1 "j" = paramsFind exParams "j" := by
  obtain ⟨h1, h2, h3, _⟩ := SetRulesParam_update_keeps_visibility {} exUpdateValue 0 exParams "k"
    { value := .number 3, los := 32 }
    (by simp [luaL_checkstring, lua_isstring, lua_tostring, lua_State.arg, exUpdateValue])
    (Or.inl (by simp [lua_israwnumber, lua_State.arg, exUpdateValue]))
    (by simp [lua_State.arg, exUpdateValue])
    (by simp [paramsFind, exParams, List.lookup])
  refine ⟨h1, ?_, h3 "j" (by decide)⟩
  rw [h2]
  rfl

/-! ## C21 -/

theorem std_clamp_abs_le (v m : ℚ) (hm : 0 ≤ m) : |std_clamp v (-m) m| ≤ m := by
  unfold std_clamp
  rw [abs_le]
  split_ifs with h1 h2
  · exact ⟨le_refl _, by linarith⟩
  · exact ⟨by linarith, le_refl _⟩
  · exact ⟨not_lt.mp h1, not_lt.mp h2⟩

theorem sq_le_of_abs_le (a m : ℚ) (h : |a| ≤ m) : a * a ≤ m * m := by
  have h0 : 0 ≤ |a| := abs_nonneg a
  have h1 : |a| * |a| ≤ m * m := mul_le_mul h h h0 (le_trans h0 h)
  rwa [abs_mul_abs_self] at h1

/-- The impulse that `AddUnitImpulse` applies to a unit the caller may
control: each argument clamped on its own. -/
theorem AddUnitImpulse_eq (MAX_EXPLOSION_IMPULSE : ℚ) (ApplyImpulse : CUnit → float3 → CUnit)
    (L : lua_State) (g : Game) (unitID : Int) (unit : CUnit) (x y z : ℚ)
    (hid : luaL_checkint L (L.arg 1) = .ok unitID)
    (hget : g.GetUnit unitID = some unit)
    (hctl : CanControlUnit L unit = true)
    (hx : luaL_checkfloat L (L.arg 2) = .ok x)
    (hy : luaL_checkfloat L (L.arg 3) = .ok y)
    (hz : luaL_checkfloat L (L.arg 4) = .ok z) :
    AddUnitImpulse MAX_EXPLOSION_IMPULSE ApplyImpulse L g
      = (g.modifyUnit unitID (fun u => ApplyImpulse u
            { x := std_clamp x (-MAX_EXPLOSION_IMPULSE) MAX_EXPLOSION_IMPULSE,
              y := std_clamp y (-MAX_EXPLOSION_IMPULSE) MAX_EXPLOSION_IMPULSE,
              z := std_clamp z (-MAX_EXPLOSION_IMPULSE) MAX_EXPLOSION_IMPULSE }), .ok []) := by
  have hidu := Game.getUnit_id hget
  simp [AddUnitImpulse, unitImpulse, ParseUnit, ParseRawUnit, hid, hget, hctl, hx, hy, hz, hidu]

/-- C21 as the code has it: for numbers x, y, z and `MAX_EXPLOSION_IMPULSE ≥ 0`,
`AddUnitImpulse(unit, x, y, z)` on a unit the caller may control returns
normally and applies the vector whose components are x, y and z, each
clamped to `[-MAX_EXPLOSION_IMPULSE, MAX_EXPLOSION_IMPULSE]`: each component
is at most `MAX_EXPLOSION_IMPULSE` in absolute value, and the sum of the
squares of the components is at most three times `MAX_EXPLOSION_IMPULSE`
squared. -/
theorem AddUnitImpulse_clamps_each_component (MAX_EXPLOSION_IMPULSE : ℚ)
    (ApplyImpulse : CUnit → float3 → CUnit)
    (L : lua_State) (g : Game) (unitID : Int) (unit : CUnit) (x y z : ℚ)
    (hid : luaL_checkint L (L.arg 1) = .ok unitID)
    (hget : g.GetUnit unitID = some unit)
    (hctl : CanControlUnit L unit = true)
    (hx : luaL_checkfloat L (L.arg 2) = .ok x)
    (hy : luaL_checkfloat L (L.arg 3) = .ok y)
    (hz : luaL_checkfloat L (L.arg 4) = .ok z)
    (hmax : 0 ≤ MAX_EXPLOSION_IMPULSE) :
    ∃ impulse : float3,
      AddUnitImpulse MAX_EXPLOSION_IMPULSE ApplyImpulse L g
        = (g.modifyUnit unitID (fun u => ApplyImpulse u impulse), .ok []) ∧
      impulse.x = std_clamp x (-MAX_EXPLOSION_IMPULSE) MAX_EXPLOSION_IMPULSE ∧
      impulse.y = std_clamp y (-MAX_EXPLOSION_IMPULSE) MAX_EXPLOSION_IMPULSE ∧
      impulse.z = std_clamp z (-MAX_EXPLOSION_IMPULSE) MAX_EXPLOSION_IMPULSE ∧
      |impulse.x| ≤ MAX_EXPLOSION_IMPULSE ∧ |impulse.y| ≤ MAX_EXPLOSION_IMPULSE ∧
      |impulse.z| ≤ MAX_EXPLOSION_IMPULSE ∧
      impulse.SqLength ≤ 3 * (MAX_EXPLOSION_IMPULSE * MAX_EXPLOSION_IMPULSE) := by
  refine ⟨_, AddUnitImpulse_eq MAX_EXPLOSION_IMPULSE ApplyImpulse L g unitID unit x y z hid hget
    hctl hx hy hz, rfl, rfl, rfl, std_clamp_abs_le x _ hmax, std_clamp_abs_le y _ hmax,
    std_clamp_abs_le z _ hmax, ?_⟩
  have h1 := sq_le_of_abs_le _ _ (std_clamp_abs_le x _ hmax)
  have h2 := sq_le_of_abs_le _ _ (std_clamp_abs_le y _ hmax)
  have h3 := sq_le_of_abs_le _ _ (std_clamp_abs_le z _ hmax)
  simp only [float3.SqLength]
  linarith

theorem AddUnitImpulse_clamps_each_component_witness :
    ∃ impulse : float3,
      AddUnitImpulse 10000 exApplyImpulse exImpulseMixed exGame
        = (exGame.modifyUnit 7 (fun u => exApplyImpulse u impulse), .ok []) ∧
      impulse.x = 3 ∧ impulse.y = -10000 ∧ impulse.z = 10000 := by
  obtain ⟨impulse, h, hx, hy, hz, _⟩ := AddUnitImpulse_clamps_each_component 10000 exApplyImpulse
    exImpulseMixed exGame 7 { id := 7, team := 1 } 3 (-20000) 20000
    (by simp [luaL_checkint, lua_isnumber, lua_toint, lua_tofloat, lua_number2int, lua_State.arg,
      exImpulseMixed])
    (by simp [Game.GetUnit, exGame, List.find?])
    (by simp [CanControlUnit, CanControlTeam, FullCtrl, exImpulseMixed])
    (by simp [luaL_checkfloat, lua_isnumber, lua_tofloat, lua_State.arg, exImpulseMixed])
    (by simp [luaL_checkfloat, lua_isnumber, lua_tofloat, lua_State.arg, exImpulseMixed])
    (by simp [luaL_checkfloat, lua_isnumber, lua_tofloat, lua_State.arg, exImpulseMixed])
    (by norm_num)
  refine ⟨impulse, h, ?_, ?_, ?_⟩
  · rw [hx]; norm_num [std_clamp]
  · rw [hy]; norm_num [std_clamp]
  · rw [hz]; norm_num [std_clamp]

/-- C21, counterexample to the bound on the magnitude: with
`MAX_EXPLOSION_IMPULSE = 10000`, `AddUnitImpulse(7, 10000, 10000, 10000)`
applies the vector (10000, 10000, 10000) to unit 7, which was at rest; the
sum of the squares of its components is 300000000, above 10000 squared. -/
theorem AddUnitImpulse_magnitude_exceeds_max :
    unitImpulse 10000 exImpulseDiagonal = .ok { x := 10000, y := 10000, z := 10000 } ∧
      (AddUnitImpulse 10000 exApplyImpulse exImpulseDiagonal exGame).2 = .ok [] ∧
      ((AddUnitImpulse 10000 exApplyImpulse exImpulseDiagonal exGame).1.GetUnit 7).map
        (fun u => u.speed.SqLength) = some 300000000 ∧
      ¬ ((300000000 : ℚ) ≤ 10000 * 10000) := by
  have hget : exGame.GetUnit 7 = some { id := 7, team := 1 } := by
    simp [Game.GetUnit, exGame, List.find?]
  have heq := AddUnitImpulse_eq 10000 exApplyImpulse exImpulseDiagonal exGame 7
    { id := 7, team := 1 } 10000 10000 10000
    (by simp [luaL_checkint, lua_isnumber, lua_toint, lua_tofloat, lua_number2int, lua_State.arg,
      exImpulseDiagonal])
    hget
    (by simp [CanControlUnit, CanControlTeam, FullCtrl, exImpulseDiagonal])
    (by simp [luaL_checkfloat, lua_isnumber, lua_tofloat, lua_State.arg, exImpulseDiagonal])
    (by simp [luaL_checkfloat, lua_isnumber, lua_tofloat, lua_State.arg, exImpulseDiagonal])
    (by simp [luaL_checkfloat, lua_isnumber, lua_tofloat, lua_State.arg, exImpulseDiagonal])
  have hc : std_clamp (10000 : ℚ) (-10000) 10000 = 10000 := by norm_num [std_clamp]
  refine ⟨?_, by rw [heq], ?_, by norm_num⟩
  · simp [unitImpulse, luaL_checkfloat, lua_isnumber, lua_tofloat, lua_State.arg,
      exImpulseDiagonal, hc]
  · rw [heq, hc]
    simp only []
    rw [Game.getUnit_modifyUnit_self exGame hget
      (fun u => exApplyImpulse u { x := 10000, y := 10000, z := 10000 }) (fun _ => rfl)]
    simp only [Option.map_some', exApplyImpulse, float3.SqLength]
    norm_num

/-! ## C22 -/

/-- C22: `SetUnitResourceParam(unit, name, v)`.  When the first three
characters of the name are one of u, c, then one of u, m, then one of m, e,
it returns true, the rate field they select (c for conditional, m for make,
e for energy) is `v / 2`, the other seven rate fields are as before, and so
is every other field of the unit.  For every other name it returns false and
leaves the unit as it is. -/
theorem SetUnitResourceParam_keys (unit : CUnit) (name : String) (v : ℚ) :
    (((charAt name 0 = 'u' ∨ charAt name 0 = 'c') ∧ (charAt name 1 = 'u' ∨ charAt name 1 = 'm') ∧
        (charAt name 2 = 'm' ∨ charAt name 2 = 'e')) →
      (SetUnitResourceParam unit name v).1 = true ∧
        (∀ conditional make energy : Bool,
          (SetUnitResourceParam unit name v).2.resourcing conditional make energy
            = if conditional = decide (charAt name 0 = 'c') ∧ make = decide (charAt name 1 = 'm') ∧
                  energy = decide (charAt name 2 = 'e') then v / 2
              else unit.resourcing conditional make energy) ∧
        (SetUnitResourceParam unit name v).2.withRatesOf unit = unit) ∧
      (¬ ((charAt name 0 = 'u' ∨ charAt name 0 = 'c') ∧ (charAt name 1 = 'u' ∨ charAt name 1 = 'm') ∧
          (charAt name 2 = 'm' ∨ charAt name 2 = 'e')) →
        SetUnitResourceParam unit name v = (false, unit)) := by
  have huc : ('u' : Char) ≠ 'c' := by decide
  have hum : ('u' : Char) ≠ 'm' := by decide
  have hme : ('m' : Char) ≠ 'e' := by decide
  have hcu : ('c' : Char) ≠ 'u' := by decide
  have hmu : ('m' : Char) ≠ 'u' := by decide
  have hem : ('e' : Char) ≠ 'm' := by decide
  constructor
  · rintro ⟨h0, h1, h2⟩
    rcases h0 with h0 | h0 <;> rcases h1 with h1 | h1 <;> rcases h2 with h2 | h2 <;>
      (refine ⟨?_, ?_, ?_⟩
       · simp [SetUnitResourceParam, h0, h1, h2, huc, hum, hme, hcu, hmu, hem]
       · intro conditional make energy
         cases conditional <;> cases make <;> cases energy <;>
           simp [SetUnitResourceParam, CUnit.resourcing, h0, h1, h2, huc, hum, hme, hcu, hmu, hem,
             div_eq_mul_inv]
       · simp [SetUnitResourceParam, CUnit.withRatesOf, h0, h1, h2, huc, hum, hme, hcu, hmu, hem])
  · intro h
    simp only [SetUnitResourceParam]
    split_ifs <;> first | rfl | (exfalso; apply h; simp [*])

theorem SetUnitResourceParam_keys_witness :
    (SetUnitResourceParam { id := 7 } "umm" 4).1 = true ∧
      (SetUnitResourceParam { id := 7 } "umm" 4).2.resourcing false true false = 2 ∧
      (SetUnitResourceParam { id := 7 } "umm" 4).2.resourcing false true true = 0 ∧
      SetUnitResourceParam { id := 7 } "metal" 4 = (false, { id := 7 }) := by
  have hc0 : charAt "umm" 0 = 'u' := by decide
  have hc1 : charAt "umm" 1 = 'm' := by decide
  have hc2 : charAt "umm" 2 = 'm' := by decide
  have h := (SetUnitResourceParam_keys { id := 7 } "umm" 4).1
    ⟨Or.inl hc0, Or.inr hc1, Or.inl hc2⟩
  have hn := (SetUnitResourceParam_keys { id := 7 } "metal" 4).2 (by
    have : charAt "metal" 0 = 'm' := by decide
    rw [this]
    decide)
  refine ⟨h.1, ?_, ?_, hn⟩
  · rw [h.2.1 false true false, hc0, hc1, hc2, if_pos (by decide)]
    norm_num
  · rw [h.2.1 false true true, hc0, hc1, hc2, if_neg (by decide)]
    simp [CUnit.resourcing]

/-! ## C23 -/

theorem ParseUnitArray_filter (L : lua_State) (g : Game) (names : List Int) :
    ParseUnitArray L g (unitIDArray names) = .ok (names.filter (g.mayOrder L)) := by
  simp [ParseUnitArray, unitIDArray, luaArray, lua_istable, lua_entries,
    parseUnitArray_foldl_filter L g names]

theorem mayOrder_exists {L : lua_State} {g : Game} {unitID : Int}
    (h : g.mayOrder L unitID = true) :
    ∃ u, g.GetUnit unitID = some u ∧ CanControlUnit L u = true := by
  unfold Game.mayOrder at h
  cases hu : g.GetUnit unitID with
  | none => rw [hu] at h; cases h
  | some u => rw [hu] at h; exact ⟨u, rfl, h⟩

/-- Pairwise dispatch pairs the commands with the units that `ParseUnitArray`
kept: the entries of the unit array that name no unit, or a unit the caller
may not control, take up no index. -/
theorem GiveOrderArrayToUnitArray_pairwise_filter_eq (MAX_CMD_RECURSION_DEPTH : Nat) (U : LuaUtils)
    (L : lua_State) (g : Game) (names : List Int) (cmds : List Command)
    (hallow : L.allowChanges = true)
    (hunits : L.arg 1 = unitIDArray names)
    (hcmds : U.ParseCommandArray L 2 = .ok cmds)
    (hn : names.filter (g.mayOrder L) ≠ []) (hm : cmds ≠ [])
    (hpair : L.arg 3 = .boolean true)
    (hdepth : g.inGiveOrder < (MAX_CMD_RECURSION_DEPTH : Int)) :
    GiveOrderArrayToUnitArray MAX_CMD_RECURSION_DEPTH U L g
      = (g.deliver ((names.filter (g.mayOrder L)).zip cmds),
          .ok [.number ((min (names.filter (g.mayOrder L)).length cmds.length : Nat) : ℚ)]) := by
  have hd : ¬ g.inGiveOrder ≥ (MAX_CMD_RECURSION_DEPTH : Int) := not_le.mpr hdepth
  have hparse := ParseUnitArray_filter L g names
  have hne1 : (names.filter (g.mayOrder L)).isEmpty = false := by
    cases hf : names.filter (g.mayOrder L) with
    | nil => exact absurd hf hn
    | cons a as => rfl
  have hne2 : cmds.isEmpty = false := by cases cmds <;> simp_all
  have hex1 : ∀ p ∈ (names.filter (g.mayOrder L)).zip cmds, ∃ u,
      ({ g with inGiveOrder := g.inGiveOrder + 1 } : Game).GetUnit p.1 = some u ∧
        CanControlUnit L u = true := by
    intro p hp
    have hmem : p.1 ∈ names.filter (g.mayOrder L) :=
      (List.of_mem_zip (show (p.1, p.2) ∈ (names.filter (g.mayOrder L)).zip cmds from hp)).1
    exact mayOrder_exists (List.mem_filter.mp hmem).2
  have hfold := giveOrders_pairwise_foldl L ((names.filter (g.mayOrder L)).zip cmds)
    { g with inGiveOrder := g.inGiveOrder + 1 } 0 hex1
  simp only [GiveOrderArrayToUnitArray, CheckAllowGameChanges, hallow, hunits, hparse, hcmds,
    hne1, hne2, hd, hpair, luaL_optboolean, lua_isnoneornil, luaL_checkboolean]
  simp only [Bool.not_true, Bool.false_eq_true, if_false, if_true, Bool.or_self, hfold]
  simp [Game.deliver]

/-- C23, the code at the failing input: a caller bound to team 1 calls
`GiveOrderArrayToUnitArray({8, 99, 7}, {100, 200, 300}, true)`.  Unit 8 is
not its own and no unit 99 exists; unit 7, the third entry, is its own.  The
call returns 1 and unit 7 has received command 100, the first of the array,
not command 300, the third. -/
theorem GiveOrderArrayToUnitArray_pairwise_shifts_index :
    exGame.mayOrder exPairwiseSkipped 8 = false ∧
      exGame.mayOrder exPairwiseSkipped 99 = false ∧
      exGame.mayOrder exPairwiseSkipped 7 = true ∧
      exUtils.ParseCommandArray exPairwiseSkipped 2
        = .ok [{ id := 100 }, { id := 200 }, { id := 300 }] ∧
      (GiveOrderArrayToUnitArray 16 exUtils exPairwiseSkipped exGame).2 = .ok [.number 1] ∧
      ((GiveOrderArrayToUnitArray 16 exUtils exPairwiseSkipped exGame).1.GetUnit 7).map
        (fun v => v.commandQue) = some [{ id := 100 }] := by
  have hm8 : exGame.mayOrder exPairwiseSkipped 8 = false := by
    simp [Game.mayOrder, Game.GetUnit, exGame, List.find?, CanControlUnit, CanControlTeam,
      FullCtrl, CtrlTeam, exPairwiseSkipped]
  have hm99 : exGame.mayOrder exPairwiseSkipped 99 = false := by
    simp [Game.mayOrder, Game.GetUnit, exGame, List.find?]
  have hm7 : exGame.mayOrder exPairwiseSkipped 7 = true := by
    simp [Game.mayOrder, Game.GetUnit, exGame, List.find?, CanControlUnit, CanControlTeam,
      FullCtrl, CtrlTeam, exPairwiseSkipped]
  have hf : ([8, 99, 7] : List Int).filter (exGame.mayOrder exPairwiseSkipped) = [7] := by
    simp [List.filter, hm7, hm8, hm99]
  have hcmds : exUtils.ParseCommandArray exPairwiseSkipped 2
      = .ok [{ id := 100 }, { id := 200 }, { id := 300 }] := by
    simp [exUtils, exPairwiseSkipped, lua_State.arg, lua_entries, luaArray, luaArrayFrom,
      lua_toint, lua_tofloat, lua_number2int]
  have heq := GiveOrderArrayToUnitArray_pairwise_filter_eq 16 exUtils exPairwiseSkipped exGame
    [8, 99, 7] [{ id := 100 }, { id := 200 }, { id := 300 }] rfl rfl hcmds
    (by rw [hf]; simp) (by simp) rfl (by simp [exGame])
  have e7 : exGame.GetUnit 7 = some { id := 7, team := 1 } := by
    simp [Game.GetUnit, exGame, List.find?]
  refine ⟨hm8, hm99, hm7, hcmds, ?_, ?_⟩
  · rw [heq, hf]
    norm_num
  · rw [heq, hf, Game.getUnit_deliver, e7]
    simp [commandsFor]

/-! ## C24 -/

/-- Inside a callback, `SetHeightMap` on an in-range coordinate and without a
terraform factor stores the target height and returns the target height
minus the old height, with its sign. -/
theorem SetHeightMap_plain_eq (M : MapServices) (L : lua_State) (g : Game) (xl zl h : ℚ)
    (hin : g.inHeightMap = true)
    (hx : luaL_checkfloat L (L.arg 1) = .ok xl)
    (hz : luaL_checkfloat L (L.arg 2) = .ok zl)
    (hh : luaL_checkfloat L (L.arg 3) = .ok h)
    (ht : lua_israwnumber (L.arg 4) = false)
    (hrange : 0 ≤ float2int (xl / (M.SQUARE_SIZE : ℚ)) ∧
      float2int (xl / (M.SQUARE_SIZE : ℚ)) ≤ M.mapx ∧
      0 ≤ float2int (zl / (M.SQUARE_SIZE : ℚ)) ∧
      float2int (zl / (M.SQUARE_SIZE : ℚ)) ≤ M.mapy) :
    (SetHeightMap M L g).2
      = .ok [.number (h - g.heightMap
          ((float2int (zl / (M.SQUARE_SIZE : ℚ)) * (M.mapx + 1))
            + float2int (xl / (M.SQUARE_SIZE : ℚ))))] := by
  obtain ⟨h1, h2, h3, h4⟩ := hrange
  have hr : ¬ (float2int (xl / (M.SQUARE_SIZE : ℚ)) < 0 ∨
      float2int (xl / (M.SQUARE_SIZE : ℚ)) > M.mapx ∨
      float2int (zl / (M.SQUARE_SIZE : ℚ)) < 0 ∨
      float2int (zl / (M.SQUARE_SIZE : ℚ)) > M.mapy) := by
    intro hc
    rcases hc with hc | hc | hc | hc <;> omega
  simp [SetHeightMap, hin, hx, hz, hh, ht, hr]

/-- The smooth-mesh counterpart of `SetHeightMap_plain_eq`. -/
theorem SetSmoothMesh_plain_eq (S : SmoothGround) (L : lua_State) (g : Game) (xl zl h : ℚ)
    (hin : g.inSmoothMesh = true)
    (hx : luaL_checkfloat L (L.arg 1) = .ok xl)
    (hz : luaL_checkfloat L (L.arg 2) = .ok zl)
    (hh : luaL_checkfloat L (L.arg 3) = .ok h)
    (ht : lua_israwnumber (L.arg 4) = false)
    (hrange : 0 ≤ float2int (xl / (S.GetResolution : ℚ)) ∧
      float2int (xl / (S.GetResolution : ℚ)) ≤ S.GetMaxX - 1 ∧
      0 ≤ float2int (zl / (S.GetResolution : ℚ)) ∧
      float2int (zl / (S.GetResolution : ℚ)) ≤ S.GetMaxY - 1) :
    (SetSmoothMesh S L g).2
      = .ok [.number (h - g.smoothMesh
          ((float2int (zl / (S.GetResolution : ℚ)) * S.GetMaxX)
            + float2int (xl / (S.GetResolution : ℚ))))] := by
  obtain ⟨h1, h2, h3, h4⟩ := hrange
  have hr : ¬ (float2int (xl / (S.GetResolution : ℚ)) < 0 ∨
      float2int (xl / (S.GetResolution : ℚ)) > S.GetMaxX - 1 ∨
      float2int (zl / (S.GetResolution : ℚ)) < 0 ∨
      float2int (zl / (S.GetResolution : ℚ)) > S.GetMaxY - 1) := by
    intro hc
    rcases hc with hc | hc | hc | hc <;> omega
  simp [SetSmoothMesh, hin, hx, hz, hh, ht, hr]

/-- C24, the code at the failing input: inside a callback, on a field whose
height is 10 everywhere, `SetHeightMap(0, 0, 5)` and `SetSmoothMesh(0, 0, 5)`
lower the point to 5 and return -5, a negative number, not the absolute
difference 5. -/
theorem SetHeightMap_returns_signed_difference :
    exHeightGame.heightMap 0 = 10 ∧
      (SetHeightMap exMap exLower exHeightGame).1.heightMap 0 = 5 ∧
      (SetHeightMap exMap exLower exHeightGame).2 = .ok [.number (-5)] ∧
      exHeightGame.smoothMesh 0 = 10 ∧
      (SetSmoothMesh exSmooth exLower exHeightGame).1.smoothMesh 0 = 5 ∧
      (SetSmoothMesh exSmooth exLower exHeightGame).2 = .ok [.number (-5)] := by
  have h0 : float2int 0 = 0 := by simp [float2int, lua_number2int, INT_MIN, INT_MAX]
  have hx : luaL_checkfloat exLower (exLower.arg 1) = .ok 0 := by
    simp [luaL_checkfloat, lua_isnumber, lua_tofloat, lua_State.arg, exLower]
  have hz : luaL_checkfloat exLower (exLower.arg 2) = .ok 0 := by
    simp [luaL_checkfloat, lua_isnumber, lua_tofloat, lua_State.arg, exLower]
  have hh : luaL_checkfloat exLower (exLower.arg 3) = .ok 5 := by
    simp [luaL_checkfloat, lua_isnumber, lua_tofloat, lua_State.arg, exLower]
  have ht : lua_israwnumber (exLower.arg 4) = false := by
    simp [lua_israwnumber, lua_State.arg, exLower]
  have h1 := SetHeightMap_plain_eq exMap exLower exHeightGame 0 0 5 rfl hx hz hh ht
    (by simp [h0, exMap])
  have h2 := SetSmoothMesh_plain_eq exSmooth exLower exHeightGame 0 0 5 rfl hx hz hh ht
    (by simp [h0, exSmooth])
  refine ⟨rfl, ?_, ?_, rfl, ?_, ?_⟩
  · simp [SetHeightMap, exHeightGame, hx, hz, hh, ht, h0, exMap, Game.SetHeight]
  · rw [h1]
    simp [h0, exHeightGame]
    norm_num
  · simp [SetSmoothMesh, exHeightGame, hx, hz, hh, ht, h0, exSmooth, Game.SetSmoothHeight]
  · rw [h2]
    simp [h0, exHeightGame]
    norm_num

/-! ## C25 -/

/-- C25, the code at the failing input: in a game with two ally teams,
`GameOver({256, -256})` returns 2 and hands the winners 0 and 0 to the game,
although neither 256 nor -256 is a valid ally-team id: both become 0 in the
conversion to `unsigned char` that precedes the validity test. -/
theorem GameOver_accepts_out_of_range_ids (GameEnd : List Nat → Game → Game) :
    exLosGame.IsValidAllyTeam 256 = false ∧ exLosGame.IsValidAllyTeam (-256) = false ∧
      GameOver GameEnd exGameOver exLosGame = (GameEnd [0, 0] exLosGame, .ok [.number 2]) := by
  refine ⟨by simp [Game.IsValidAllyTeam, exLosGame], by simp [Game.IsValidAllyTeam, exLosGame], ?_⟩
  have h1 : lua_number2int 256 = 256 := by
    have := lua_number2int_intCast 256
    simpa using this
  have h2 : lua_number2int (-256) = -256 := by
    have := lua_number2int_intCast (-256)
    simpa using this
  have hu1 : toUChar 256 = 0 := by decide
  have hu2 : toUChar (-256) = 0 := by decide
  simp [GameOver, exGameOver, lua_State.arg, lua_istable, lua_entries, luaArray, luaArrayFrom,
    gameOverStep, lua_israwnumber, lua_toint, lua_tofloat, h1, h2, hu1, hu2, Game.ValidAllyTeam,
    exLosGame]

/-! ## C27 -/

theorem setUnitHealthStep_other (paralyzeOnMaxHealth : Bool) (B : UnitBuildServices)
    (L : lua_State) (u : CUnit) (kv : LuaValue × LuaValue)
    (hB : ∀ v, (B.FinishedBuilding v).healthState = v.healthState ∧
      (B.TurnIntoNanoframe v).healthState = v.healthState)
    (hkv : kv.1 ≠ .string "health" ∧ kv.1 ≠ .string "paralyze") :
    (setUnitHealthStep paralyzeOnMaxHealth B L u kv).healthState = u.healthState := by
  obtain ⟨k, v⟩ := kv
  obtain ⟨h1, h2⟩ := hkv
  cases k with
  | string s =>
    have hs1 : s ≠ "health" := fun h => h1 (by rw [h])
    have hs2 : s ≠ "paralyze" := fun h => h2 (by rw [h])
    unfold setUnitHealthStep
    by_cases hn : lua_isnumber L v = true
    · simp only [lua_israwstring, hn, Bool.not_true, Bool.or_self, Bool.false_eq_true, if_false,
        lua_tostring, hs1, hs2]
      by_cases hc : s = "capture"
      · simp [hc, CUnit.healthState]
      · by_cases hb : s = "build"
        · subst hb
          simp only [hc, if_false, if_true]
          split
          · rw [(hB _).1]
            rfl
          · rw [(hB _).2]
            rfl
        · simp [hc, hb]
    · simp [hn]
  | nil => simp [setUnitHealthStep, lua_israwstring]
  | boolean b => simp [setUnitHealthStep, lua_israwstring]
  | number x => simp [setUnitHealthStep, lua_israwstring]
  | table es => simp [setUnitHealthStep, lua_israwstring]

theorem setUnitHealth_foldl_other (paralyzeOnMaxHealth : Bool) (B : UnitBuildServices)
    (L : lua_State) (es : List (LuaValue × LuaValue))
    (hB : ∀ v, (B.FinishedBuilding v).healthState = v.healthState ∧
      (B.TurnIntoNanoframe v).healthState = v.healthState)
    (hes : ∀ kv ∈ es, kv.1 ≠ .string "health" ∧ kv.1 ≠ .string "paralyze") (u : CUnit) :
    (es.foldl (setUnitHealthStep paralyzeOnMaxHealth B L) u).healthState = u.healthState := by
  induction es generalizing u with
  | nil => rfl
  | cons kv rest ih =>
    simp only [List.foldl_cons]
    rw [ih (fun kv1 h1 => hes kv1 (List.mem_cons_of_mem _ h1)),
      setUnitHealthStep_other paralyzeOnMaxHealth B L u kv hB (hes kv (List.mem_cons_self _ _))]

theorem setUnitHealthStep_other_id (paralyzeOnMaxHealth : Bool) (B : UnitBuildServices)
    (L : lua_State) (u : CUnit) (kv : LuaValue × LuaValue)
    (hBid : ∀ v, (B.FinishedBuilding v).id = v.id ∧ (B.TurnIntoNanoframe v).id = v.id) :
    (setUnitHealthStep paralyzeOnMaxHealth B L u kv).id = u.id := by
  unfold setUnitHealthStep
  split
  · rfl
  · simp only []
    split_ifs <;> first | rfl | exact (hBid _).1 | exact (hBid _).2

theorem setUnitHealth_foldl_id (paralyzeOnMaxHealth : Bool) (B : UnitBuildServices)
    (L : lua_State) (es : List (LuaValue × LuaValue))
    (hBid : ∀ v, (B.FinishedBuilding v).id = v.id ∧ (B.TurnIntoNanoframe v).id = v.id)
    (u : CUnit) :
    (es.foldl (setUnitHealthStep paralyzeOnMaxHealth B L) u).id = u.id := by
  induction es generalizing u with
  | nil => rfl
  | cons kv rest ih =>
    simp only [List.foldl_cons]
    rw [ih, setUnitHealthStep_other_id paralyzeOnMaxHealth B L u kv hBid]

theorem setUnitHealthStep_health_state (paralyzeOnMaxHealth : Bool) (B : UnitBuildServices)
    (L : lua_State) (u : CUnit) (h : ℚ) :
    (setUnitHealthStep paralyzeOnMaxHealth B L u (.string "health", .number h)).healthState
      = (min u.healthState.2.1 h, u.healthState.2.1, u.healthState.2.2.1, u.healthState.2.2.2) := by
  rw [setUnitHealthStep_health]
  rfl

theorem setUnitHealthStep_paralyze_state (paralyzeOnMaxHealth : Bool) (B : UnitBuildServices)
    (L : lua_State) (u : CUnit) (p : ℚ) :
    (setUnitHealthStep paralyzeOnMaxHealth B L u (.string "paralyze", .number p)).healthState
      = (u.healthState.1, u.healthState.2.1, max 0 p,
          if max 0 p > (if paralyzeOnMaxHealth then u.healthState.2.1 else u.healthState.1)
          then true else if p < 0 then false else u.healthState.2.2.2) := by
  cases paralyzeOnMaxHealth with
  | true =>
    by_cases hc : max 0 p > u.maxHealth
    · simp [setUnitHealthStep, lua_israwstring, lua_isnumber, lua_tostring, lua_tofloat,
        CUnit.SetStunned, CUnit.healthState, hc]
    · by_cases hn : p < 0
      · simp [setUnitHealthStep, lua_israwstring, lua_isnumber, lua_tostring, lua_tofloat,
          CUnit.SetStunned, CUnit.healthState, hc, hn]
      · simp [setUnitHealthStep, lua_israwstring, lua_isnumber, lua_tostring, lua_tofloat,
          CUnit.SetStunned, CUnit.healthState, hc, hn]
  | false =>
    by_cases hc : max 0 p > u.health
    · simp [setUnitHealthStep, lua_israwstring, lua_isnumber, lua_tostring, lua_tofloat,
        CUnit.SetStunned, CUnit.healthState, hc]
    · by_cases hn : p < 0
      · simp [setUnitHealthStep, lua_israwstring, lua_isnumber, lua_tostring, lua_tofloat,
          CUnit.SetStunned, CUnit.healthState, hc, hn]
      · simp [setUnitHealthStep, lua_israwstring, lua_isnumber, lua_tostring, lua_tofloat,
          CUnit.SetStunned, CUnit.healthState, hc, hn]

/-- The health state after a table in which the health entry comes before the
paralyze entry. -/
theorem setUnitHealth_health_first (paralyzeOnMaxHealth : Bool) (B : UnitBuildServices)
    (L : lua_State) (h p : ℚ) (pre mid post : List (LuaValue × LuaValue))
    (hB : ∀ v, (B.FinishedBuilding v).healthState = v.healthState ∧
      (B.TurnIntoNanoframe v).healthState = v.healthState)
    (hother : ∀ kv ∈ pre ++ mid ++ post, kv.1 ≠ .string "health" ∧ kv.1 ≠ .string "paralyze")
    (u : CUnit) :
    ((pre ++ [(LuaValue.string "health", LuaValue.number h)] ++ mid ++ [(LuaValue.string "paralyze", LuaValue.number p)]
        ++ post).foldl (setUnitHealthStep paralyzeOnMaxHealth B L) u).healthState
      = (min u.maxHealth h, u.maxHealth, max 0 p,
          if max 0 p > (if paralyzeOnMaxHealth then u.maxHealth else min u.maxHealth h)
          then true else if p < 0 then false else u.stunned) := by
  have hpre : ∀ kv ∈ pre, kv.1 ≠ .string "health" ∧ kv.1 ≠ .string "paralyze" :=
    fun kv hk => hother kv (by simp [hk])
  have hmid : ∀ kv ∈ mid, kv.1 ≠ .string "health" ∧ kv.1 ≠ .string "paralyze" :=
    fun kv hk => hother kv (by simp [hk])
  have hpost : ∀ kv ∈ post, kv.1 ≠ .string "health" ∧ kv.1 ≠ .string "paralyze" :=
    fun kv hk => hother kv (by simp [hk])
  simp only [List.foldl_append, List.foldl_cons, List.foldl_nil]
  rw [setUnitHealth_foldl_other paralyzeOnMaxHealth B L post hB hpost,
    setUnitHealthStep_paralyze_state,
    setUnitHealth_foldl_other paralyzeOnMaxHealth B L mid hB hmid,
    setUnitHealthStep_health_state,
    setUnitHealth_foldl_other paralyzeOnMaxHealth B L pre hB hpre]
  rfl

/-- The health state after a table in which the paralyze entry comes before
the health entry. -/
theorem setUnitHealth_paralyze_first (paralyzeOnMaxHealth : Bool) (B : UnitBuildServices)
    (L : lua_State) (h p : ℚ) (pre mid post : List (LuaValue × LuaValue))
    (hB : ∀ v, (B.FinishedBuilding v).healthState = v.healthState ∧
      (B.TurnIntoNanoframe v).healthState = v.healthState)
    (hother : ∀ kv ∈ pre ++ mid ++ post, kv.1 ≠ .string "health" ∧ kv.1 ≠ .string "paralyze")
    (u : CUnit) :
    ((pre ++ [(LuaValue.string "paralyze", LuaValue.number p)] ++ mid ++ [(LuaValue.string "health", LuaValue.number h)]
        ++ post).foldl (setUnitHealthStep paralyzeOnMaxHealth B L) u).healthState
      = (min u.maxHealth h, u.maxHealth, max 0 p,
          if max 0 p > (if paralyzeOnMaxHealth then u.maxHealth else u.health)
          then true else if p < 0 then false else u.stunned) := by
  have hpre : ∀ kv ∈ pre, kv.1 ≠ .string "health" ∧ kv.1 ≠ .string "paralyze" :=
    fun kv hk => hother kv (by simp [hk])
  have hmid : ∀ kv ∈ mid, kv.1 ≠ .string "health" ∧ kv.1 ≠ .string "paralyze" :=
    fun kv hk => hother kv (by simp [hk])
  have hpost : ∀ kv ∈ post, kv.1 ≠ .string "health" ∧ kv.1 ≠ .string "paralyze" :=
    fun kv hk => hother kv (by simp [hk])
  simp only [List.foldl_append, List.foldl_cons, List.foldl_nil]
  rw [setUnitHealth_foldl_other paralyzeOnMaxHealth B L post hB hpost,
    setUnitHealthStep_health_state,
    setUnitHealth_foldl_other paralyzeOnMaxHealth B L mid hB hmid,
    setUnitHealthStep_paralyze_state,
    setUnitHealth_foldl_other paralyzeOnMaxHealth B L pre hB hpre]
  rfl

theorem SetUnitHealth_table_state (paralyzeOnMaxHealth : Bool) (B : UnitBuildServices)
    (L : lua_State) (g : Game) (unitID : Int) (unit : CUnit) (es : List (LuaValue × LuaValue))
    (hid : luaL_checkint L (L.arg 1) = .ok unitID)
    (hget : g.GetUnit unitID = some unit)
    (hctl : CanControlUnit L unit = true)
    (htab : L.arg 2 = .table es)
    (hBid : ∀ v, (B.FinishedBuilding v).id = v.id ∧ (B.TurnIntoNanoframe v).id = v.id) :
    (SetUnitHealth paralyzeOnMaxHealth B L g).2 = .ok [] ∧
      (SetUnitHealth paralyzeOnMaxHealth B L g).1.GetUnit unitID
        = some (es.foldl (setUnitHealthStep paralyzeOnMaxHealth B L) unit) := by
  rw [SetUnitHealth_table_eq paralyzeOnMaxHealth B L g unitID unit es hid hget hctl htab]
  exact ⟨rfl, Game.getUnit_modifyUnit_self g hget
    (fun u => es.foldl (setUnitHealthStep paralyzeOnMaxHealth B L) u)
    (fun u => setUnitHealth_foldl_id paralyzeOnMaxHealth B L es hBid u)⟩

/-- C27 as the code has it: `SetUnitHealth` on a unit the caller may control, with a
table that holds a health entry, a paralyze entry and any other entries,
visited in one order and in the order with the two entries exchanged; the
build collaborators leave the id, the health, the maximal health, the
paralyze damage and the stunned flag of a unit alone.  Both calls return
normally and leave the unit with the same health, `min(maxHealth, h)`, and
the same paralyze damage, `max(0, p)`.  The stunned flag is the one that the
paralyze entry yields against the reference value at the time it is visited:
the maximal health when `modInfo.paralyzeOnMaxHealth` is set, and then the
flag is the same in both orders; otherwise the health of the unit, which is
the new health when the health entry was visited first and the old health
when it was not. -/
theorem SetUnitHealth_order (paralyzeOnMaxHealth : Bool) (B : UnitBuildServices)
    (L : lua_State) (g : Game) (a : LuaValue) (unitID : Int) (unit : CUnit) (h p : ℚ)
    (pre mid post : List (LuaValue × LuaValue))
    (hid : luaL_checkint L a = .ok unitID)
    (hget : g.GetUnit unitID = some unit)
    (hctl : CanControlUnit L unit = true)
    (hother : ∀ kv ∈ pre ++ mid ++ post, kv.1 ≠ .string "health" ∧ kv.1 ≠ .string "paralyze")
    (hB : ∀ v, (B.FinishedBuilding v).healthState = v.healthState ∧
      (B.TurnIntoNanoframe v).healthState = v.healthState)
    (hBid : ∀ v, (B.FinishedBuilding v).id = v.id ∧ (B.TurnIntoNanoframe v).id = v.id) :
    ∃ u1 u2 : CUnit,
      (SetUnitHealth paralyzeOnMaxHealth B
          { L with stack := [a, .table (pre ++ [(LuaValue.string "health", LuaValue.number h)] ++ mid
            ++ [(LuaValue.string "paralyze", LuaValue.number p)] ++ post)] } g).2 = .ok [] ∧
      (SetUnitHealth paralyzeOnMaxHealth B
          { L with stack := [a, .table (pre ++ [(LuaValue.string "health", LuaValue.number h)] ++ mid
            ++ [(LuaValue.string "paralyze", LuaValue.number p)] ++ post)] } g).1.GetUnit unitID = some u1 ∧
      (SetUnitHealth paralyzeOnMaxHealth B
          { L with stack := [a, .table (pre ++ [(LuaValue.string "paralyze", LuaValue.number p)] ++ mid
            ++ [(LuaValue.string "health", LuaValue.number h)] ++ post)] } g).2 = .ok [] ∧
      (SetUnitHealth paralyzeOnMaxHealth B
          { L with stack := [a, .table (pre ++ [(LuaValue.string "paralyze", LuaValue.number p)] ++ mid
            ++ [(LuaValue.string "health", LuaValue.number h)] ++ post)] } g).1.GetUnit unitID = some u2 ∧
      u1.health = min unit.maxHealth h ∧ u2.health = min unit.maxHealth h ∧
      u1.paralyzeDamage = max 0 p ∧ u2.paralyzeDamage = max 0 p ∧
      u1.stunned = (if max 0 p > (if paralyzeOnMaxHealth then unit.maxHealth
          else min unit.maxHealth h) then true else if p < 0 then false else unit.stunned) ∧
      u2.stunned = (if max 0 p > (if paralyzeOnMaxHealth then unit.maxHealth
          else unit.health) then true else if p < 0 then false else unit.stunned) ∧
      (paralyzeOnMaxHealth = true → u1.stunned = u2.stunned) := by
  have hs1 := SetUnitHealth_table_state paralyzeOnMaxHealth B
    { L with stack := [a, .table (pre ++ [(LuaValue.string "health", LuaValue.number h)] ++ mid
      ++ [(LuaValue.string "paralyze", LuaValue.number p)] ++ post)] } g unitID unit _ hid hget hctl rfl hBid
  have hs2 := SetUnitHealth_table_state paralyzeOnMaxHealth B
    { L with stack := [a, .table (pre ++ [(LuaValue.string "paralyze", LuaValue.number p)] ++ mid
      ++ [(LuaValue.string "health", LuaValue.number h)] ++ post)] } g unitID unit _ hid hget hctl rfl hBid
  have e1 := setUnitHealth_health_first paralyzeOnMaxHealth B
    { L with stack := [a, .table (pre ++ [(LuaValue.string "health", LuaValue.number h)] ++ mid
      ++ [(LuaValue.string "paralyze", LuaValue.number p)] ++ post)] } h p pre mid post hB hother unit
  have e2 := setUnitHealth_paralyze_first paralyzeOnMaxHealth B
    { L with stack := [a, .table (pre ++ [(LuaValue.string "paralyze", LuaValue.number p)] ++ mid
      ++ [(LuaValue.string "health", LuaValue.number h)] ++ post)] } h p pre mid post hB hother unit
  have e1s : _ = _ := congrArg (fun s => s.2.2.2) e1
  have e2s : _ = _ := congrArg (fun s => s.2.2.2) e2
  refine ⟨_, _, hs1.1, hs1.2, hs2.1, hs2.2, congrArg (fun s => s.1) e1, congrArg (fun s => s.1) e2,
    congrArg (fun s => s.2.2.1) e1, congrArg (fun s => s.2.2.1) e2, e1s, e2s, ?_⟩
  intro hp
  subst hp
  exact e1s.trans e2s.symm

theorem SetUnitHealth_order_witness :
    ∃ u1 u2 : CUnit,
      (SetUnitHealth true exBuild exHealthFirst exHealthGame).1.GetUnit 7 = some u1 ∧
      (SetUnitHealth true exBuild exParalyzeFirst exHealthGame).1.GetUnit 7 = some u2 ∧
      u1.health = 5 ∧ u2.health = 5 ∧ u1.paralyzeDamage = 10 ∧ u2.paralyzeDamage = 10 ∧
      u1.stunned = u2.stunned := by
  obtain ⟨u1, u2, _, h1, _, h2, h3, h4, h5, h6, _, _, h9⟩ := SetUnitHealth_order true exBuild
    {} exHealthGame (.number 7) 7 { id := 7, team := 0, health := 80, maxHealth := 100 } 5 10
    [] [] []
    (by simp [luaL_checkint, lua_isnumber, lua_toint, lua_tofloat, lua_number2int])
    (by simp [Game.GetUnit, exHealthGame, List.find?])
    (by simp [CanControlUnit, CanControlTeam, FullCtrl])
    (by simp)
    (fun _ => ⟨rfl, rfl⟩) (fun _ => ⟨rfl, rfl⟩)
  refine ⟨u1, u2, h1, h2, ?_, ?_, ?_, ?_, h9 rfl⟩
  · rw [h3]; norm_num
  · rw [h4]; norm_num
  · rw [h5]; norm_num
  · rw [h6]; norm_num

/-- C27, counterexample to the independence of the order: with
`modInfo.paralyzeOnMaxHealth` not set, on unit 7 with 80 of 100 health and
not stunned, the table with health 5 and paralyze 10 leaves the unit stunned
when the health entry is visited first (10 is above the new health 5) and
not stunned when the paralyze entry is visited first (10 is not above the
old health 80). -/
theorem SetUnitHealth_stun_depends_on_order :
    ((SetUnitHealth false exBuild exHealthFirst exHealthGame).1.GetUnit 7).map
        (fun u => (u.health, u.paralyzeDamage, u.stunned)) = some (5, 10, true) ∧
      ((SetUnitHealth false exBuild exParalyzeFirst exHealthGame).1.GetUnit 7).map
        (fun u => (u.health, u.paralyzeDamage, u.stunned)) = some (5, 10, false) := by
  have hget : exHealthGame.GetUnit 7
      = some { id := 7, team := 0, health := 80, maxHealth := 100 } := by
    simp [Game.GetUnit, exHealthGame, List.find?]
  have hid1 : luaL_checkint exHealthFirst (exHealthFirst.arg 1) = .ok 7 := by
    simp [luaL_checkint, lua_isnumber, lua_toint, lua_tofloat, lua_number2int, lua_State.arg,
      exHealthFirst]
  have hid2 : luaL_checkint exParalyzeFirst (exParalyzeFirst.arg 1) = .ok 7 := by
    simp [luaL_checkint, lua_isnumber, lua_toint, lua_tofloat, lua_number2int, lua_State.arg,
      exParalyzeFirst]
  have hs1 := SetUnitHealth_table_state false exBuild exHealthFirst exHealthGame 7 _
    [(.string "health", .number 5), (.string "paralyze", .number 10)] hid1 hget
    (by simp [CanControlUnit, CanControlTeam, FullCtrl, exHealthFirst]) rfl (fun _ => ⟨rfl, rfl⟩)
  have hs2 := SetUnitHealth_table_state false exBuild exParalyzeFirst exHealthGame 7 _
    [(.string "paralyze", .number 10), (.string "health", .number 5)] hid2 hget
    (by simp [CanControlUnit, CanControlTeam, FullCtrl, exParalyzeFirst]) rfl (fun _ => ⟨rfl, rfl⟩)
  constructor
  · rw [hs1.2]
    simp only [List.foldl_cons, List.foldl_nil, setUnitHealthStep_health,
      setUnitHealthStep_paralyze _ _ _ _ _ (by norm_num : (0 : ℚ) ≤ 10), Option.map_some']
    norm_num
  · rw [hs2.2]
    simp only [List.foldl_cons, List.foldl_nil, setUnitHealthStep_health,
      setUnitHealthStep_paralyze _ _ _ _ _ (by norm_num : (0 : ℚ) ≤ 10), Option.map_some']
    norm_num

/-! ## C28 -/

theorem lua_number2int_nonneg (x : ℚ) (h : 0 ≤ x) : lua_number2int x = ⌊x⌋ := by
  unfold lua_number2int
  rw [Rat.floor_def, Int.tdiv_eq_ediv (Rat.num_nonneg.mpr h) (by positivity)]

theorem lua_number2int_neg (x : ℚ) : lua_number2int (-x) = -lua_number2int x := by
  unfold lua_number2int
  rw [Rat.neg_num, Rat.neg_den, Int.neg_tdiv]

theorem lua_number2int_nonpos (x : ℚ) (h : x ≤ 0) : lua_number2int x = ⌈x⌉ := by
  have h1 := lua_number2int_nonneg (-x) (by linarith)
  rw [lua_number2int_neg, Int.floor_neg] at h1
  linarith

/-- Truncation towards zero is monotone. -/
theorem lua_number2int_mono {x y : ℚ} (h : x ≤ y) : lua_number2int x ≤ lua_number2int y := by
  by_cases hx : 0 ≤ x
  · rw [lua_number2int_nonneg x hx, lua_number2int_nonneg y (le_trans hx h)]
    exact Int.floor_mono h
  · have hx1 : x ≤ 0 := le_of_lt (not_le.mp hx)
    rw [lua_number2int_nonpos x hx1]
    by_cases hy : 0 ≤ y
    · rw [lua_number2int_nonneg y hy]
      have h1 : ⌈x⌉ ≤ 0 := Int.ceil_le.mpr (by simpa using hx1)
      have h2 : (0 : Int) ≤ ⌊y⌋ := Int.le_floor.mpr (by simpa using hy)
      exact le_trans h1 h2
    · rw [lua_number2int_nonpos y (le_of_lt (not_le.mp hy))]
      exact Int.ceil_mono h

theorem std_clamp_mem_int (v lo hi : Int) (h : lo ≤ hi) :
    lo ≤ std_clamp v lo hi ∧ std_clamp v lo hi ≤ hi := by
  unfold std_clamp
  split_ifs <;> omega

theorem std_clamp_mono_int {v w : Int} (lo hi : Int) (h : lo ≤ hi) (hvw : v ≤ w) :
    std_clamp v lo hi ≤ std_clamp w lo hi := by
  unfold std_clamp
  split_ifs <;> omega

theorem mem_loopRange (a b i : Int) : i ∈ loopRange a b ↔ a ≤ i ∧ i ≤ b := by
  unfold loopRange
  simp only [List.mem_map, List.mem_range]
  constructor
  · rintro ⟨k, hk, rfl⟩
    omega
  · rintro ⟨h1, h2⟩
    exact ⟨(i - a).toNat, by omega, by omega⟩

theorem mem_rectIndices (r : MapRect) (stride idx : Int) :
    idx ∈ rectIndices r stride ↔
      ∃ z x, r.z1 ≤ z ∧ z ≤ r.z2 ∧ r.x1 ≤ x ∧ x ≤ r.x2 ∧ idx = (z * stride) + x := by
  unfold rectIndices
  simp only [List.mem_flatMap, List.mem_map, mem_loopRange]
  constructor
  · rintro ⟨z, ⟨hz1, hz2⟩, x, ⟨hx1, hx2⟩, rfl⟩
    exact ⟨z, x, hz1, hz2, hx1, hx2, rfl⟩
  · rintro ⟨z, x, hz1, hz2, hx1, hx2, rfl⟩
    exact ⟨z, ⟨hz1, hz2⟩, x, ⟨hx1, hx2⟩, rfl⟩

theorem index_in_range (x z stride rows : Int) (hx0 : 0 ≤ x) (hx : x < stride) (hz0 : 0 ≤ z)
    (hz : z < rows) : 0 ≤ (z * stride) + x ∧ (z * stride) + x < stride * rows := by
  have h1 : 0 ≤ z * stride := mul_nonneg hz0 (by omega)
  have h2 : (z + 1) * stride ≤ rows * stride := mul_le_mul_of_nonneg_right (by omega) (by omega)
  constructor
  · linarith
  · nlinarith

theorem rectIndices_in_range (r : MapRect) (stride rows : Int)
    (hx1 : 0 ≤ r.x1) (hx2 : r.x2 < stride) (hz1 : 0 ≤ r.z1) (hz2 : r.z2 < rows) :
    ∀ idx ∈ rectIndices r stride, 0 ≤ idx ∧ idx < stride * rows := by
  intro idx hidx
  obtain ⟨z, x, h1, h2, h3, h4, rfl⟩ := (mem_rectIndices r stride idx).mp hidx
  exact index_in_range x z stride rows (by omega) (by omega) (by omega) (by omega)

theorem foldl_SetHeight_frame (idxs : List Int) (h : ℚ) (g : Game) (j : Int) (hj : j ∉ idxs) :
    (idxs.foldl (fun g1 idx => g1.SetHeight idx h) g).heightMap j = g.heightMap j := by
  induction idxs generalizing g with
  | nil => rfl
  | cons a as ih =>
    have hja : j ≠ a := fun e => hj (e ▸ List.mem_cons_self _ _)
    simp only [List.foldl_cons]
    rw [ih _ (fun hm => hj (List.mem_cons_of_mem _ hm))]
    simp [Game.SetHeight, Function.update, hja]

theorem foldl_AddHeight_frame (idxs : List Int) (h : ℚ) (g : Game) (j : Int) (hj : j ∉ idxs) :
    (idxs.foldl (fun g1 idx => g1.AddHeight idx h) g).heightMap j = g.heightMap j := by
  induction idxs generalizing g with
  | nil => rfl
  | cons a as ih =>
    have hja : j ≠ a := fun e => hj (e ▸ List.mem_cons_self _ _)
    simp only [List.foldl_cons]
    rw [ih _ (fun hm => hj (List.mem_cons_of_mem _ hm))]
    simp [Game.AddHeight, Function.update, hja]

theorem foldl_SetSmoothHeight_frame (idxs : List Int) (h : ℚ) (g : Game) (j : Int)
    (hj : j ∉ idxs) :
    (idxs.foldl (fun g1 idx => g1.SetSmoothHeight idx h) g).smoothMesh j = g.smoothMesh j := by
  induction idxs generalizing g with
  | nil => rfl
  | cons a as ih =>
    have hja : j ≠ a := fun e => hj (e ▸ List.mem_cons_self _ _)
    simp only [List.foldl_cons]
    rw [ih _ (fun hm => hj (List.mem_cons_of_mem _ hm))]
    simp [Game.SetSmoothHeight, Function.update, hja]

theorem float2int_of_in_range (x : ℚ)
    (h : INT_MIN ≤ lua_number2int x ∧ lua_number2int x ≤ INT_MAX) :
    float2int x = lua_number2int x := by
  unfold float2int
  rw [if_pos h]

theorem float2int_mono_in_range {x y : ℚ}
    (hx : INT_MIN ≤ lua_number2int x ∧ lua_number2int x ≤ INT_MAX)
    (hy : INT_MIN ≤ lua_number2int y ∧ lua_number2int y ≤ INT_MAX) (h : x ≤ y) :
    float2int x ≤ float2int y := by
  rw [float2int_of_in_range x hx, float2int_of_in_range y hy]
  exact lua_number2int_mono h

theorem ParseParams_point_eq (L : lua_State) (resolution maxX maxZ : Int) (a b c : LuaValue)
    (hs : L.stack = [a, b, c]) (ha : lua_isnumber L a = true) (hb : lua_isnumber L b = true)
    (hc : lua_isnumber L c = true) :
    ParseParams L resolution maxX maxZ
      = .ok { factor := lua_tofloat L c,
              x1 := std_clamp (float2int (lua_tofloat L a / (resolution : ℚ))) 0 maxX,
              z1 := std_clamp (float2int (lua_tofloat L b / (resolution : ℚ))) 0 maxZ,
              x2 := std_clamp (float2int (lua_tofloat L a / (resolution : ℚ))) 0 maxX,
              z2 := std_clamp (float2int (lua_tofloat L b / (resolution : ℚ))) 0 maxZ } := by
  simp [ParseParams, hs, lua_State.arg, luaL_checkfloat, ha, hb, hc]

theorem ParseParams_rect_eq (L : lua_State) (resolution maxX maxZ : Int) (a b c d e : LuaValue)
    (hs : L.stack = [a, b, c, d, e]) (ha : lua_isnumber L a = true)
    (hb : lua_isnumber L b = true) (hc : lua_isnumber L c = true) (hd : lua_isnumber L d = true)
    (he : lua_isnumber L e = true) :
    ParseParams L resolution maxX maxZ
      = .ok { factor := lua_tofloat L e,
              x1 := std_clamp (float2int
                ((if lua_tofloat L a > lua_tofloat L c then lua_tofloat L c else lua_tofloat L a)
                  / (resolution : ℚ))) 0 maxX,
              z1 := std_clamp (float2int
                ((if lua_tofloat L b > lua_tofloat L d then lua_tofloat L d else lua_tofloat L b)
                  / (resolution : ℚ))) 0 maxZ,
              x2 := std_clamp (float2int
                ((if lua_tofloat L a > lua_tofloat L c then lua_tofloat L a else lua_tofloat L c)
                  / (resolution : ℚ))) 0 maxX,
              z2 := std_clamp (float2int
                ((if lua_tofloat L b > lua_tofloat L d then lua_tofloat L b else lua_tofloat L d)
                  / (resolution : ℚ))) 0 maxZ } := by
  simp [ParseParams, hs, lua_State.arg, luaL_checkfloat, ha, hb, hc, hd, he]

/-- On three or five numeric arguments `ParseParams` returns a rectangle whose
corners lie between 0 and the maxima, whatever the casts yield.  The corners
are ordered when every coordinate, divided by the resolution and truncated,
fits the 32-bit `int`. -/
theorem ParseParams_bounds (L : lua_State) (resolution maxX maxZ : Int)
    (hargs : L.stack.length = 3 ∨ L.stack.length = 5)
    (hnum : ∀ v ∈ L.stack, lua_isnumber L v = true)
    (hres : 0 < resolution) (hX : 0 ≤ maxX) (hZ : 0 ≤ maxZ) :
    ∃ r, ParseParams L resolution maxX maxZ = .ok r ∧
      0 ≤ r.x1 ∧ r.x1 ≤ maxX ∧ 0 ≤ r.x2 ∧ r.x2 ≤ maxX ∧
      0 ≤ r.z1 ∧ r.z1 ≤ maxZ ∧ 0 ≤ r.z2 ∧ r.z2 ≤ maxZ ∧
      ((∀ v ∈ L.stack.dropLast,
          INT_MIN ≤ lua_number2int (lua_tofloat L v / (resolution : ℚ)) ∧
          lua_number2int (lua_tofloat L v / (resolution : ℚ)) ≤ INT_MAX) →
        r.x1 ≤ r.x2 ∧ r.z1 ≤ r.z2) := by
  have hresq : (0 : ℚ) < (resolution : ℚ) := by exact_mod_cast hres
  rcases hargs with h3 | h5
  · obtain ⟨a, b, c, hs⟩ := List.length_eq_three.mp h3
    have ha : lua_isnumber L a = true := hnum a (by simp [hs])
    have hb : lua_isnumber L b = true := hnum b (by simp [hs])
    have hc : lua_isnumber L c = true := hnum c (by simp [hs])
    refine ⟨_, ParseParams_point_eq L resolution maxX maxZ a b c hs ha hb hc, ?_⟩
    exact ⟨(std_clamp_mem_int _ 0 maxX hX).1, (std_clamp_mem_int _ 0 maxX hX).2,
      (std_clamp_mem_int _ 0 maxX hX).1, (std_clamp_mem_int _ 0 maxX hX).2,
      (std_clamp_mem_int _ 0 maxZ hZ).1, (std_clamp_mem_int _ 0 maxZ hZ).2,
      (std_clamp_mem_int _ 0 maxZ hZ).1, (std_clamp_mem_int _ 0 maxZ hZ).2,
      fun _ => ⟨le_refl _, le_refl _⟩⟩
  · obtain ⟨a, b, c, d, e, hs⟩ : ∃ a b c d e, L.stack = [a, b, c, d, e] := by
      match hst : L.stack, h5 with
      | [a, b, c, d, e], _ => exact ⟨a, b, c, d, e, rfl⟩
    have ha : lua_isnumber L a = true := hnum a (by simp [hs])
    have hb : lua_isnumber L b = true := hnum b (by simp [hs])
    have hc : lua_isnumber L c = true := hnum c (by simp [hs])
    have hd : lua_isnumber L d = true := hnum d (by simp [hs])
    have he : lua_isnumber L e = true := hnum e (by simp [hs])
    refine ⟨_, ParseParams_rect_eq L resolution maxX maxZ a b c d e hs ha hb hc hd he, ?_⟩
    refine ⟨(std_clamp_mem_int _ 0 maxX hX).1, (std_clamp_mem_int _ 0 maxX hX).2,
      (std_clamp_mem_int _ 0 maxX hX).1, (std_clamp_mem_int _ 0 maxX hX).2,
      (std_clamp_mem_int _ 0 maxZ hZ).1, (std_clamp_mem_int _ 0 maxZ hZ).2,
      (std_clamp_mem_int _ 0 maxZ hZ).1, (std_clamp_mem_int _ 0 maxZ hZ).2, ?_⟩
    intro hfit
    have hfa := hfit a (by simp [hs, List.dropLast])
    have hfb := hfit b (by simp [hs, List.dropLast])
    have hfc := hfit c (by simp [hs, List.dropLast])
    have hfd := hfit d (by simp [hs, List.dropLast])
    constructor
    · apply std_clamp_mono_int 0 maxX hX
      by_cases hgt : lua_tofloat L a > lua_tofloat L c
      · simp only [hgt, if_true]
        exact float2int_mono_in_range hfc hfa
          (div_le_div_of_nonneg_right (le_of_lt hgt) (le_of_lt hresq))
      · simp only [hgt, if_false]
        exact float2int_mono_in_range hfa hfc
          (div_le_div_of_nonneg_right (not_lt.mp hgt) (le_of_lt hresq))
    · apply std_clamp_mono_int 0 maxZ hZ
      by_cases hgt : lua_tofloat L b > lua_tofloat L d
      · simp only [hgt, if_true]
        exact float2int_mono_in_range hfd hfb
          (div_le_div_of_nonneg_right (le_of_lt hgt) (le_of_lt hresq))
      · simp only [hgt, if_false]
        exact float2int_mono_in_range hfb hfd
          (div_le_div_of_nonneg_right (not_lt.mp hgt) (le_of_lt hresq))

/-- What holds of the height-field functions on three or five numeric
arguments, whatever the casts yield: `LevelHeightMap` and `AdjustHeightMap`
write the indices `z * (mapx + 1) + x` of the parsed rectangle (none when map
damage is disabled), each of which lies in `[0, (mapx + 1) * (mapy + 1))`,
and no height outside that range changes; `LevelSmoothMesh` writes the
indices `z * MaxX + x` of the parsed rectangle, each of which lies in
`[0, MaxX * MaxY)`, and no mesh height outside that range changes. -/
theorem height_field_indices_in_range (L : lua_State)
    (hargs : L.stack.length = 3 ∨ L.stack.length = 5)
    (hnum : ∀ v ∈ L.stack, lua_isnumber L v = true) :
    (∀ (M : MapServices) (g : Game), 0 < M.SQUARE_SIZE → 0 ≤ M.mapx → 0 ≤ M.mapy →
      ∃ r, ParseMapParams M L = .ok r ∧
        LevelHeightMap M L g
          = (if M.Disabled then g
              else (rectIndices r (M.mapx + 1)).foldl (fun g1 idx => g1.SetHeight idx r.factor) g,
             .ok []) ∧
        AdjustHeightMap M L g
          = (if M.Disabled then g
              else (rectIndices r (M.mapx + 1)).foldl (fun g1 idx => g1.AddHeight idx r.factor) g,
             .ok []) ∧
        (∀ idx ∈ rectIndices r (M.mapx + 1), 0 ≤ idx ∧ idx < (M.mapx + 1) * (M.mapy + 1)) ∧
        (∀ idx, ¬ (0 ≤ idx ∧ idx < (M.mapx + 1) * (M.mapy + 1)) →
          (LevelHeightMap M L g).1.heightMap idx = g.heightMap idx ∧
          (AdjustHeightMap M L g).1.heightMap idx = g.heightMap idx)) ∧
    (∀ (S : SmoothGround) (g : Game), 0 < S.GetResolution → 1 ≤ S.GetMaxX → 1 ≤ S.GetMaxY →
      ∃ r, ParseSmoothMeshParams S L = .ok r ∧
        LevelSmoothMesh S L g
          = ((rectIndices r S.GetMaxX).foldl (fun g1 idx => g1.SetSmoothHeight idx r.factor) g,
             .ok []) ∧
        (∀ idx ∈ rectIndices r S.GetMaxX, 0 ≤ idx ∧ idx < S.GetMaxX * S.GetMaxY) ∧
        (∀ idx, ¬ (0 ≤ idx ∧ idx < S.GetMaxX * S.GetMaxY) →
          (LevelSmoothMesh S L g).1.smoothMesh idx = g.smoothMesh idx)) := by
  refine ⟨?_, ?_⟩
  · intro M g hsq hmx hmy
    obtain ⟨r, hr, h1, h2, h3, h4, h5, h6, h7, h8, _⟩ :=
      ParseParams_bounds L M.SQUARE_SIZE M.mapx M.mapy hargs hnum hsq hmx hmy
    have hin := rectIndices_in_range r (M.mapx + 1) (M.mapy + 1) h1 (by omega) h5 (by omega)
    have hl : LevelHeightMap M L g
        = (if M.Disabled then g
            else (rectIndices r (M.mapx + 1)).foldl (fun g1 idx => g1.SetHeight idx r.factor) g,
           .ok []) := by
      cases hd : M.Disabled <;> simp [LevelHeightMap, ParseMapParams, hr, hd]
    have ha : AdjustHeightMap M L g
        = (if M.Disabled then g
            else (rectIndices r (M.mapx + 1)).foldl (fun g1 idx => g1.AddHeight idx r.factor) g,
           .ok []) := by
      cases hd : M.Disabled <;> simp [AdjustHeightMap, ParseMapParams, hr, hd]
    refine ⟨r, hr, hl, ha, hin, ?_⟩
    intro idx hidx
    have hnot : idx ∉ rectIndices r (M.mapx + 1) := fun hm => hidx (hin idx hm)
    rw [hl, ha]
    cases hd : M.Disabled
    · exact ⟨foldl_SetHeight_frame _ _ g idx hnot, foldl_AddHeight_frame _ _ g idx hnot⟩
    · exact ⟨rfl, rfl⟩
  · intro S g hres hmx hmy
    obtain ⟨r, hr, h1, h2, h3, h4, h5, h6, h7, h8, _⟩ :=
      ParseParams_bounds L S.GetResolution (S.GetMaxX - 1) (S.GetMaxY - 1) hargs hnum hres
        (by omega) (by omega)
    have hin := rectIndices_in_range r S.GetMaxX S.GetMaxY h1 (by omega) h5 (by omega)
    have hl : LevelSmoothMesh S L g
        = ((rectIndices r S.GetMaxX).foldl (fun g1 idx => g1.SetSmoothHeight idx r.factor) g,
           .ok []) := by
      simp [LevelSmoothMesh, ParseSmoothMeshParams, hr]
    refine ⟨r, hr, hl, hin, ?_⟩
    intro idx hidx
    have hnot : idx ∉ rectIndices r S.GetMaxX := fun hm => hidx (hin idx hm)
    rw [hl]
    exact foldl_SetSmoothHeight_frame _ _ g idx hnot

/-- C28, the code at the failing input: on a map of 4 by 4 squares of size 8,
`LevelHeightMap(16, 0, 1e20, 0, 3)`.  The corners are given in order
(16 ≤ 1e20), so `ParseParams` does not swap them.  The first quotient 2 is
cast to 2; the second quotient, 1.25e19, does not fit the 32-bit `int`, the
cast yields `INT_MIN`, and the clamp turns it into 0: the rectangle returned
has `x1 = 2` and `x2 = 0`, so `x1 ≤ x2` fails, the loops visit no index, and
the call levels nothing. -/
theorem ParseParams_out_of_range_corner_inverts_rectangle :
    lua_tofloat exHugeRect (exHugeRect.arg 1) ≤ lua_tofloat exHugeRect (exHugeRect.arg 3) ∧
      float2int (lua_tofloat exHugeRect (exHugeRect.arg 1) / 8) = 2 ∧
      float2int (lua_tofloat exHugeRect (exHugeRect.arg 3) / 8) = INT_MIN ∧
      ParseMapParams exMap exHugeRect
        = .ok { factor := 3, x1 := 2, z1 := 0, x2 := 0, z2 := 0 } ∧
      ¬ ((2 : Int) ≤ 0) ∧
      rectIndices { factor := 3, x1 := 2, z1 := 0, x2 := 0, z2 := 0 } (exMap.mapx + 1) = [] ∧
      (LevelHeightMap exMap exHugeRect exHeightGame).1.heightMap = exHeightGame.heightMap := by
  have ha : lua_tofloat exHugeRect (exHugeRect.arg 1) = 16 := by
    simp [lua_tofloat, lua_State.arg, exHugeRect]
  have hc : lua_tofloat exHugeRect (exHugeRect.arg 3) = 100000000000000000000 := by
    simp [lua_tofloat, lua_State.arg, exHugeRect]
  have q1 : (16 : ℚ) / 8 = ((2 : Int) : ℚ) := by norm_num
  have q2 : (100000000000000000000 : ℚ) / 8 = ((12500000000000000000 : Int) : ℚ) := by norm_num
  have q0 : (0 : ℚ) / 8 = ((0 : Int) : ℚ) := by norm_num
  have f1 : float2int ((16 : ℚ) / 8) = 2 := by
    rw [q1, float2int, lua_number2int_intCast]
    decide
  have f2 : float2int ((100000000000000000000 : ℚ) / 8) = INT_MIN := by
    rw [q2, float2int, lua_number2int_intCast]
    decide
  have f0 : float2int ((0 : ℚ) / 8) = 0 := by
    rw [q0, float2int, lua_number2int_intCast]
    decide
  have hparse : ParseMapParams exMap exHugeRect
      = .ok { factor := 3, x1 := 2, z1 := 0, x2 := 0, z2 := 0 } := by
    unfold ParseMapParams
    rw [ParseParams_rect_eq exHugeRect exMap.SQUARE_SIZE exMap.mapx exMap.mapy
      (.number 16) (.number 0) (.number 100000000000000000000) (.number 0) (.number 3)
      rfl rfl rfl rfl rfl rfl]
    have g1 : ¬ ((16 : ℚ) > 100000000000000000000) := by norm_num
    simp only [lua_tofloat, g1, if_false, gt_iff_lt, lt_self_iff_false, exMap]
    have e8 : (((8 : Int) : ℚ)) = 8 := by norm_num
    rw [e8, f1, f2, f0]
    simp [std_clamp, INT_MIN]
  have hidx : rectIndices { factor := 3, x1 := 2, z1 := 0, x2 := 0, z2 := 0 } (exMap.mapx + 1)
      = [] := by
    simp [rectIndices, loopRange]
  refine ⟨by rw [ha, hc]; norm_num, by rw [ha]; exact f1, by rw [hc]; exact f2, hparse,
    by decide, hidx, ?_⟩
  simp only [LevelHeightMap, hparse]
  rw [hidx]
  simp

/-! ## C29 -/

theorem AddHeightMap_flag (M : MapServices) (L : lua_State) (g : Game) :
    (AddHeightMap M L g).1.inHeightMap = g.inHeightMap := by
  unfold AddHeightMap
  split
  · rfl
  · split
    · rfl
    · split
      · rfl
      · split
        · rfl
        · simp only []
          split <;> rfl

theorem SetHeightMap_flag (M : MapServices) (L : lua_State) (g : Game) :
    (SetHeightMap M L g).1.inHeightMap = g.inHeightMap := by
  unfold SetHeightMap
  split
  · rfl
  · split
    · rfl
    · split
      · rfl
      · split
        · rfl
        · simp only []
          split <;> rfl

theorem SetHeightMapFunc_flag (M : MapServices) (callback : Option (Game → Game × LuaResult))
    (g : Game) : (SetHeightMapFunc M callback g).1.inHeightMap = g.inHeightMap := by
  unfold SetHeightMapFunc
  split
  · rfl
  · cases callback with
    | none => rfl
    | some f =>
      simp only []
      cases hflag : g.inHeightMap with
      | true => simp [hflag]
      | false =>
        simp only [Bool.false_eq_true, if_false]
        split <;> rfl

theorem runMapScript_flag (M : MapServices) (L : lua_State) (s : MapScript) (g : Game) :
    (runMapScript M L s g).1.inHeightMap = g.inHeightMap := by
  induction s generalizing g with
  | done => rfl
  | raise => rfl
  | addHeightMap args next ih =>
    have h := AddHeightMap_flag M { L with stack := args } g
    simp only [runMapScript]
    rcases hr : AddHeightMap M { L with stack := args } g with ⟨g1, r⟩
    rw [hr] at h
    cases r with
    | error e => exact h
    | ok v => exact (ih g1).trans h
  | setHeightMap args next ih =>
    have h := SetHeightMap_flag M { L with stack := args } g
    simp only [runMapScript]
    rcases hr : SetHeightMap M { L with stack := args } g with ⟨g1, r⟩
    rw [hr] at h
    cases r with
    | error e => exact h
    | ok v => exact (ih g1).trans h
  | setHeightMapFunc callback next _ ih =>
    have h := SetHeightMapFunc_flag M (some (runMapScript M L callback)) g
    simp only [runMapScript]
    rcases hr : SetHeightMapFunc M (some (runMapScript M L callback)) g with ⟨g1, r⟩
    rw [hr] at h
    cases r with
    | error e => exact h
    | ok v => exact (ih g1).trans h
  | setHeightMapFuncNoFunction next ih =>
    have h := SetHeightMapFunc_flag M none g
    simp only [runMapScript]
    rcases hr : SetHeightMapFunc M none g with ⟨g1, r⟩
    rw [hr] at h
    cases r with
    | error e => exact h
    | ok v => exact (ih g1).trans h
  | pcall body next ih1 ih2 =>
    simp only [runMapScript]
    exact (ih2 _).trans (ih1 g)

/-- C29: (1) `PushEntries` leaves the in-height-map flag false, and every
chunk of calls to `AddHeightMap`, `SetHeightMap` and `SetHeightMapFunc`,
nested and under `pcall` as it may be, leaves the flag as it found it: it is
false whenever no callback is running and true throughout a callback.
(2) `SetHeightMapFunc` called with the flag false leaves it false, whether
the callback returned or raised; (3) when map damage is enabled it runs the
callback on a state whose flag is true and whose height map is the one on
entry, keeps the heights the callback left, and raises when the callback
raised.  (4) With map damage enabled, a call of `SetHeightMapFunc` while
the flag is true, that is a nested call, raises and changes nothing.
(5) With the flag false, `AddHeightMap` and `SetHeightMap` raise and change
nothing, the height map included.  (6) With map damage disabled,
`SetHeightMapFunc` returns at once and runs no callback, so the flag is
never set. -/
theorem height_map_edit_window (M : MapServices) (L : lua_State) :
    (∀ (s : MapScript) (g : Game),
      (PushEntries g).inHeightMap = false ∧
      (runMapScript M L s g).1.inHeightMap = g.inHeightMap) ∧
    (∀ (callback : Option (Game → Game × LuaResult)) (g : Game), g.inHeightMap = false →
      (SetHeightMapFunc M callback g).1.inHeightMap = false) ∧
    (∀ (f : Game → Game × LuaResult) (g : Game), M.Disabled = false → g.inHeightMap = false →
      ∃ g1, g1.inHeightMap = true ∧ g1.heightMap = g.heightMap ∧
        (SetHeightMapFunc M (some f) g).1.heightMap = (f g1).1.heightMap ∧
        ∀ e, (f g1).2 = .error e → (SetHeightMapFunc M (some f) g).2 = .error e) ∧
    (∀ (f : Game → Game × LuaResult) (g : Game), M.Disabled = false → g.inHeightMap = true →
      SetHeightMapFunc M (some f) g
        = (g, .error "SetHeightMapFunc() recursion is not permitted") ∧
      SetHeightMapFunc M none g
        = (g, .error "Incorrect arguments to Spring.SetHeightMapFunc(func, ...)")) ∧
    (∀ (L1 : lua_State) (g : Game), g.inHeightMap = false →
      AddHeightMap M L1 g
        = (g, .error "AddHeightMap() can only be called in SetHeightMapFunc()") ∧
      SetHeightMap M L1 g
        = (g, .error "SetHeightMap() can only be called in SetHeightMapFunc()")) ∧
    (∀ (callback : Option (Game → Game × LuaResult)) (g : Game), M.Disabled = true →
      SetHeightMapFunc M callback g = (g, .ok [])) := by
  refine ⟨fun s g => ⟨rfl, runMapScript_flag M L s g⟩, ?_, ?_, ?_, ?_,
    fun callback g hd => by simp [SetHeightMapFunc, hd]⟩
  · intro callback g hg
    rw [SetHeightMapFunc_flag, hg]
  · intro f g hd hg
    refine ⟨{ g with
      heightMapx1 := M.mapx, heightMapx2 := -1, heightMapz1 := M.mapy, heightMapz2 := 0,
      heightMapAmountChanged := 0, inHeightMap := true }, rfl, rfl, ?_, ?_⟩
    · simp only [SetHeightMapFunc, hd, hg, Bool.false_eq_true, if_false]
      split <;> rfl
    · intro e he
      simp only [SetHeightMapFunc, hd, hg, Bool.false_eq_true, if_false, he]
  · intro f g hd hg
    exact ⟨by simp [SetHeightMapFunc, hd, hg], by simp [SetHeightMapFunc, hd]⟩
  · intro L1 g hg
    exact ⟨by simp [AddHeightMap, hg], by simp [SetHeightMap, hg]⟩

theorem height_map_edit_window_witness :
    (runMapScript exMap {} exTerraform (PushEntries {})).1.inHeightMap = false ∧
      SetHeightMapFunc exMap (some (runMapScript exMap {} .done)) exHeightGame
        = (exHeightGame, .error "SetHeightMapFunc() recursion is not permitted") ∧
      SetHeightMap exMap exLower (PushEntries {})
        = (PushEntries {}, .error "SetHeightMap() can only be called in SetHeightMapFunc()") := by
  have h := height_map_edit_window exMap {}
  exact ⟨(h.1 exTerraform (PushEntries {})).2.trans (h.1 exTerraform {}).1,
    (h.2.2.2.1 (runMapScript exMap {} .done) exHeightGame rfl rfl).1,
    (h.2.2.2.2.1 exLower (PushEntries {}) rfl).2⟩

/-! ## C26 -/

theorem Game.counter_setCounter (g : Game) (c c1 : Counter) (v : Int) :
    (g.setCounter c v).counter c1 = if c1 = c then v else g.counter c1 := by
  cases c <;> cases c1 <;> simp [Game.setCounter, Game.counter]

theorem Game.countersBounded_raise (g : Game) (MAX_CMD_RECURSION_DEPTH : Nat) (c : Counter)
    (hg : g.countersBounded MAX_CMD_RECURSION_DEPTH)
    (hlim : ¬ g.counter c ≥ (MAX_CMD_RECURSION_DEPTH : Int)) :
    (g.setCounter c (g.counter c + 1)).countersBounded MAX_CMD_RECURSION_DEPTH := by
  intro c1
  rw [Game.counter_setCounter]
  have h := hg c1
  have hc := hg c
  split_ifs <;> omega

theorem countersKept_refl {MAX_CMD_RECURSION_DEPTH : Nat} {g : Game}
    (hg : g.countersBounded MAX_CMD_RECURSION_DEPTH) :
    countersKept MAX_CMD_RECURSION_DEPTH g g :=
  ⟨hg, fun _ => le_refl _⟩

theorem countersKept_of_counter_eq {MAX_CMD_RECURSION_DEPTH : Nat} {g g1 g2 : Game}
    (h : countersKept MAX_CMD_RECURSION_DEPTH g g1) (he : ∀ c, g2.counter c = g1.counter c) :
    countersKept MAX_CMD_RECURSION_DEPTH g g2 :=
  ⟨fun c => by rw [he c]; exact h.1 c, fun c => by rw [he c]; exact h.2 c⟩

/-- The region between increment and decrement: when what runs in it keeps
the counters, so does the region as a whole. -/
theorem guarded_region_kept (MAX_CMD_RECURSION_DEPTH : Nat) (c : Counter) (body : Game → Game)
    (hbody : keepsCounters MAX_CMD_RECURSION_DEPTH body) (g : Game)
    (hg : g.countersBounded MAX_CMD_RECURSION_DEPTH)
    (hlim : ¬ g.counter c ≥ (MAX_CMD_RECURSION_DEPTH : Int)) :
    countersKept MAX_CMD_RECURSION_DEPTH g
      ((body (g.setCounter c (g.counter c + 1))).setCounter c
        ((body (g.setCounter c (g.counter c + 1))).counter c - 1)) := by
  have hg1 := Game.countersBounded_raise g MAX_CMD_RECURSION_DEPTH c hg hlim
  obtain ⟨f1, m1⟩ := hbody _ hg1
  have hself := m1 c
  rw [Game.counter_setCounter, if_pos rfl] at hself
  constructor
  · intro c1
    rw [Game.counter_setCounter]
    have h := f1 c1
    have hc := f1 c
    have h0 := hg c
    split_ifs <;> omega
  · intro c1
    rw [Game.counter_setCounter]
    have hm := m1 c1
    rw [Game.counter_setCounter] at hm
    split_ifs with hc
    · subst hc
      omega
    · rw [if_neg hc] at hm
      exact hm

/-- Leaving by error after the increment keeps the counters. -/
theorem raised_counter_kept (MAX_CMD_RECURSION_DEPTH : Nat) (c : Counter) (g : Game)
    (hg : g.countersBounded MAX_CMD_RECURSION_DEPTH)
    (hlim : ¬ g.counter c ≥ (MAX_CMD_RECURSION_DEPTH : Int)) :
    countersKept MAX_CMD_RECURSION_DEPTH g (g.setCounter c (g.counter c + 1)) := by
  refine ⟨Game.countersBounded_raise g MAX_CMD_RECURSION_DEPTH c hg hlim, ?_⟩
  intro c1
  rw [Game.counter_setCounter]
  split_ifs with hc
  · subst hc
    omega
  · exact le_refl _

theorem Game.counter_modifyUnit (g : Game) (unitID : Int) (f : CUnit → CUnit) (c : Counter) :
    (g.modifyUnit unitID f).counter c = g.counter c := by
  cases c <;> rfl

theorem Game.counter_GarbageCollectUnit (g : Game) (unitID : Int) (c : Counter) :
    (g.GarbageCollectUnit unitID).counter c = g.counter c := by
  cases c <;> rfl

theorem DestroyFeatureCommon_kept (MAX_CMD_RECURSION_DEPTH : Nat)
    (DeleteFeature : Int → Game → Game)
    (hcb : ∀ featureID, keepsCounters MAX_CMD_RECURSION_DEPTH (DeleteFeature featureID))
    (featureID : Int) (g : Game) (hg : g.countersBounded MAX_CMD_RECURSION_DEPTH) :
    countersKept MAX_CMD_RECURSION_DEPTH g
      (DestroyFeatureCommon MAX_CMD_RECURSION_DEPTH DeleteFeature featureID g).1 := by
  unfold DestroyFeatureCommon
  split
  · exact countersKept_refl hg
  · rename_i hlim
    exact guarded_region_kept MAX_CMD_RECURSION_DEPTH .inDestroyFeature (DeleteFeature featureID)
      (hcb featureID) g hg hlim

theorem countersKept_trans {MAX_CMD_RECURSION_DEPTH : Nat} {g g1 g2 : Game}
    (h1 : countersKept MAX_CMD_RECURSION_DEPTH g g1)
    (h2 : countersKept MAX_CMD_RECURSION_DEPTH g1 g2) :
    countersKept MAX_CMD_RECURSION_DEPTH g g2 :=
  ⟨h2.1, fun c => le_trans (h1.2 c) (h2.2 c)⟩

theorem keepsCounters_ForcedKillUnit (MAX_CMD_RECURSION_DEPTH : Nat)
    (UnitDestroyed : Int → Game → Game)
    (hcb : ∀ unitID, keepsCounters MAX_CMD_RECURSION_DEPTH (UnitDestroyed unitID))
    (unitID : Int) (recycleID : Bool) :
    keepsCounters MAX_CMD_RECURSION_DEPTH
      (fun g1 => if recycleID then (g1.ForcedKillUnit UnitDestroyed unitID).GarbageCollectUnit unitID
        else g1.ForcedKillUnit UnitDestroyed unitID) := by
  intro g1 hg1
  have hb : (g1.modifyUnit unitID (fun u => { u with isDead := true })).countersBounded
      MAX_CMD_RECURSION_DEPTH := fun c => by
    rw [Game.counter_modifyUnit]
    exact hg1 c
  have h := hcb unitID _ hb
  have h1 : countersKept MAX_CMD_RECURSION_DEPTH g1 (g1.ForcedKillUnit UnitDestroyed unitID) :=
    ⟨h.1, fun c => by
      have := h.2 c
      rw [Game.counter_modifyUnit] at this
      exact this⟩
  cases recycleID with
  | false => exact h1
  | true => exact countersKept_of_counter_eq h1 (fun c => Game.counter_GarbageCollectUnit _ _ c)

theorem DestroyUnit_kept (MAX_CMD_RECURSION_DEPTH : Nat) (UnitDestroyed : Int → Game → Game)
    (hcb : ∀ unitID, keepsCounters MAX_CMD_RECURSION_DEPTH (UnitDestroyed unitID))
    (L : lua_State) (g : Game) (hg : g.countersBounded MAX_CMD_RECURSION_DEPTH) :
    countersKept MAX_CMD_RECURSION_DEPTH g
      (DestroyUnit MAX_CMD_RECURSION_DEPTH UnitDestroyed L g).1 := by
  unfold DestroyUnit
  split
  · exact countersKept_refl hg
  · split
    · exact countersKept_refl hg
    · exact countersKept_refl hg
    · rename_i unit _
      split
      · exact countersKept_refl hg
      · split
        · exact countersKept_refl hg
        · split
          · exact countersKept_refl hg
          · rename_i recycleID _
            split
            · exact countersKept_refl hg
            · split
              · exact countersKept_refl hg
              · rename_i hlim
                exact guarded_region_kept MAX_CMD_RECURSION_DEPTH .inDestroyUnit _
                  (keepsCounters_ForcedKillUnit MAX_CMD_RECURSION_DEPTH UnitDestroyed hcb unit.id
                    recycleID) g hg hlim

theorem CreateUnit_kept (MAX_CMD_RECURSION_DEPTH : Nat) (S : UnitServices)
    (hload : ∀ params, keepsCounters MAX_CMD_RECURSION_DEPTH (fun g => (S.LoadUnit params g).1))
    (hsolo : ∀ newID builder unitDef,
      keepsCounters MAX_CMD_RECURSION_DEPTH (S.SetSoloBuilder newID builder unitDef))
    (L : lua_State) (g : Game) (hg : g.countersBounded MAX_CMD_RECURSION_DEPTH) :
    countersKept MAX_CMD_RECURSION_DEPTH g (CreateUnit MAX_CMD_RECURSION_DEPTH S L g).1 := by
  have hreg := fun (hlim : ¬ g.inCreateUnit ≥ (MAX_CMD_RECURSION_DEPTH : Int))
      (params : UnitLoadParams) =>
    guarded_region_kept MAX_CMD_RECURSION_DEPTH .inCreateUnit _ (hload params) g hg hlim
  simp only [CreateUnit]
  repeat' split
  all_goals first
    | exact countersKept_refl hg
    | exact raised_counter_kept MAX_CMD_RECURSION_DEPTH .inCreateUnit g hg
        ‹¬ g.inCreateUnit ≥ (MAX_CMD_RECURSION_DEPTH : Int)›
    | exact hreg ‹¬ g.inCreateUnit ≥ (MAX_CMD_RECURSION_DEPTH : Int)› _
    | exact countersKept_trans (hreg ‹¬ g.inCreateUnit ≥ (MAX_CMD_RECURSION_DEPTH : Int)› _)
        (hsolo _ _ _ _ (hreg ‹¬ g.inCreateUnit ≥ (MAX_CMD_RECURSION_DEPTH : Int)› _).1)

theorem giveOrdersStep_counter (L : lua_State) (acc : Game × Nat) (uc : Int × List Command)
    (c : Counter) : (giveOrdersStep L acc uc).1.counter c = acc.1.counter c := by
  unfold giveOrdersStep
  split
  · rfl
  · split
    · simp only []
      generalize acc.1 = g0
      induction uc.2 generalizing g0 with
      | nil => rfl
      | cons cmd rest ih =>
        simp only [List.foldl_cons]
        rw [ih]
        exact Game.counter_modifyUnit _ _ _ c
    · rfl

theorem giveOrders_foldl_counter (L : lua_State) (ucs : List (Int × List Command))
    (acc : Game × Nat) (c : Counter) :
    (ucs.foldl (giveOrdersStep L) acc).1.counter c = acc.1.counter c := by
  induction ucs generalizing acc with
  | nil => rfl
  | cons uc rest ih =>
    simp only [List.foldl_cons]
    rw [ih, giveOrdersStep_counter]

theorem keepsCounters_giveOrders (MAX_CMD_RECURSION_DEPTH : Nat) (L : lua_State)
    (ucs : List (Int × List Command)) :
    keepsCounters MAX_CMD_RECURSION_DEPTH (fun g1 => (ucs.foldl (giveOrdersStep L) (g1, 0)).1) :=
  fun _ hg1 => countersKept_of_counter_eq (countersKept_refl hg1)
    (fun c => giveOrders_foldl_counter L ucs _ c)

theorem GiveOrderArrayToUnitArray_kept (MAX_CMD_RECURSION_DEPTH : Nat) (U : LuaUtils)
    (L : lua_State) (g : Game) (hg : g.countersBounded MAX_CMD_RECURSION_DEPTH) :
    countersKept MAX_CMD_RECURSION_DEPTH g
      (GiveOrderArrayToUnitArray MAX_CMD_RECURSION_DEPTH U L g).1 := by
  unfold GiveOrderArrayToUnitArray
  split
  · exact countersKept_refl hg
  · split
    · exact countersKept_refl hg
    · rename_i units _
      split
      · exact countersKept_refl hg
      · rename_i commands _
        split
        · exact countersKept_refl hg
        · split
          · exact countersKept_refl hg
          · rename_i hlim
            split
            · exact raised_counter_kept MAX_CMD_RECURSION_DEPTH .inGiveOrder g hg hlim
            · rename_i pairwise _
              cases pairwise with
              | true =>
                exact guarded_region_kept MAX_CMD_RECURSION_DEPTH .inGiveOrder _
                  (keepsCounters_giveOrders MAX_CMD_RECURSION_DEPTH L
                    ((units.zip commands).map (fun uc => (uc.1, [uc.2])))) g hg hlim
              | false =>
                exact guarded_region_kept MAX_CMD_RECURSION_DEPTH .inGiveOrder _
                  (keepsCounters_giveOrders MAX_CMD_RECURSION_DEPTH L
                    (units.map (fun u => (u, commands)))) g hg hlim

theorem GiveOrderToUnit_kept (MAX_CMD_RECURSION_DEPTH : Nat) (U : LuaUtils)
    (L : lua_State) (g : Game) (hg : g.countersBounded MAX_CMD_RECURSION_DEPTH) :
    countersKept MAX_CMD_RECURSION_DEPTH g (GiveOrderToUnit MAX_CMD_RECURSION_DEPTH U L g).1 := by
  have hbody : ∀ (unitID : Int) (cmd : Command),
      keepsCounters MAX_CMD_RECURSION_DEPTH (fun g1 => g1.GiveCommand unitID cmd) :=
    fun unitID cmd _ hg1 => countersKept_of_counter_eq (countersKept_refl hg1)
      (fun c => Game.counter_modifyUnit _ _ _ c)
  simp only [GiveOrderToUnit]
  repeat' split
  all_goals first
    | exact countersKept_refl hg
    | exact guarded_region_kept MAX_CMD_RECURSION_DEPTH .inGiveOrder _ (hbody _ _) g hg
        ‹¬ g.inGiveOrder ≥ (MAX_CMD_RECURSION_DEPTH : Int)›

theorem GiveOrderToUnitMap_kept (MAX_CMD_RECURSION_DEPTH : Nat) (U : LuaUtils)
    (L : lua_State) (g : Game) (hg : g.countersBounded MAX_CMD_RECURSION_DEPTH) :
    countersKept MAX_CMD_RECURSION_DEPTH g
      (GiveOrderToUnitMap MAX_CMD_RECURSION_DEPTH U L g).1 := by
  simp only [GiveOrderToUnitMap]
  repeat' split
  all_goals first
    | exact countersKept_refl hg
    | exact guarded_region_kept MAX_CMD_RECURSION_DEPTH .inGiveOrder _
        (keepsCounters_giveOrders MAX_CMD_RECURSION_DEPTH L _) g hg
        ‹¬ g.inGiveOrder ≥ (MAX_CMD_RECURSION_DEPTH : Int)›

theorem GiveOrderToUnitArray_kept (MAX_CMD_RECURSION_DEPTH : Nat) (U : LuaUtils)
    (L : lua_State) (g : Game) (hg : g.countersBounded MAX_CMD_RECURSION_DEPTH) :
    countersKept MAX_CMD_RECURSION_DEPTH g
      (GiveOrderToUnitArray MAX_CMD_RECURSION_DEPTH U L g).1 := by
  simp only [GiveOrderToUnitArray]
  repeat' split
  all_goals first
    | exact countersKept_refl hg
    | exact guarded_region_kept MAX_CMD_RECURSION_DEPTH .inGiveOrder _
        (keepsCounters_giveOrders MAX_CMD_RECURSION_DEPTH L _) g hg
        ‹¬ g.inGiveOrder ≥ (MAX_CMD_RECURSION_DEPTH : Int)›

/-- The counters after a chunk: every state the run went through has its
counters within bounds, and no counter ends below its value at the start. -/
theorem runScript_bounded (MAX_CMD_RECURSION_DEPTH : Nat) (s : Script) (g : Game)
    (hg : g.countersBounded MAX_CMD_RECURSION_DEPTH) :
    (∀ g1 ∈ (runScript MAX_CMD_RECURSION_DEPTH s g).trace,
        g1.countersBounded MAX_CMD_RECURSION_DEPTH) ∧
      (runScript MAX_CMD_RECURSION_DEPTH s g).final.countersBounded MAX_CMD_RECURSION_DEPTH ∧
      ∀ c, g.counter c ≤ (runScript MAX_CMD_RECURSION_DEPTH s g).final.counter c := by
  induction s generalizing g with
  | done =>
    refine ⟨?_, hg, fun c => le_refl _⟩
    intro g1 h1
    simp only [runScript, List.mem_singleton] at h1
    exact h1 ▸ hg
  | raise =>
    refine ⟨?_, hg, fun c => le_refl _⟩
    intro g1 h1
    simp only [runScript, List.mem_singleton] at h1
    exact h1 ▸ hg
  | pcall body next ih1 ih2 =>
    obtain ⟨t1, f1, m1⟩ := ih1 g hg
    obtain ⟨t2, f2, m2⟩ := ih2 _ f1
    simp only [runScript]
    refine ⟨?_, f2, fun c => le_trans (m1 c) (m2 c)⟩
    intro g1 h1
    rcases List.mem_append.mp h1 with h | h
    · exact t1 g1 h
    · exact t2 g1 h
  | call f p callIns next ih1 ih2 =>
    have hstop : (∀ g1 ∈ [g], g1.countersBounded MAX_CMD_RECURSION_DEPTH) := by
      intro g1 h1
      simp only [List.mem_singleton] at h1
      exact h1 ▸ hg
    have hgo : ¬ g.counter f.counter ≥ (MAX_CMD_RECURSION_DEPTH : Int) →
        (∀ g1 ∈ (g :: (runScript MAX_CMD_RECURSION_DEPTH callIns
              (g.setCounter f.counter (g.counter f.counter + 1))).trace
            ++ (runScript MAX_CMD_RECURSION_DEPTH next
              ((runScript MAX_CMD_RECURSION_DEPTH callIns
                  (g.setCounter f.counter (g.counter f.counter + 1))).final.setCounter f.counter
                ((runScript MAX_CMD_RECURSION_DEPTH callIns
                  (g.setCounter f.counter (g.counter f.counter + 1))).final.counter f.counter
                  - 1))).trace),
          g1.countersBounded MAX_CMD_RECURSION_DEPTH) ∧
        (runScript MAX_CMD_RECURSION_DEPTH next
              ((runScript MAX_CMD_RECURSION_DEPTH callIns
                  (g.setCounter f.counter (g.counter f.counter + 1))).final.setCounter f.counter
                ((runScript MAX_CMD_RECURSION_DEPTH callIns
                  (g.setCounter f.counter (g.counter f.counter + 1))).final.counter f.counter
                  - 1))).final.countersBounded MAX_CMD_RECURSION_DEPTH ∧
        ∀ c, g.counter c ≤ (runScript MAX_CMD_RECURSION_DEPTH next
              ((runScript MAX_CMD_RECURSION_DEPTH callIns
                  (g.setCounter f.counter (g.counter f.counter + 1))).final.setCounter f.counter
                ((runScript MAX_CMD_RECURSION_DEPTH callIns
                  (g.setCounter f.counter (g.counter f.counter + 1))).final.counter f.counter
                  - 1))).final.counter c := by
      intro hlim
      have hg1 := Game.countersBounded_raise g MAX_CMD_RECURSION_DEPTH f.counter hg hlim
      obtain ⟨t1, f1, m1⟩ := ih1 _ hg1
      have hself := m1 f.counter
      rw [Game.counter_setCounter, if_pos rfl] at hself
      have hg2 : ((runScript MAX_CMD_RECURSION_DEPTH callIns
            (g.setCounter f.counter (g.counter f.counter + 1))).final.setCounter f.counter
          ((runScript MAX_CMD_RECURSION_DEPTH callIns
            (g.setCounter f.counter (g.counter f.counter + 1))).final.counter f.counter
            - 1)).countersBounded MAX_CMD_RECURSION_DEPTH := by
        intro c1
        rw [Game.counter_setCounter]
        have h := f1 c1
        have hc := f1 f.counter
        have h0 := hg f.counter
        split_ifs <;> omega
      obtain ⟨t2, f2, m2⟩ := ih2 _ hg2
      refine ⟨?_, f2, ?_⟩
      · intro g1 h1
        rcases List.mem_cons.mp h1 with h | h
        · exact h ▸ hg
        · rcases List.mem_append.mp h with h | h
          · exact t1 g1 h
          · exact t2 g1 h
      · intro c
        refine le_trans ?_ (m2 c)
        rw [Game.counter_setCounter]
        have hm := m1 c
        rw [Game.counter_setCounter] at hm
        split_ifs with hc
        · subst hc
          omega
        · rw [if_neg hc] at hm
          exact hm
    cases p with
    | early raises =>
      cases raises with
      | true =>
        simp only [runScript, if_true]
        exact ⟨hstop, hg, fun c => le_refl _⟩
      | false =>
        simp only [runScript, Bool.false_eq_true, if_false]
        exact ih2 g hg
    | inside =>
      simp only [runScript]
      by_cases hlim : g.counter f.counter ≥ (MAX_CMD_RECURSION_DEPTH : Int)
      · simp only [hlim, if_true]
        exact ⟨hstop, hg, fun c => le_refl _⟩
      · simp only [hlim, if_false]
        cases hr : f.raisesInside with
        | true =>
          have hg1 := Game.countersBounded_raise g MAX_CMD_RECURSION_DEPTH f.counter hg hlim
          simp only [if_true]
          refine ⟨?_, hg1, ?_⟩
          · intro g1 h1
            simp only [List.mem_cons, List.mem_singleton, List.not_mem_nil, or_false] at h1
            rcases h1 with h | h
            · exact h ▸ hg
            · exact h ▸ hg1
          · intro c
            rw [Game.counter_setCounter]
            split_ifs with hc
            · subst hc
              omega
            · exact le_refl _
        | false =>
          simp only [Bool.false_eq_true, if_false]
          exact hgo hlim
    | through =>
      simp only [runScript]
      by_cases hlim : g.counter f.counter ≥ (MAX_CMD_RECURSION_DEPTH : Int)
      · simp only [hlim, if_true]
        exact ⟨hstop, hg, fun c => le_refl _⟩
      · simp only [hlim, if_false, Bool.false_eq_true]
        exact hgo hlim

theorem PushEntries_countersBounded (g : Game) (MAX_CMD_RECURSION_DEPTH : Nat) :
    (PushEntries g).countersBounded MAX_CMD_RECURSION_DEPTH := by
  intro c
  cases c <;> simp [PushEntries, Game.counter]

/-- C26: (1) from the state that `PushEntries` leaves, every chunk of calls to
the twelve guarded functions, with call-ins that re-enter them to any depth,
calls under `pcall` and exits by error before the recursion test, at it and
between increment and decrement, goes only through states in which each of
the six counters lies between 0 and `MAX_CMD_RECURSION_DEPTH`, and ends in
such a state.  (2) The functions `CreateUnit`, `DestroyUnit`,
`DestroyFeatureCommon`, `GiveOrderArrayToUnitArray`, `GiveOrderToUnit`,
`GiveOrderToUnitMap` and `GiveOrderToUnitArray`, called in a state whose
counters are within these bounds, leave a state whose counters are within
them and none of which is lower than before, on every exit, provided the
collaborators that call back (unit loading and solo-builder setting, the
unit-destroyed call-in, feature deletion) do the same. -/
theorem recursion_counters_within_bounds (MAX_CMD_RECURSION_DEPTH : Nat) :
    (∀ (s : Script) (g0 : Game),
      (∀ g ∈ (runScript MAX_CMD_RECURSION_DEPTH s (PushEntries g0)).trace, ∀ c : Counter,
        0 ≤ g.counter c ∧ g.counter c ≤ (MAX_CMD_RECURSION_DEPTH : Int)) ∧
      ∀ c : Counter,
        0 ≤ (runScript MAX_CMD_RECURSION_DEPTH s (PushEntries g0)).final.counter c ∧
        (runScript MAX_CMD_RECURSION_DEPTH s (PushEntries g0)).final.counter c
          ≤ (MAX_CMD_RECURSION_DEPTH : Int)) ∧
    (∀ (S : UnitServices) (L : lua_State) (g : Game),
      (∀ params, keepsCounters MAX_CMD_RECURSION_DEPTH (fun g1 => (S.LoadUnit params g1).1)) →
      (∀ newID builder unitDef,
        keepsCounters MAX_CMD_RECURSION_DEPTH (S.SetSoloBuilder newID builder unitDef)) →
      g.countersBounded MAX_CMD_RECURSION_DEPTH →
      countersKept MAX_CMD_RECURSION_DEPTH g (CreateUnit MAX_CMD_RECURSION_DEPTH S L g).1) ∧
    (∀ (UnitDestroyed : Int → Game → Game) (L : lua_State) (g : Game),
      (∀ unitID, keepsCounters MAX_CMD_RECURSION_DEPTH (UnitDestroyed unitID)) →
      g.countersBounded MAX_CMD_RECURSION_DEPTH →
      countersKept MAX_CMD_RECURSION_DEPTH g
        (DestroyUnit MAX_CMD_RECURSION_DEPTH UnitDestroyed L g).1) ∧
    (∀ (DeleteFeature : Int → Game → Game) (featureID : Int) (g : Game),
      (∀ featureID1, keepsCounters MAX_CMD_RECURSION_DEPTH (DeleteFeature featureID1)) →
      g.countersBounded MAX_CMD_RECURSION_DEPTH →
      countersKept MAX_CMD_RECURSION_DEPTH g
        (DestroyFeatureCommon MAX_CMD_RECURSION_DEPTH DeleteFeature featureID g).1) ∧
    (∀ (U : LuaUtils) (L : lua_State) (g : Game), g.countersBounded MAX_CMD_RECURSION_DEPTH →
      countersKept MAX_CMD_RECURSION_DEPTH g
        (GiveOrderArrayToUnitArray MAX_CMD_RECURSION_DEPTH U L g).1 ∧
      countersKept MAX_CMD_RECURSION_DEPTH g (GiveOrderToUnit MAX_CMD_RECURSION_DEPTH U L g).1 ∧
      countersKept MAX_CMD_RECURSION_DEPTH g
        (GiveOrderToUnitMap MAX_CMD_RECURSION_DEPTH U L g).1 ∧
      countersKept MAX_CMD_RECURSION_DEPTH g
        (GiveOrderToUnitArray MAX_CMD_RECURSION_DEPTH U L g).1) := by
  refine ⟨?_, ?_, ?_, ?_, ?_⟩
  · intro s g0
    obtain ⟨h1, h2, _⟩ := runScript_bounded MAX_CMD_RECURSION_DEPTH s (PushEntries g0)
      (PushEntries_countersBounded g0 MAX_CMD_RECURSION_DEPTH)
    exact ⟨fun g hg c => h1 g hg c, fun c => h2 c⟩
  · intro S L g hload hsolo hg
    exact CreateUnit_kept MAX_CMD_RECURSION_DEPTH S hload hsolo L g hg
  · intro UnitDestroyed L g hcb hg
    exact DestroyUnit_kept MAX_CMD_RECURSION_DEPTH UnitDestroyed hcb L g hg
  · intro DeleteFeature featureID g hcb hg
    exact DestroyFeatureCommon_kept MAX_CMD_RECURSION_DEPTH DeleteFeature hcb featureID g hg
  · intro U L g hg
    exact ⟨GiveOrderArrayToUnitArray_kept MAX_CMD_RECURSION_DEPTH U L g hg,
      GiveOrderToUnit_kept MAX_CMD_RECURSION_DEPTH U L g hg,
      GiveOrderToUnitMap_kept MAX_CMD_RECURSION_DEPTH U L g hg,
      GiveOrderToUnitArray_kept MAX_CMD_RECURSION_DEPTH U L g hg⟩

theorem recursion_counters_within_bounds_witness :
    (runScript 2 exCascade (PushEntries {})).trace.map
        (fun g => (g.inCreateUnit, g.inDestroyUnit))
      = [(0, 0), (1, 0), (1, 0), (1, 1), (1, 2), (1, 1), (1, 0)] ∧
      (∀ c : Counter, 0 ≤ (runScript 2 exCascade (PushEntries {})).final.counter c ∧
        (runScript 2 exCascade (PushEntries {})).final.counter c ≤ 2) ∧
      countersKept 16 (PushEntries {})
        (CreateUnit 16 exServices exCreateBadBuilder (PushEntries {})).1 := by
  have h := recursion_counters_within_bounds
  refine ⟨by decide, ((h 2).1 exCascade {}).2, ?_⟩
  exact (h 16).2.1 exServices exCreateBadBuilder (PushEntries {})
    (fun _ _ hg1 => countersKept_refl hg1) (fun _ _ _ _ hg1 => countersKept_refl hg1)
    (PushEntries_countersBounded {} 16)

end LuaSyncedCtrl
